import Mathlib

/-! # Procedural arena generator (`code/game/g_arena_gen.c`)

A shallow embedding of the seeded generator, the room/corridor builder, the
entity placement passes and the roguelike run, followed by theorems about them.

Conventions of the embedding.

* A C `int` is an `Int`; an arithmetic expression that can leave the 32-bit
  range for some argument of the enclosing function is reduced with `wrap32`
  (two's-complement wraparound).  `unsigned int` values are `Nat`s below `2^32`.
* C integer division and remainder truncate toward zero: `Int.tdiv`, `Int.tmod`.
* The global `arenaRandSeed` is threaded explicitly: a function that draws takes
  the state as its last argument and returns the new state next to its result.
* A `vec3_t` holds `float`s (IEEE 754 binary32).  Every float the file computes is
  a sum or difference of floats that hold integers and of `int`s, hence an integer
  again, so a component is the `Int` it holds.  The arithmetic is that of the
  source: an `int` operand is converted to `float` and the result is rounded to
  binary32, to nearest with ties to even (`f32`, `floatAddInt`, `floatSubInt`),
  every operation being evaluated in binary32.  Integers of magnitude up to `2^24`
  are not changed by the rounding.  An arena that is the argument of a placement
  function is taken to hold integers in its vectors too, as every arena the
  generator builds does.
* The singly linked room chain (`arenaRoom_t::next`) is a `List`: the head of the
  list is the node `arena->rooms` points to, the tail is what `next` reaches, and
  `[]` is `NULL`.
* A fixed-capacity table together with its counter is the `List` of the entries
  written so far (entry `k` is slot `k`; the slots behind it still hold the zeros
  of `memset`) and the counter as its own `Int` field.
* `G_Printf` has no effect on the state and is left out; `G_Alloc` is taken to
  succeed.
-/

namespace ArenaGen

/-! ## Machine integers -/

/-- Two's-complement reduction of an integer to the range of a 32-bit `int`. -/
def wrap32 (x : Int) : Int := (x + 2147483648) % 4294967296 - 2147483648

/-- Conversion of an `int` to `unsigned int` (reduction modulo `2^32`). -/
def toU32 (x : Int) : Nat := (x % 4294967296).toNat

/-! ## Floats -/

/-- The spacing of the binary32 values around the magnitude `n`: 1 below `2^24`,
and doubled with every further power of two (the significand has 24 bits).  The
first argument bounds the number of doublings. -/
def ulp32 : Nat → Nat → Nat
  | 0, _ => 1
  | fuel + 1, n => if n < 16777216 then 1 else 2 * ulp32 fuel (n / 2)

/-- The binary32 value nearest to the natural number `n`, ties going to the even
significand.  105 doublings reach the spacing of the largest finite floats, below
`2^128`; the file never comes near that magnitude, and the overflow to infinity
behind it is not modelled. -/
def roundNat32 (n : Nat) : Nat :=
  let u := ulp32 105 n
  let q := n / u
  let r := n % u
  if 2 * r < u ∨ (2 * r = u ∧ q % 2 = 0) then q * u else (q + 1) * u

/-- Conversion of an integer to `float`, which is also the rounding of an exact
integer result of float arithmetic: to nearest, ties to even, symmetric in sign. -/
def f32 (x : Int) : Int :=
  if 0 ≤ x then (roundNat32 x.toNat : Int) else -(roundNat32 (-x).toNat : Int)

/-- The C expression `x + i` for a `float x` holding an integer and an `int i`: `i`
is converted to `float` and the sum of the two floats is rounded. -/
def floatAddInt (x i : Int) : Int := f32 (x + f32 i)

/-- The C expression `x - i` for a `float x` holding an integer and an `int i`. -/
def floatSubInt (x i : Int) : Int := f32 (x - f32 i)

/-! ## Constants and enumerations (`g_arena_gen.h`) -/

def MAX_ARENA_ROOMS : Int := 64
def MAX_ARENA_CORRIDORS : Int := 128
def MAX_ARENA_BRUSHES : Int := 4096
def MAX_ARENA_ENTITIES : Int := 512

/-- A C enumeration is an `int`; the enumerators are the constants below. -/
abbrev roomType_t := Int

def ROOM_TYPE_ARENA : roomType_t := 0
def ROOM_TYPE_CORRIDOR : roomType_t := 1
def ROOM_TYPE_JUNCTION : roomType_t := 2
def ROOM_TYPE_MULTILEVEL : roomType_t := 3
def ROOM_TYPE_HAZARD : roomType_t := 4
def ROOM_TYPE_BOSS : roomType_t := 5
def ROOM_TYPE_START : roomType_t := 6
def ROOM_TYPE_EXIT : roomType_t := 7
def ROOM_TYPE_COUNT : roomType_t := 8

abbrev arenaTheme_t := Int

def THEME_TECH : arenaTheme_t := 0
def THEME_GOTHIC : arenaTheme_t := 1
def THEME_SPACE : arenaTheme_t := 2
def THEME_HELL : arenaTheme_t := 3
def THEME_RANDOM : arenaTheme_t := 4
def THEME_COUNT : arenaTheme_t := 5

abbrev roomDifficulty_t := Int

def DIFFICULTY_EASY : roomDifficulty_t := 0
def DIFFICULTY_MEDIUM : roomDifficulty_t := 1
def DIFFICULTY_HARD : roomDifficulty_t := 2
def DIFFICULTY_BOSS : roomDifficulty_t := 3
def DIFFICULTY_COUNT : roomDifficulty_t := 4

/-! ## Data model (`g_arena_gen.h`) -/

/-- A point or extent, `vec3_t`; `x`, `y`, `z` are the components `[0]`, `[1]`, `[2]`,
floats that hold integers. -/
structure vec3_t where
  x : Int
  y : Int
  z : Int
  deriving DecidableEq, Repr

/-- The struct `arenaRoom_t` without its `next` pointer (the chain is a `List`)
and without `connectedRooms`, which no function of the file reads or writes. -/
structure arenaRoom_t where
  type : roomType_t
  origin : vec3_t
  mins : vec3_t
  maxs : vec3_t
  width : Int
  height : Int
  depth : Int
  theme : arenaTheme_t
  difficulty : roomDifficulty_t
  numConnections : Int
  isBossRoom : Bool
  isStartRoom : Bool
  isExitRoom : Bool
  entityCount : Int
  deriving DecidableEq, Repr

/-- The struct `arenaCorridor_t`. -/
structure arenaCorridor_t where
  roomA : Int
  roomB : Int
  start : vec3_t
  «end» : vec3_t
  width : Int
  theme : arenaTheme_t
  deriving DecidableEq, Repr

/-- The struct `arena_t`.  `generationTime` keeps the millisecond difference of
the two clock readings (the source scales it to seconds in floating point). -/
structure arena_t where
  seed : Int
  depth : Int
  theme : arenaTheme_t
  rooms : List arenaRoom_t
  numRooms : Int
  corridors : List arenaCorridor_t
  numCorridors : Int
  worldMins : vec3_t
  worldMaxs : vec3_t
  playerSpawns : List vec3_t
  numPlayerSpawns : Int
  enemySpawns : List vec3_t
  numEnemySpawns : Int
  itemSpawns : List vec3_t
  numItemSpawns : Int
  exitPortal : vec3_t
  totalArea : Int
  totalBrushes : Int
  generationTime : Int
  deriving DecidableEq, Repr

/-- The arena right after `memset(arena, 0, sizeof(arena_t))`. -/
def zeroArena : arena_t :=
  { seed := 0, depth := 0, theme := 0, rooms := [], numRooms := 0,
    corridors := [], numCorridors := 0,
    worldMins := ⟨0, 0, 0⟩, worldMaxs := ⟨0, 0, 0⟩,
    playerSpawns := [], numPlayerSpawns := 0,
    enemySpawns := [], numEnemySpawns := 0,
    itemSpawns := [], numItemSpawns := 0,
    exitPortal := ⟨0, 0, 0⟩, totalArea := 0, totalBrushes := 0, generationTime := 0 }

/-- Slots `0 .. written.length - 1` of a table are overwritten, the rest stay. -/
def tableStore {α : Type} (written old : List α) : List α :=
  written ++ old.drop written.length

/-! ## Seeded generator (`g_arena_gen.c`, lines 17-29) -/

/-- `ArenaRand`: one step of the linear congruential generator.  The first
component is the returned value, the second the new `arenaRandSeed`. -/
def ArenaRand (arenaRandSeed : Nat) : Nat × Nat :=
  let s := (arenaRandSeed * 1103515245 + 12345) % 4294967296
  ((s / 65536) % 32768, s)

/-- `ArenaSetSeed`: the old state is discarded. -/
def ArenaSetSeed (seed : Nat) (_arenaRandSeed : Nat) : Nat := seed

/-- `ArenaRandRange`.  In `min + (ArenaRand() % (max - min + 1))` the draw is
unsigned, so `max - min + 1` and `min` are converted to `unsigned int`, the sum
is taken modulo `2^32` and converted back to `int` on return.  The divisor is
zero only for `min = INT_MIN`, `max = INT_MAX`. -/
def ArenaRandRange (min max : Int) (arenaRandSeed : Nat) : Int × Nat :=
  if max ≤ min then (min, arenaRandSeed)
  else
    let r := ArenaRand arenaRandSeed
    (wrap32 ((toU32 min + r.1 % toU32 (max - min + 1) : Nat) : Int), r.2)

/-! ## Room creation (`g_arena_gen.c`, lines 82-110) -/

/-- `G_CreateRoom`.  `width / 2` and `depth / 2` are `int` divisions; the sums and
differences with the `float` coordinates of `origin` are float operations. -/
def G_CreateRoom (type : roomType_t) (origin : vec3_t) (width height depth : Int) :
    arenaRoom_t :=
  { type := type
    origin := origin
    width := width
    height := height
    depth := depth
    mins := ⟨floatSubInt origin.x (Int.tdiv width 2), floatSubInt origin.y (Int.tdiv depth 2),
      origin.z⟩
    maxs := ⟨floatAddInt origin.x (Int.tdiv width 2), floatAddInt origin.y (Int.tdiv depth 2),
      floatAddInt origin.z height⟩
    theme := THEME_TECH
    difficulty := DIFFICULTY_MEDIUM
    numConnections := 0
    isBossRoom := false
    isStartRoom := decide (type = ROOM_TYPE_START)
    isExitRoom := decide (type = ROOM_TYPE_EXIT)
    entityCount := 0 }

/-! ## Arena generation (`g_arena_gen.c`, lines 116-236) -/

/-- Lines 134-135: the local `numRooms`, clamped to `MAX_ARENA_ROOMS`. -/
def roomCount (depth : Int) (arenaRandSeed : Nat) : Int × Nat :=
  let k := ArenaRandRange 0 depth arenaRandSeed
  let numRooms := wrap32 (3 + depth + k.1)
  (if numRooms > MAX_ARENA_ROOMS then MAX_ARENA_ROOMS else numRooms, k.2)

/-- Lines 142-164: the type of the room at position `i`.  Inside the loop
`0 ≤ i < numRooms ≤ 64`, so `numRooms - 1` and `numRooms - 2` cannot overflow. -/
def roomTypeAt (numRooms depth i : Int) (arenaRandSeed : Nat) : roomType_t × Nat :=
  if i = 0 then (ROOM_TYPE_START, arenaRandSeed)
  else if i = numRooms - 1 then (ROOM_TYPE_EXIT, arenaRandSeed)
  else if Int.tmod depth 5 = 0 ∧ i = numRooms - 2 then (ROOM_TYPE_BOSS, arenaRandSeed)
  else
    let r := ArenaRandRange 0 100 arenaRandSeed
    (if r.1 < 40 then ROOM_TYPE_ARENA
     else if r.1 < 60 then ROOM_TYPE_CORRIDOR
     else if r.1 < 75 then ROOM_TYPE_JUNCTION
     else if r.1 < 90 then ROOM_TYPE_MULTILEVEL
     else ROOM_TYPE_HAZARD, r.2)

/-- Lines 167-179: `(width, height, roomDepth)` of a room of the given type. -/
def roomSize (depth : Int) (type : roomType_t) (arenaRandSeed : Nat) :
    (Int × Int × Int) × Nat :=
  let w := ArenaRandRange 0 128 arenaRandSeed
  let width := wrap32 (256 + w.1 + depth * 16)
  let h := ArenaRandRange 0 64 w.2
  let height := 256 + h.1
  let d := ArenaRandRange 0 128 h.2
  let roomDepth := wrap32 (256 + d.1 + depth * 16)
  if type = ROOM_TYPE_CORRIDOR then
    let c := ArenaRandRange 0 256 d.2
    ((512 + c.1, height, 128), c.2)
  else if type = ROOM_TYPE_BOSS then
    ((wrap32 (512 + depth * 32), 384, wrap32 (512 + depth * 32)), d.2)
  else ((width, height, roomDepth), d.2)

/-- The variables the room loop updates: `currentPos`, the chain headed by
`prevRoom`, `arena->numRooms` and the generator state. -/
structure roomLoopState where
  currentPos : vec3_t
  prevRoom : List arenaRoom_t
  numRooms : Int
  arenaRandSeed : Nat
  deriving DecidableEq, Repr

/-- Lines 142-198: one iteration of the room loop, at position `i`. -/
def roomStep (numRooms depth : Int) (theme : arenaTheme_t) (st : roomLoopState) (i : Nat) :
    roomLoopState :=
  let t := roomTypeAt numRooms depth i st.arenaRandSeed
  let sz := roomSize depth t.1 t.2
  let width := sz.1.1
  let room := { G_CreateRoom t.1 st.currentPos width sz.1.2.1 sz.1.2.2 with theme := theme }
  let pos : vec3_t :=
    { st.currentPos with x := floatAddInt st.currentPos.x (wrap32 (width + 128)) }
  let b := ArenaRand sz.2
  if b.1 % 3 = 0 ∧ (i : Int) > 0 then
    let off := ArenaRandRange (-256) 256 b.2
    { currentPos := { pos with y := floatAddInt pos.y off.1 }
      prevRoom := room :: st.prevRoom
      numRooms := st.numRooms + 1
      arenaRandSeed := off.2 }
  else
    { currentPos := pos
      prevRoom := room :: st.prevRoom
      numRooms := st.numRooms + 1
      arenaRandSeed := b.2 }

/-- Lines 138-199: `for (i = 0; i < numRooms; i++)`, which runs for
`i = 0, ..., numRooms - 1` (not at all when `numRooms ≤ 0`). -/
def roomLoop (numRooms depth : Int) (theme : arenaTheme_t) (arenaRandSeed : Nat) :
    roomLoopState :=
  (List.range numRooms.toNat).foldl (roomStep numRooms depth theme)
    { currentPos := ⟨0, 0, 0⟩, prevRoom := [], numRooms := 0, arenaRandSeed := arenaRandSeed }

/-- The variables the corridor loop updates: the table, `arena->numCorridors`
and `roomIndex`. -/
structure corridorLoopState where
  corridors : List arenaCorridor_t
  numCorridors : Int
  roomIndex : Int
  deriving DecidableEq, Repr

/-- Lines 205-218: `while (room && room->next)`.  The corridor is written to slot
`numCorridors`, which is the slot right behind the ones written before. -/
def corridorLoop (theme : arenaTheme_t) : List arenaRoom_t → corridorLoopState → corridorLoopState
  | room :: next :: rest, st =>
    corridorLoop theme (next :: rest)
      { corridors := st.corridors ++
          [{ roomA := st.roomIndex, roomB := st.roomIndex + 1,
             start := room.origin, «end» := next.origin, width := 128, theme := theme }]
        numCorridors := st.numCorridors + 1
        roomIndex := st.roomIndex + 1 }
  | _, st => st

/-! ## Entity placement (`g_arena_gen.c`, lines 256-357) -/

/-- The local variables of a placement loop: the entries written so far (entry
`k` went to slot `k`), the counter of the loop and the generator state. -/
structure placeState where
  spawns : List vec3_t
  placed : Int
  arenaRandSeed : Nat
  deriving DecidableEq, Repr

/-- Lines 264-272: the body of the player loop, run `n` times. -/
def playerSpawnLoop (room : arenaRoom_t) : Nat → placeState → placeState
  | 0, st => st
  | n + 1, st =>
    let dx := ArenaRandRange (-64) 64 st.arenaRandSeed
    let dy := ArenaRandRange (-64) 64 dx.2
    playerSpawnLoop room n
      { spawns := st.spawns ++
          [⟨floatAddInt room.origin.x dx.1, floatAddInt room.origin.y dy.1,
            floatAddInt room.origin.z 24⟩]
        placed := st.placed + 1
        arenaRandSeed := dy.2 }

/-- `G_PlacePlayerSpawns`.  `MAX_CLIENTS` comes from `q_shared.h`, which is not
part of the sources at hand, and is a parameter.  The loop
`for (i = 0; i < numPlayers && i < MAX_CLIENTS; i++)` runs
`max 0 (min numPlayers MAX_CLIENTS)` times. -/
def G_PlacePlayerSpawns (MAX_CLIENTS : Nat) (arena : arena_t) (numPlayers : Int)
    (arenaRandSeed : Nat) : arena_t × Nat :=
  match arena.rooms.find? (fun room => room.isStartRoom) with
  | none => (arena, arenaRandSeed)
  | some room =>
    let r := playerSpawnLoop room (min numPlayers (MAX_CLIENTS : Int)).toNat
      { spawns := [], placed := 0, arenaRandSeed := arenaRandSeed }
    ({ arena with
        playerSpawns := tableStore r.spawns arena.playerSpawns
        numPlayerSpawns := r.placed }, r.arenaRandSeed)

/-- Lines 297-299: the number of enemies a room asks for. -/
def roomEnemies (room : arenaRoom_t) : Int :=
  let n := Int.tdiv (wrap32 (room.width * room.depth)) (256 * 256)
  let n := if n < 1 then 1 else n
  if room.isBossRoom then 1 else n

/-- Lines 301-309: `for (i = 0; i < roomEnemies && enemiesPlaced < numEnemies; i++)`
with `n` values of `i` still to go. -/
def enemyRoomLoop (room : arenaRoom_t) (numEnemies : Int) : Nat → placeState → placeState
  | 0, st => st
  | n + 1, st =>
    if st.placed < numEnemies then
      let dx := ArenaRandRange (Int.tdiv (wrap32 (-room.width)) 3) (Int.tdiv room.width 3)
        st.arenaRandSeed
      let dy := ArenaRandRange (Int.tdiv (wrap32 (-room.depth)) 3) (Int.tdiv room.depth 3) dx.2
      enemyRoomLoop room numEnemies n
        { spawns := st.spawns ++
            [⟨floatAddInt room.origin.x dx.1, floatAddInt room.origin.y dy.1,
            floatAddInt room.origin.z 24⟩]
          placed := st.placed + 1
          arenaRandSeed := dy.2 }
    else st

/-- Lines 289-312: `while (room && enemiesPlaced < numEnemies)`. -/
def enemyLoop (numEnemies : Int) : List arenaRoom_t → placeState → placeState
  | [], st => st
  | room :: next, st =>
    if st.placed < numEnemies then
      if room.isStartRoom then enemyLoop numEnemies next st
      else enemyLoop numEnemies next
        (enemyRoomLoop room numEnemies (roomEnemies room).toNat st)
    else st

/-- Lines 283-284: the target number of enemies. -/
def enemyTarget (depth : Int) (arenaRandSeed : Nat) : Int × Nat :=
  let k := ArenaRandRange 0 depth arenaRandSeed
  let numEnemies := wrap32 (5 + depth * 3 + k.1)
  (if numEnemies > MAX_ARENA_ENTITIES then MAX_ARENA_ENTITIES else numEnemies, k.2)

/-- `G_PlaceEnemySpawns`. -/
def G_PlaceEnemySpawns (arena : arena_t) (depth : Int) (arenaRandSeed : Nat) : arena_t × Nat :=
  let t := enemyTarget depth arenaRandSeed
  let r := enemyLoop t.1 arena.rooms { spawns := [], placed := 0, arenaRandSeed := t.2 }
  ({ arena with
      enemySpawns := tableStore r.spawns arena.enemySpawns
      numEnemySpawns := r.placed }, r.arenaRandSeed)

/-- Lines 326-337: `while (room && itemsPlaced < numItems)`. -/
def itemLoop (numItems : Int) : List arenaRoom_t → placeState → placeState
  | [], st => st
  | room :: next, st =>
    if st.placed < numItems then
      if !room.isStartRoom then
        let dx := ArenaRandRange (Int.tdiv (wrap32 (-room.width)) 4) (Int.tdiv room.width 4)
          st.arenaRandSeed
        let dy := ArenaRandRange (Int.tdiv (wrap32 (-room.depth)) 4) (Int.tdiv room.depth 4)
          dx.2
        itemLoop numItems next
          { spawns := st.spawns ++
              [⟨floatAddInt room.origin.x dx.1, floatAddInt room.origin.y dy.1,
            floatAddInt room.origin.z 24⟩]
            placed := st.placed + 1
            arenaRandSeed := dy.2 }
      else itemLoop numItems next st
    else st

/-- Lines 320-321: the target number of items. -/
def itemTarget (depth : Int) (arenaRandSeed : Nat) : Int × Nat :=
  let k := ArenaRandRange 0 3 arenaRandSeed
  let numItems := wrap32 (3 + depth + k.1)
  (if numItems > Int.tdiv MAX_ARENA_ENTITIES 2 then Int.tdiv MAX_ARENA_ENTITIES 2 else numItems,
   k.2)

/-- `G_PlaceItems`. -/
def G_PlaceItems (arena : arena_t) (depth : Int) (arenaRandSeed : Nat) : arena_t × Nat :=
  let t := itemTarget depth arenaRandSeed
  let r := itemLoop t.1 arena.rooms { spawns := [], placed := 0, arenaRandSeed := t.2 }
  ({ arena with
      itemSpawns := tableStore r.spawns arena.itemSpawns
      numItemSpawns := r.placed }, r.arenaRandSeed)

/-- `G_PlaceExitPortal`. -/
def G_PlaceExitPortal (arena : arena_t) : arena_t :=
  match arena.rooms.find? (fun room => room.isExitRoom) with
  | none => arena
  | some room =>
    { arena with exitPortal := { room.origin with z := floatAddInt room.origin.z 24 } }

/-! ## The generator -/

/-- `G_GenerateArena`.  `startTime` and `endTime` are the two readings of
`trap_Milliseconds`; `arenaRandSeed` is the generator state at the call.  The
argument of `ArenaSetSeed` is `seed + depth` converted to `unsigned int`, which
is the sum modulo `2^32` whether or not the `int` addition wraps. -/
def G_GenerateArena (MAX_CLIENTS : Nat) (startTime endTime : Int)
    (seed depth : Int) (theme : arenaTheme_t) (arenaRandSeed : Nat) : arena_t × Nat :=
  let arena := { zeroArena with seed := seed, depth := depth, theme := theme }
  let s := ArenaSetSeed (toU32 (seed + depth)) arenaRandSeed
  let n := roomCount depth s
  let rl := roomLoop n.1 depth theme n.2
  let arena := { arena with numRooms := rl.numRooms, rooms := rl.prevRoom }
  let cl := corridorLoop theme arena.rooms
    { corridors := arena.corridors, numCorridors := arena.numCorridors, roomIndex := 0 }
  let arena := { arena with corridors := cl.corridors, numCorridors := cl.numCorridors }
  let p := G_PlacePlayerSpawns MAX_CLIENTS arena 8 rl.arenaRandSeed
  let e := G_PlaceEnemySpawns p.1 depth p.2
  let it := G_PlaceItems e.1 depth e.2
  let arena := G_PlaceExitPortal it.1
  ({ arena with
      worldMins := ⟨-2048, -2048, -512⟩
      worldMaxs := ⟨2048, 2048, 512⟩
      generationTime := wrap32 (endTime - startTime) }, it.2)

/-! ## Roguelike run (`g_arena_gen.h`, lines 110-120; `g_arena_gen.c`, lines 363-438)

A `roguelikeRun_t *` is an `Option Nat`: `none` is `NULL`, `some p` the address `p`.
The run objects that are allocated and not yet freed are the values of `runs`.
Reading or freeing through an address that holds no run is undefined in C; the
functions below return `none` there.  The arena a run points to is held by value
in the run, so `G_FreeArena`, which only releases its memory, leaves no trace. -/

/-- The struct `roguelikeRun_t`.  `timeElapsed` is a `float` in the source; the
only value it is ever given is 0. -/
structure roguelikeRun_t where
  seed : Int
  currentDepth : Int
  maxDepth : Int
  score : Int
  kills : Int
  permadeath : Bool
  lives : Int
  timeElapsed : Int
  currentArena : Option arena_t
  deriving DecidableEq, Repr

/-- The global state of `g_arena_gen.c`: the static `currentRun`, the static
`arenaRandSeed`, and the run objects in memory. -/
structure gameState where
  currentRun : Option Nat
  arenaRandSeed : Nat
  runs : Nat → Option roguelikeRun_t

/-- `G_Free(run)`: the address holds no run any more. -/
def freeRun (runs : Nat → Option roguelikeRun_t) (p : Nat) : Nat → Option roguelikeRun_t :=
  fun q => if q = p then none else runs q

/-- A store through the pointer `p`. -/
def storeRun (runs : Nat → Option roguelikeRun_t) (p : Nat) (r : roguelikeRun_t) :
    Nat → Option roguelikeRun_t :=
  fun q => if q = p then some r else runs q

/-- `G_InitArenaGenerator`. -/
def G_InitArenaGenerator (g : gameState) : gameState :=
  { g with currentRun := none }

/-- `G_GetCurrentRun`. -/
def G_GetCurrentRun (g : gameState) : Option Nat := g.currentRun

/-- Lines 369-386 of `G_StartRoguelikeRun`, once the previous run is freed: `p` is
the address `G_Alloc` returns, `runs` the memory at that point. -/
def startRun (MAX_CLIENTS : Nat) (startTime endTime : Int) (p : Nat) (seed : Int)
    (permadeath : Bool) (runs : Nat → Option roguelikeRun_t) (arenaRandSeed : Nat) :
    Nat × gameState :=
  let a := G_GenerateArena MAX_CLIENTS startTime endTime seed 1 THEME_TECH arenaRandSeed
  (p, { currentRun := some p
        arenaRandSeed := a.2
        runs := storeRun runs p
          { seed := seed, currentDepth := 1, maxDepth := 1, score := 0, kills := 0,
            permadeath := permadeath, lives := if permadeath then 1 else 3,
            timeElapsed := 0, currentArena := some a.1 } })

/-- `G_StartRoguelikeRun`.  `p` is the address `G_Alloc` returns for the new run
(the allocator is not part of the sources at hand); `startTime` and `endTime` are
the clock readings of the `G_GenerateArena` call.  The result is the returned
pointer and the new state. -/
def G_StartRoguelikeRun (MAX_CLIENTS : Nat) (startTime endTime : Int) (p : Nat) (seed : Int)
    (permadeath : Bool) (g : gameState) : Option (Nat × gameState) :=
  match g.currentRun with
  | none => some (startRun MAX_CLIENTS startTime endTime p seed permadeath g.runs g.arenaRandSeed)
  | some q =>
    match g.runs q with
    | none => none
    | some _ =>
      some (startRun MAX_CLIENTS startTime endTime p seed permadeath (freeRun g.runs q)
        g.arenaRandSeed)

/-- Lines 404-407: the theme of the arena at depth `currentDepth`. -/
def depthTheme (currentDepth : Int) : arenaTheme_t :=
  if currentDepth ≥ 10 then THEME_HELL
  else if currentDepth ≥ 6 then THEME_SPACE
  else if currentDepth ≥ 3 then THEME_GOTHIC
  else THEME_TECH

/-- Lines 392-410 of `G_AdvanceToNextArena`: the run object after the call, and
the generator state. -/
def advanceRun (MAX_CLIENTS : Nat) (startTime endTime : Int) (run : roguelikeRun_t)
    (arenaRandSeed : Nat) : roguelikeRun_t × Nat :=
  let currentDepth := wrap32 (run.currentDepth + 1)
  let maxDepth := if currentDepth > run.maxDepth then currentDepth else run.maxDepth
  let a := G_GenerateArena MAX_CLIENTS startTime endTime run.seed currentDepth
    (depthTheme currentDepth) arenaRandSeed
  ({ run with currentDepth := currentDepth, maxDepth := maxDepth, currentArena := some a.1 },
   a.2)

/-- `G_AdvanceToNextArena`: the returned `qboolean` and the new state. -/
def G_AdvanceToNextArena (MAX_CLIENTS : Nat) (startTime endTime : Int) (run : Option Nat)
    (g : gameState) : Option (Bool × gameState) :=
  match run with
  | none => some (false, g)
  | some p =>
    match g.runs p with
    | none => none
    | some r =>
      let r' := advanceRun MAX_CLIENTS startTime endTime r g.arenaRandSeed
      some (true, { g with runs := storeRun g.runs p r'.1, arenaRandSeed := r'.2 })

/-- `G_EndRoguelikeRun`.  The `victory` flag is only printed. -/
def G_EndRoguelikeRun (run : Option Nat) (_victory : Bool) (g : gameState) :
    Option gameState :=
  match run with
  | none => some g
  | some p =>
    match g.runs p with
    | none => none
    | some _ =>
      some { g with
        currentRun := if some p = g.currentRun then none else g.currentRun
        runs := freeRun g.runs p }

/-! ## Names and difficulty (`g_arena_gen.c`, lines 39-67 and 466-471) -/

/-- The struct `themeData_t`. -/
structure themeData_t where
  name : String
  wallTexture : String
  floorTexture : String
  ceilTexture : String
  deriving DecidableEq, Repr

/-- The table `g_themeData`, indexed by theme. -/
def g_themeData : List themeData_t :=
  [ ⟨"Tech", "base_wall/concrete", "base_floor/diamond2c", "base_ceil/c_met5_2"⟩,
    ⟨"Gothic", "gothic_block/blocks18b", "gothic_floor/pent03", "gothic_ceil/c_met5_2"⟩,
    ⟨"Space", "base_wall/metaltech01", "base_floor/grid", "base_ceil/c_met7_2"⟩,
    ⟨"Hell", "hell/lava1", "hell/lavafloor", "hell/lavaceil"⟩,
    ⟨"Random", "base_wall/concrete", "base_floor/diamond2c", "base_ceil/c_met5_2"⟩ ]

/-- `G_GetThemeName`.  Behind the range check the index is one of `0 .. 4`, a slot
of the table. -/
def G_GetThemeName (theme : arenaTheme_t) : String :=
  if theme < 0 ∨ theme ≥ THEME_COUNT then "Unknown"
  else ((g_themeData[theme.toNat]?).map (fun d => d.name)).getD ""

/-- The table `g_roomTypeNames`, indexed by room type. -/
def g_roomTypeNames : List String :=
  ["Arena", "Corridor", "Junction", "Multilevel", "Hazard", "Boss", "Start", "Exit"]

/-- `G_GetRoomTypeName`.  Behind the range check the index is one of `0 .. 7`. -/
def G_GetRoomTypeName (type : roomType_t) : String :=
  if type < 0 ∨ type ≥ ROOM_TYPE_COUNT then "Unknown"
  else (g_roomTypeNames[type.toNat]?).getD ""

/-- `G_CalculateArenaDifficulty`; the argument is `none` for a `NULL` arena. -/
def G_CalculateArenaDifficulty (arena : Option arena_t) : Int :=
  match arena with
  | none => 0
  | some a => wrap32 (a.depth * 100 + a.numEnemySpawns * 10 + a.numRooms)

/-! ## Bullet time (`bg_movement.h`, lines 54-66; `bg_movement.c`, lines 434-464) -/

def PM_BULLETTIME_MAX_ENERGY : Int := 100
def PM_BULLETTIME_DRAIN_RATE : Int := 20
def PM_BULLETTIME_RECHARGE_RATE : Int := 10
def PM_BULLETTIME_MIN_ACTIVATE : Int := 30

/-- The members of `playerState_t` that `BG_UpdateBulletTime` reads or writes: the
flag word `pm_flags` and the array `powerups` (the struct is declared in
`q_shared.h`, which is not part of the sources at hand). -/
structure playerState_t where
  pm_flags : Int
  powerups : Nat → Int

/-- The macro `PS_BULLETTIME_ENERGY(ps)`, read. -/
def PS_BULLETTIME_ENERGY (ps : playerState_t) : Int := ps.powerups 11

/-- A store to `PS_BULLETTIME_ENERGY(ps)`. -/
def setBulletTimeEnergy (ps : playerState_t) (energy : Int) : playerState_t :=
  { ps with powerups := fun i => if i = 11 then energy else ps.powerups i }

/-- `BG_UpdateBulletTime`.  The mask `PMF_BULLET_TIME` comes from a header that is
not part of the sources at hand and is a parameter.  `&`, `|` and `~` on the `int`
`pm_flags` are `Int.land`, `Int.lor` and `Int.lnot`. -/
def BG_UpdateBulletTime (PMF_BULLET_TIME : Int) (ps : playerState_t) (msec : Int)
    (active : Bool) : playerState_t :=
  let energy := PS_BULLETTIME_ENERGY ps
  let energy := if energy = 0 ∧ active = false then PM_BULLETTIME_MAX_ENERGY else energy
  if active then
    let drain := Int.tdiv (wrap32 (PM_BULLETTIME_DRAIN_RATE * msec)) 1000
    let energy := wrap32 (energy - drain)
    if energy ≤ 0 then
      { setBulletTimeEnergy ps 0 with
        pm_flags := Int.land ps.pm_flags (Int.lnot PMF_BULLET_TIME) }
    else
      { setBulletTimeEnergy ps energy with
        pm_flags := Int.lor ps.pm_flags PMF_BULLET_TIME }
  else
    let recharge := Int.tdiv (wrap32 (PM_BULLETTIME_RECHARGE_RATE * msec)) 1000
    let energy := wrap32 (energy + recharge)
    let energy := if energy > PM_BULLETTIME_MAX_ENERGY then PM_BULLETTIME_MAX_ENERGY else energy
    { setBulletTimeEnergy ps energy with
      pm_flags := Int.land ps.pm_flags (Int.lnot PMF_BULLET_TIME) }

/-! ## Vocabulary of the statements -/

/-- The arena with its `generationTime` blanked: every other field is kept. -/
def withoutTime (a : arena_t) : arena_t := { a with generationTime := 0 }

/-- State of the room loop after its first `k` iterations. -/
def roomLoopAt (numRooms depth : Int) (theme : arenaTheme_t) (arenaRandSeed : Nat) (k : Nat) :
    roomLoopState :=
  (List.range k).foldl (roomStep numRooms depth theme)
    { currentPos := ⟨0, 0, 0⟩, prevRoom := [], numRooms := 0, arenaRandSeed := arenaRandSeed }

/-- The room created by the iteration of the room loop at position `i`. -/
def stepRoom (numRooms depth : Int) (theme : arenaTheme_t) (st : roomLoopState) (i : Nat) :
    arenaRoom_t :=
  let t := roomTypeAt numRooms depth i st.arenaRandSeed
  let sz := roomSize depth t.1 t.2
  { G_CreateRoom t.1 st.currentPos sz.1.1 sz.1.2.1 sz.1.2.2 with theme := theme }

/-- The local `numRooms` of `G_GenerateArena seed depth` and the generator state
behind its draw. -/
def genCount (seed depth : Int) : Int × Nat :=
  roomCount depth (ArenaSetSeed (toU32 (seed + depth)) 0)

/-- Number of rooms of the chain with `isStartRoom` set. -/
def startCount (a : arena_t) : Nat := a.rooms.countP (fun room => room.isStartRoom)

/-- Number of rooms of the chain with `isExitRoom` set. -/
def exitCount (a : arena_t) : Nat := a.rooms.countP (fun room => room.isExitRoom)

/-- The room generated first: the loop prepends, so it is the last node of the chain. -/
def firstGenerated (a : arena_t) : Option arenaRoom_t := a.rooms.getLast?

/-- The room generated last: the head of the chain. -/
def lastGenerated (a : arena_t) : Option arenaRoom_t := a.rooms.head?

/-- The arena of `G_GenerateArena` once rooms and corridors are built (lines
124-218), with the generator state at that point. -/
def genBase (seed depth : Int) (theme : arenaTheme_t) : arena_t × Nat :=
  let rl := roomLoop (genCount seed depth).1 depth theme (genCount seed depth).2
  let cl := corridorLoop theme rl.prevRoom { corridors := [], numCorridors := 0, roomIndex := 0 }
  ({ zeroArena with
      seed := seed, depth := depth, theme := theme
      numRooms := rl.numRooms, rooms := rl.prevRoom
      corridors := cl.corridors, numCorridors := cl.numCorridors }, rl.arenaRandSeed)

/-- The arena of `G_GenerateArena` after the player pass (line 221). -/
def genPlayers (M : Nat) (seed depth : Int) (theme : arenaTheme_t) : arena_t × Nat :=
  G_PlacePlayerSpawns M (genBase seed depth theme).1 8 (genBase seed depth theme).2

/-- The arena of `G_GenerateArena` after the enemy pass (line 222). -/
def genEnemies (M : Nat) (seed depth : Int) (theme : arenaTheme_t) : arena_t × Nat :=
  G_PlaceEnemySpawns (genPlayers M seed depth theme).1 depth (genPlayers M seed depth theme).2

/-- The arena of `G_GenerateArena` after the item pass (line 223). -/
def genItems (M : Nat) (seed depth : Int) (theme : arenaTheme_t) : arena_t × Nat :=
  G_PlaceItems (genEnemies M seed depth theme).1 depth (genEnemies M seed depth theme).2

/-- The five counters of an arena are within the capacities of their tables
(`MAX_CLIENTS` being `M`). -/
def withinCapacity (M : Nat) (a : arena_t) : Prop :=
  a.numRooms ≤ MAX_ARENA_ROOMS ∧ a.numCorridors ≤ MAX_ARENA_CORRIDORS ∧
  a.numPlayerSpawns ≤ (M : Int) ∧ a.numEnemySpawns ≤ MAX_ARENA_ENTITIES ∧
  a.numItemSpawns ≤ MAX_ARENA_ENTITIES

/-- Every counter of an arena is the number of entries written to its table (of
nodes of the chain, for `numRooms`). -/
def countsMatchTables (a : arena_t) : Prop :=
  a.numRooms = (a.rooms.length : Int) ∧ a.numCorridors = (a.corridors.length : Int) ∧
  a.numPlayerSpawns = (a.playerSpawns.length : Int) ∧
  a.numEnemySpawns = (a.enemySpawns.length : Int) ∧
  a.numItemSpawns = (a.itemSpawns.length : Int)

/-- The corridors the corridor loop appends for a chain, `idx` being `roomIndex`
at its start. -/
def corridorsOf (theme : arenaTheme_t) : List arenaRoom_t → Int → List arenaCorridor_t
  | room :: next :: rest, idx =>
    { roomA := idx, roomB := idx + 1, start := room.origin, «end» := next.origin,
      width := 128, theme := theme } :: corridorsOf theme (next :: rest) (idx + 1)
  | _, _ => []

/-- The invariant of the enemy and item loops: the counter is the number of
entries written, and it never passes the target `N` (nor goes below 0). -/
def placeInv (N : Int) (st : placeState) : Prop :=
  st.placed = (st.spawns.length : Int) ∧ st.placed ≤ max 0 N

/-- The value `k` of `ArenaRandRange(0, depth)` drawn by `G_GenerateArena seed depth`
right after reseeding the generator with `seed + depth`. -/
def firstDraw (seed depth : Int) : Int :=
  (ArenaRandRange 0 depth (ArenaSetSeed (toU32 (seed + depth)) 0)).1

/-- The sizes `(width, height, depth)` of the rooms of the chain, in chain order. -/
def roomSizes (a : arena_t) : List (Int × Int × Int) :=
  a.rooms.map (fun room => (room.width, room.height, room.depth))

/-- The room generated second-to-last: the second node of the chain. -/
def secondToLastGenerated (a : arena_t) : Option arenaRoom_t := a.rooms[1]?

/-- The point lies within the bounding box of the room, horizontally. -/
def insideRoom (room : arenaRoom_t) (p : vec3_t) : Bool :=
  decide (room.mins.x ≤ p.x ∧ p.x ≤ room.maxs.x ∧ room.mins.y ≤ p.y ∧ p.y ≤ room.maxs.y)

/-- Number of enemy spawns of the arena that lie within the bounding box of the room. -/
def enemiesInside (a : arena_t) (room : arenaRoom_t) : Nat :=
  a.enemySpawns.countP (insideRoom room)

/-- The point `p` lies within `rx`, `ry` of the centre `c` horizontally and 24
units above it. -/
def nearPoint (c p : vec3_t) (rx ry : Int) : Prop :=
  |p.x - c.x| ≤ rx ∧ |p.y - c.y| ≤ ry ∧ p.z = c.z + 24

instance (c p : vec3_t) (rx ry : Int) : Decidable (nearPoint c p rx ry) := by
  unfold nearPoint
  infer_instance

/-- The player spawn points written: slots `0 .. numPlayerSpawns - 1` of the table. -/
def writtenPlayerSpawns (a : arena_t) : List vec3_t :=
  a.playerSpawns.take a.numPlayerSpawns.toNat

/-- The enemy spawn points written: slots `0 .. numEnemySpawns - 1` of the table. -/
def writtenEnemySpawns (a : arena_t) : List vec3_t :=
  a.enemySpawns.take a.numEnemySpawns.toNat

/-- The item spawn points written: slots `0 .. numItemSpawns - 1` of the table. -/
def writtenItemSpawns (a : arena_t) : List vec3_t :=
  a.itemSpawns.take a.numItemSpawns.toNat

/-- The density `d(room)` of C13, in the claim's words: 1 for a room whose boss flag
is set, otherwise `max 1 ⌊width * depth / 65536⌋`. -/
def enemyDensity (room : arenaRoom_t) : Int :=
  if room.isBossRoom then 1 else max 1 (room.width * room.depth / 65536)

/-- The sum of the densities of the non-start rooms of a list of rooms. -/
def enemyDemand (l : List arenaRoom_t) : Int :=
  ((l.filter (fun room => !room.isStartRoom)).map enemyDensity).sum

/-- The variables of the enemy pass started with `depth` in generator state `s`,
at the moment its walk has passed the rooms `l`, a prefix of the chain. -/
def enemyWalk (depth : Int) (s : Nat) (l : List arenaRoom_t) : placeState :=
  enemyLoop (enemyTarget depth s).1 l
    { spawns := [], placed := 0, arenaRandSeed := (enemyTarget depth s).2 }

/-- The arena of seed 42, depth 1 (scenario A) as the enemy pass finds it, with
`MAX_CLIENTS = 64`: rooms, corridors and player spawns are in place. -/
def arenaA : arena_t := (genPlayers 64 42 1 THEME_TECH).1

/-- The width and the depth of the room are values of a 32-bit `int`. -/
def intExtents (room : arenaRoom_t) : Prop :=
  (-2147483648 ≤ room.width ∧ room.width < 2147483648) ∧
  (-2147483648 ≤ room.depth ∧ room.depth < 2147483648)

instance (room : arenaRoom_t) : Decidable (intExtents room) := by
  unfold intExtents
  infer_instance

/-- The generator state in which the enemy pass of scenario A starts. -/
def stateA : Nat := (genPlayers 64 42 1 THEME_TECH).2

/-- Lines 328-331: the point the item loop writes for a room in generator state
`s`, with the state after its two draws. -/
def itemPoint (room : arenaRoom_t) (s : Nat) : vec3_t × Nat :=
  let dx := ArenaRandRange (Int.tdiv (wrap32 (-room.width)) 4) (Int.tdiv room.width 4) s
  let dy := ArenaRandRange (Int.tdiv (wrap32 (-room.depth)) 4) (Int.tdiv room.depth 4) dx.2
  (⟨floatAddInt room.origin.x dx.1, floatAddInt room.origin.y dy.1,
    floatAddInt room.origin.z 24⟩, dy.2)

/-- The point `p` is what the item loop writes for `room`, in some generator state. -/
def placedFor (room : arenaRoom_t) (p : vec3_t) : Prop :=
  ∃ s, p = (itemPoint room s).1

/-- The non-start rooms of the chain, in chain order. -/
def nonStartRooms (a : arena_t) : List arenaRoom_t :=
  a.rooms.filter (fun room => !room.isStartRoom)

/-- The tiers of C19, in the claim's words. -/
def tier (d : Int) : arenaTheme_t :=
  if d < 3 then THEME_TECH
  else if d < 6 then THEME_GOTHIC
  else if d < 10 then THEME_SPACE
  else THEME_HELL

/-- `currentRun` is `NULL` or the address of a run in memory. -/
def currentRunLive (g : gameState) : Prop :=
  ∀ q, g.currentRun = some q → ∃ r, g.runs q = some r

/-- What happens around the calls of a run: `clock j` are the two readings of
`trap_Milliseconds` in call `j`, and `draws j s` is the generator state at call
`j` when the call before left it at `s`, after whatever draws and arena
generations came in between. -/
structure surroundings where
  clock : Nat → Int × Int
  draws : Nat → Nat → Nat

/-- The state after `G_StartRoguelikeRun(seed, permadeath)` (call 0, the run being
allocated at `p`) followed by `k` calls `G_AdvanceToNextArena` on that run. -/
def startThenAdvance (M : Nat) (env : surroundings) (p : Nat) (seed : Int) (permadeath : Bool)
    (g : gameState) : Nat → Option gameState
  | 0 =>
    (G_StartRoguelikeRun M (env.clock 0).1 (env.clock 0).2 p seed permadeath
      { g with arenaRandSeed := env.draws 0 g.arenaRandSeed }).map (fun r => r.2)
  | k + 1 =>
    (startThenAdvance M env p seed permadeath g k).bind (fun g' =>
      (G_AdvanceToNextArena M (env.clock (k + 1)).1 (env.clock (k + 1)).2 (some p)
        { g' with arenaRandSeed := env.draws (k + 1) g'.arenaRandSeed }).map (fun r => r.2))

/-- The run at address `p` and its current arena, when both exist. -/
def arenaOfRun (g : gameState) (p : Nat) : Option arena_t :=
  (g.runs p).bind (fun r => r.currentArena)

/-- The state before any call: no run, nothing in memory, generator state `s`. -/
def emptyState (s : Nat) : gameState :=
  { currentRun := none, arenaRandSeed := s, runs := fun _ => none }

/-- Surroundings that add nothing: clock at 0 and no draws in between. -/
def quiet : surroundings :=
  { clock := fun _ => (0, 0), draws := fun _ s => s }

/-- The value of `currentDepth` after `k` advances of a run: it starts at 1 and
each advance is an `int` increment. -/
def depthAt : Nat → Int
  | 0 => 1
  | k + 1 => wrap32 (depthAt k + 1)

/-- A call of the run interface in which `G_EndRoguelikeRun` is only applied to the
current run or to `NULL`.  `start` carries the address `G_Alloc` returns, the two
clock readings, the seed and the permadeath flag; the ends carry the victory flag. -/
inductive runCall where
  | init
  | start (p : Nat) (startTime endTime seed : Int) (permadeath : Bool)
  | endCurrent (victory : Bool)
  | endNull (victory : Bool)

/-- The code run by a call. -/
def runCallExec (M : Nat) (c : runCall) (g : gameState) : Option gameState :=
  match c with
  | .init => some (G_InitArenaGenerator g)
  | .start p startTime endTime seed permadeath =>
    (G_StartRoguelikeRun M startTime endTime p seed permadeath g).map (fun r => r.2)
  | .endCurrent victory => G_EndRoguelikeRun (G_GetCurrentRun g) victory g
  | .endNull victory => G_EndRoguelikeRun none victory g

/-- The code run by a sequence of calls, in order. -/
def runCallsExec (M : Nat) : List runCall → gameState → Option gameState
  | [], g => some g
  | c :: cs, g => (runCallExec M c g).bind (runCallsExec M cs)

/-- The run state machine in the words of the specification (section 4.4): the
state is the active run, if any; initialising leaves no run, a start makes the
new run the active one whether or not a run was active, ending the active run
leaves no run, and ending an absent run changes nothing. -/
def activeAfter (active : Option Nat) : runCall → Option Nat
  | .init => none
  | .start p _ _ _ _ => some p
  | .endCurrent _ => none
  | .endNull _ => active

/-- The active run after a sequence of calls, by the specification. -/
def activeAfterAll (active : Option Nat) (cs : List runCall) : Option Nat :=
  cs.foldl activeAfter active

/-- The player state after a sequence of frames with bullet time active, one
call of `BG_UpdateBulletTime` per frame, `msecs` being the frame times. -/
def bulletTimeFrames (PMF_BULLET_TIME : Int) (ps : playerState_t) (msecs : List Int) :
    playerState_t :=
  msecs.foldl (fun ps msec => BG_UpdateBulletTime PMF_BULLET_TIME ps msec true) ps

/-- A player state with full bullet time energy and no flag set. -/
def fullEnergy : playerState_t :=
  { pm_flags := 0, powerups := fun i => if i = 11 then 100 else 0 }

/-- The room that the room loop of `G_GenerateArena seed depth theme` creates at
position `j` of the generation order. -/
def generatedRoom (seed depth : Int) (theme : arenaTheme_t) (j : Nat) : arenaRoom_t :=
  stepRoom (genCount seed depth).1 depth theme
    (roomLoopAt (genCount seed depth).1 depth theme (genCount seed depth).2 j) j

/-- The rooms of the arena in generation order `r_0, r_1, ...`: the chain read
backwards. -/
def generationOrder (a : arena_t) : List arenaRoom_t := a.rooms.reverse

/-- The room with its theme tag blanked: every other field is kept. -/
def roomWithoutTheme (room : arenaRoom_t) : arenaRoom_t := { room with theme := THEME_TECH }

/-- The corridor with its theme tag blanked: every other field is kept. -/
def corridorWithoutTheme (c : arenaCorridor_t) : arenaCorridor_t := { c with theme := THEME_TECH }

/-- The arena with the theme tags of the arena, of its rooms and of its corridors
blanked: every other field is kept. -/
def withoutTheme (a : arena_t) : arena_t :=
  { a with
    theme := THEME_TECH
    rooms := a.rooms.map roomWithoutTheme
    corridors := a.corridors.map corridorWithoutTheme }

/-- The state of the room loop with the theme tags of the rooms built so far
blanked. -/
def stateWithoutTheme (st : roomLoopState) : roomLoopState :=
  { st with prevRoom := st.prevRoom.map roomWithoutTheme }

/-- Everything of a room but its theme tag (and the fields that are the same
constant in every room): type, origin, width, height, depth, bounding box and role
flags. -/
def roomShape (room : arenaRoom_t) :
    roomType_t × vec3_t × Int × Int × Int × vec3_t × vec3_t × Bool × Bool × Bool :=
  (room.type, room.origin, room.width, room.height, room.depth, room.mins, room.maxs,
    room.isStartRoom, room.isExitRoom, room.isBossRoom)

/-- Everything of a corridor but its theme tag: indices, endpoints and width. -/
def corridorShape (c : arenaCorridor_t) : Int × Int × vec3_t × vec3_t × Int :=
  (c.roomA, c.roomB, c.start, c.«end», c.width)

/-- The point `p` is the centre `c` moved by integers `dx`, `dy` of magnitude at
most `rx`, `ry` horizontally and by 24 upwards, the three sums being the float sums
of the source. -/
def jittered (c p : vec3_t) (rx ry : Int) : Prop :=
  ∃ dx dy : Int, |dx| ≤ rx ∧ |dy| ≤ ry ∧
    p = ⟨floatAddInt c.x dx, floatAddInt c.y dy, floatAddInt c.z 24⟩

/-- The centre `c` is so placed that moving it by up to `rx`, `ry` horizontally and
by 24 upwards stays within magnitude `2^24`, where float sums of integers are exact. -/
def exactAround (c : vec3_t) (rx ry : Int) : Prop :=
  |c.x| + rx ≤ 16777216 ∧ |c.y| + ry ≤ 16777216 ∧ |c.z| + 24 ≤ 16777216

instance (c : vec3_t) (rx ry : Int) : Decidable (exactAround c rx ry) := by
  unfold exactAround
  infer_instance

/-- An arena whose only room is a start room created by `G_CreateRoom` at
`x = 33554430 = 2^25 - 2`, where consecutive floats are 4 apart. -/
def farStartArena : arena_t :=
  { zeroArena with
    rooms := [G_CreateRoom ROOM_TYPE_START ⟨33554430, 0, 0⟩ 256 256 256]
    numRooms := 1 }

/-! ## Machine arithmetic -/

theorem ulp32_of_lt (fuel n : Nat) (h : n < 16777216) : ulp32 fuel n = 1 := by
  cases fuel with
  | zero => rfl
  | succ k => rw [ulp32, if_pos h]

theorem roundNat32_of_le (n : Nat) (h : n ≤ 16777216) : roundNat32 n = n := by
  rcases Nat.lt_or_eq_of_le h with h | h
  · unfold roundNat32
    rw [ulp32_of_lt _ _ h]
    simp [Nat.mod_one]
  · subst h
    decide

/-- Integers of magnitude up to `2^24` are binary32 values. -/
theorem f32_of_abs_le (x : Int) (h : |x| ≤ 16777216) : f32 x = x := by
  have h2 := abs_le.mp h
  unfold f32
  split
  · rw [roundNat32_of_le _ (by omega)]
    omega
  · rw [roundNat32_of_le _ (by omega)]
    omega

theorem f32_nonneg (x : Int) (h : 0 ≤ x) : 0 ≤ f32 x := by
  unfold f32
  rw [if_pos h]
  exact Int.natCast_nonneg _

/-- A float sum of integers is exact while the operands and the sum stay within
magnitude `2^24`. -/
theorem floatAddInt_exact (x i : Int) (hi : |i| ≤ 16777216) (hs : |x + i| ≤ 16777216) :
    floatAddInt x i = x + i := by
  unfold floatAddInt
  rw [f32_of_abs_le i hi, f32_of_abs_le _ hs]

theorem floatAddInt_nonneg (x i : Int) (hx : 0 ≤ x) (hi : 0 ≤ i) : 0 ≤ floatAddInt x i := by
  unfold floatAddInt
  exact f32_nonneg _ (add_nonneg hx (f32_nonneg i hi))

theorem floatAddInt_zero_left (i : Int) (hi : |i| ≤ 16777216) : floatAddInt 0 i = i := by
  rw [floatAddInt_exact 0 i hi (by rw [zero_add]; exact hi), zero_add]

theorem wrap32_of_range {x : Int} (h1 : -2147483648 ≤ x) (h2 : x < 2147483648) :
    wrap32 x = x := by
  unfold wrap32; omega

theorem ArenaRand_lt (s : Nat) : (ArenaRand s).1 < 32768 := by
  unfold ArenaRand
  exact Nat.mod_lt _ (by decide)

theorem ArenaRand_state_lt (s : Nat) : (ArenaRand s).2 < 4294967296 := by
  unfold ArenaRand
  exact Nat.mod_lt _ (by decide)

theorem ArenaRandRange_of_le (s : Nat) {min max : Int} (h : max ≤ min) :
    ArenaRandRange min max s = (min, s) := by
  unfold ArenaRandRange
  rw [if_pos h]

theorem ArenaRandRange_eq (s : Nat) (min max : Int)
    (hmin : -2147483648 ≤ min) (hmax : max < 2147483648) (hlt : min < max)
    (hspan : max - min + 1 < 4294967296) :
    ArenaRandRange min max s =
      (min + ((ArenaRand s).1 : Int) % (max - min + 1), (ArenaRand s).2) := by
  unfold ArenaRandRange
  rw [if_neg (by omega)]
  simp only [toU32, wrap32]
  generalize (ArenaRand s).1 = r
  generalize (ArenaRand s).2 = s'
  obtain ⟨m, hm⟩ : ∃ m : Nat, max - min + 1 = (m : Int) := ⟨(max - min + 1).toNat, by omega⟩
  have hmpos : 0 < m := by omega
  have hm2 : ((max - min + 1) % 4294967296).toNat = m := by omega
  rw [hm2, hm]
  have h2 : (r : Int) % (m : Int) = ((r % m : Nat) : Int) := by push_cast; rfl
  rw [h2]
  have h1 : r % m < m := Nat.mod_lt _ hmpos
  generalize r % m = q at h1 ⊢
  have key : ((((min % 4294967296).toNat + q : Nat) : Int) + 2147483648) % 4294967296
      - 2147483648 = min + (q : Int) := by
    omega
  rw [key]

theorem ArenaRandRange_bounds (s : Nat) (min max : Int)
    (hmin : -2147483648 ≤ min) (hmax : max < 2147483648) (hlt : min < max)
    (hspan : max - min + 1 < 4294967296) :
    min ≤ (ArenaRandRange min max s).1 ∧ (ArenaRandRange min max s).1 ≤ max := by
  rw [ArenaRandRange_eq s min max hmin hmax hlt hspan]
  have h0 : 0 ≤ ((ArenaRand s).1 : Int) % (max - min + 1) := Int.emod_nonneg _ (by omega)
  have h1 : ((ArenaRand s).1 : Int) % (max - min + 1) < max - min + 1 :=
    Int.emod_lt_of_pos _ (by omega)
  constructor
  · show min ≤ min + _
    omega
  · show min + _ ≤ max
    omega

/-! ## The seeded generator: C1, C2 -/

/-- C1: `ArenaRand` replaces the state `s` by `(s * 1103515245 + 12345) mod 2^32`
and returns `(newState / 65536) mod 32768`; the returned value is at most 32767
(and at least 0, being a natural number), and the new state is again a 32-bit
value. -/
theorem ArenaRand_contract (s : Nat) :
    (ArenaRand s).2 = (s * 1103515245 + 12345) % 2 ^ 32 ∧
    (ArenaRand s).1 = ((ArenaRand s).2 / 65536) % 32768 ∧
    (ArenaRand s).1 ≤ 32767 ∧
    (ArenaRand s).2 < 2 ^ 32 := by
  refine ⟨rfl, rfl, ?_, ?_⟩
  · have := ArenaRand_lt s
    omega
  · exact ArenaRand_state_lt s

/-- C2: for `int`s `min`, `max` whose span `max - min + 1` fits in 32 bits,
`ArenaRandRange min max` returns `min` and keeps the generator state when
`max ≤ min`; otherwise it makes exactly the one state transition of `ArenaRand`
and returns `min + (r mod (max - min + 1))` for the drawn `r`, a value of
`[min, max]`, the sum being the mathematical one also for negative `min`. -/
theorem ArenaRandRange_contract (s : Nat) (min max : Int)
    (hmin : -2147483648 ≤ min) (hmax : max < 2147483648)
    (hspan : max - min + 1 < 4294967296) :
    (max ≤ min → ArenaRandRange min max s = (min, s)) ∧
    (min < max →
      ArenaRandRange min max s =
        (min + ((ArenaRand s).1 : Int) % (max - min + 1), (ArenaRand s).2) ∧
      min ≤ (ArenaRandRange min max s).1 ∧ (ArenaRandRange min max s).1 ≤ max) := by
  constructor
  · intro h
    exact ArenaRandRange_of_le s h
  · intro h
    exact ⟨ArenaRandRange_eq s min max hmin hmax h hspan,
      ArenaRandRange_bounds s min max hmin hmax h hspan⟩

/-- Witness of C2 at state 43 and the range `[-64, 64]`. -/
theorem ArenaRandRange_contract_witness :
    ((-2147483648 : Int) ≤ -64 ∧ (64 : Int) < 2147483648 ∧
      (64 : Int) - -64 + 1 < 4294967296) ∧
    ((64 ≤ (-64 : Int) → ArenaRandRange (-64) 64 43 = (-64, 43)) ∧
     ((-64 : Int) < 64 →
      ArenaRandRange (-64) 64 43 =
        (-64 + ((ArenaRand 43).1 : Int) % (64 - -64 + 1), (ArenaRand 43).2) ∧
      -64 ≤ (ArenaRandRange (-64) 64 43).1 ∧ (ArenaRandRange (-64) 64 43).1 ≤ 64)) :=
  ⟨by decide, ArenaRandRange_contract 43 (-64) 64 (by decide) (by decide) (by decide)⟩

/-! ## Frame lemmas of the placement passes -/

theorem G_PlacePlayerSpawns_rooms (M : Nat) (a : arena_t) (n : Int) (s : Nat) :
    (G_PlacePlayerSpawns M a n s).1.rooms = a.rooms := by
  unfold G_PlacePlayerSpawns
  split <;> rfl

theorem G_PlaceEnemySpawns_rooms (a : arena_t) (d : Int) (s : Nat) :
    (G_PlaceEnemySpawns a d s).1.rooms = a.rooms := rfl

theorem G_PlaceItems_rooms (a : arena_t) (d : Int) (s : Nat) :
    (G_PlaceItems a d s).1.rooms = a.rooms := rfl

theorem G_PlaceExitPortal_rooms (a : arena_t) : (G_PlaceExitPortal a).rooms = a.rooms := by
  unfold G_PlaceExitPortal
  split <;> rfl

theorem G_PlacePlayerSpawns_numRooms (M : Nat) (a : arena_t) (n : Int) (s : Nat) :
    (G_PlacePlayerSpawns M a n s).1.numRooms = a.numRooms := by
  unfold G_PlacePlayerSpawns
  split <;> rfl

theorem G_PlaceExitPortal_numRooms (a : arena_t) :
    (G_PlaceExitPortal a).numRooms = a.numRooms := by
  unfold G_PlaceExitPortal
  split <;> rfl

theorem G_PlacePlayerSpawns_corridors (M : Nat) (a : arena_t) (n : Int) (s : Nat) :
    (G_PlacePlayerSpawns M a n s).1.corridors = a.corridors ∧
    (G_PlacePlayerSpawns M a n s).1.numCorridors = a.numCorridors := by
  unfold G_PlacePlayerSpawns
  split <;> exact ⟨rfl, rfl⟩

theorem G_PlaceExitPortal_corridors (a : arena_t) :
    (G_PlaceExitPortal a).corridors = a.corridors ∧
    (G_PlaceExitPortal a).numCorridors = a.numCorridors := by
  unfold G_PlaceExitPortal
  split <;> exact ⟨rfl, rfl⟩

/-! ## Projections of the generated arena -/

theorem G_GenerateArena_rooms (M : Nat) (t0 t1 seed depth : Int) (theme : arenaTheme_t)
    (s : Nat) :
    (G_GenerateArena M t0 t1 seed depth theme s).1.rooms =
      (roomLoop (genCount seed depth).1 depth theme (genCount seed depth).2).prevRoom := by
  simp only [G_GenerateArena, G_PlaceExitPortal_rooms, G_PlaceItems_rooms,
    G_PlaceEnemySpawns_rooms, G_PlacePlayerSpawns_rooms, genCount, ArenaSetSeed]

theorem G_GenerateArena_numRooms (M : Nat) (t0 t1 seed depth : Int) (theme : arenaTheme_t)
    (s : Nat) :
    (G_GenerateArena M t0 t1 seed depth theme s).1.numRooms =
      (roomLoop (genCount seed depth).1 depth theme (genCount seed depth).2).numRooms := by
  simp only [G_GenerateArena, G_PlaceExitPortal_numRooms, G_PlaceItems, G_PlaceEnemySpawns,
    G_PlacePlayerSpawns_numRooms, genCount, ArenaSetSeed]

theorem G_GenerateArena_corridors (M : Nat) (t0 t1 seed depth : Int) (theme : arenaTheme_t)
    (s : Nat) :
    (G_GenerateArena M t0 t1 seed depth theme s).1.corridors =
      (corridorLoop theme (G_GenerateArena M t0 t1 seed depth theme s).1.rooms
        { corridors := [], numCorridors := 0, roomIndex := 0 }).corridors ∧
    (G_GenerateArena M t0 t1 seed depth theme s).1.numCorridors =
      (corridorLoop theme (G_GenerateArena M t0 t1 seed depth theme s).1.rooms
        { corridors := [], numCorridors := 0, roomIndex := 0 }).numCorridors := by
  rw [G_GenerateArena_rooms]
  simp only [G_GenerateArena, G_PlaceExitPortal_corridors, G_PlaceItems, G_PlaceEnemySpawns,
    G_PlacePlayerSpawns_corridors, genCount, ArenaSetSeed, zeroArena, and_self]

/-! ## Determinism: C3 -/

/-- C3: two calls of `G_GenerateArena` with the same seed, depth and theme return
arenas that agree in every field but `generationTime` (room chain, corridor table
and count, the three spawn tables and counts, exit portal), whatever the
generator state `s`, `s'` and the clock readings at either call; in particular
when the second call starts in the state the first one left.  Both calls leave
the generator in the same state. -/
theorem G_GenerateArena_deterministic (M : Nat) (t0 t1 t0' t1' seed depth : Int)
    (theme : arenaTheme_t) (s s' : Nat) :
    withoutTime (G_GenerateArena M t0 t1 seed depth theme s).1 =
      withoutTime (G_GenerateArena M t0' t1' seed depth theme s').1 ∧
    withoutTime (G_GenerateArena M t0 t1 seed depth theme s).1 =
      withoutTime (G_GenerateArena M t0' t1' seed depth theme
        (G_GenerateArena M t0 t1 seed depth theme s).2).1 ∧
    (G_GenerateArena M t0 t1 seed depth theme s).2 =
      (G_GenerateArena M t0' t1' seed depth theme s').2 :=
  ⟨rfl, rfl, rfl⟩

/-! ## The room loop -/

theorem roomLoop_eq_roomLoopAt (numRooms depth : Int) (theme : arenaTheme_t) (s : Nat) :
    roomLoop numRooms depth theme s = roomLoopAt numRooms depth theme s numRooms.toNat := rfl

theorem roomLoopAt_zero (numRooms depth : Int) (theme : arenaTheme_t) (s : Nat) :
    roomLoopAt numRooms depth theme s 0 =
      { currentPos := ⟨0, 0, 0⟩, prevRoom := [], numRooms := 0, arenaRandSeed := s } := rfl

theorem roomLoopAt_succ (numRooms depth : Int) (theme : arenaTheme_t) (s : Nat) (k : Nat) :
    roomLoopAt numRooms depth theme s (k + 1) =
      roomStep numRooms depth theme (roomLoopAt numRooms depth theme s k) k := by
  simp only [roomLoopAt, List.range_succ, List.foldl_append, List.foldl_cons, List.foldl_nil]

theorem roomStep_prevRoom (numRooms depth : Int) (theme : arenaTheme_t) (st : roomLoopState)
    (i : Nat) :
    (roomStep numRooms depth theme st i).prevRoom =
      stepRoom numRooms depth theme st i :: st.prevRoom := by
  unfold roomStep stepRoom
  simp only
  split <;> rfl

theorem roomStep_numRooms (numRooms depth : Int) (theme : arenaTheme_t) (st : roomLoopState)
    (i : Nat) :
    (roomStep numRooms depth theme st i).numRooms = st.numRooms + 1 := by
  unfold roomStep
  simp only
  split <;> rfl

theorem roomLoopAt_prevRoom_succ (numRooms depth : Int) (theme : arenaTheme_t) (s : Nat)
    (k : Nat) :
    (roomLoopAt numRooms depth theme s (k + 1)).prevRoom =
      stepRoom numRooms depth theme (roomLoopAt numRooms depth theme s k) k ::
        (roomLoopAt numRooms depth theme s k).prevRoom := by
  rw [roomLoopAt_succ, roomStep_prevRoom]

theorem roomLoopAt_numRooms (numRooms depth : Int) (theme : arenaTheme_t) (s : Nat) (k : Nat) :
    (roomLoopAt numRooms depth theme s k).numRooms = (k : Int) := by
  induction k with
  | zero => rfl
  | succ k ih =>
    rw [roomLoopAt_succ, roomStep_numRooms, ih]
    push_cast
    rfl

theorem roomLoopAt_length (numRooms depth : Int) (theme : arenaTheme_t) (s : Nat) (k : Nat) :
    (roomLoopAt numRooms depth theme s k).prevRoom.length = k := by
  induction k with
  | zero => rfl
  | succ k ih => rw [roomLoopAt_prevRoom_succ, List.length_cons, ih]

/-- The type given to position `i` is `START` exactly at `i = 0`. -/
theorem roomTypeAt_eq_start (numRooms depth : Int) (i : Nat) (s : Nat) :
    (roomTypeAt numRooms depth i s).1 = ROOM_TYPE_START ↔ i = 0 := by
  unfold roomTypeAt
  simp only [ROOM_TYPE_START, ROOM_TYPE_EXIT, ROOM_TYPE_BOSS, ROOM_TYPE_ARENA,
    ROOM_TYPE_CORRIDOR, ROOM_TYPE_JUNCTION, ROOM_TYPE_MULTILEVEL, ROOM_TYPE_HAZARD]
  split_ifs <;> simp <;> omega

/-- The type given to position `i` is `EXIT` exactly at the last position, unless
that is position 0. -/
theorem roomTypeAt_eq_exit (numRooms depth : Int) (i : Nat) (s : Nat) :
    (roomTypeAt numRooms depth i s).1 = ROOM_TYPE_EXIT ↔ i ≠ 0 ∧ (i : Int) = numRooms - 1 := by
  unfold roomTypeAt
  simp only [ROOM_TYPE_START, ROOM_TYPE_EXIT, ROOM_TYPE_BOSS, ROOM_TYPE_ARENA,
    ROOM_TYPE_CORRIDOR, ROOM_TYPE_JUNCTION, ROOM_TYPE_MULTILEVEL, ROOM_TYPE_HAZARD]
  split_ifs <;> simp <;> omega

theorem stepRoom_isStartRoom (numRooms depth : Int) (theme : arenaTheme_t)
    (st : roomLoopState) (i : Nat) :
    (stepRoom numRooms depth theme st i).isStartRoom = decide (i = 0) := by
  have h := roomTypeAt_eq_start numRooms depth i st.arenaRandSeed
  simp only [stepRoom, G_CreateRoom]
  exact decide_eq_decide.mpr h

theorem stepRoom_isExitRoom (numRooms depth : Int) (theme : arenaTheme_t)
    (st : roomLoopState) (i : Nat) :
    (stepRoom numRooms depth theme st i).isExitRoom =
      decide (i ≠ 0 ∧ (i : Int) = numRooms - 1) := by
  have h := roomTypeAt_eq_exit numRooms depth i st.arenaRandSeed
  simp only [stepRoom, G_CreateRoom]
  exact decide_eq_decide.mpr h

theorem stepRoom_isBossRoom (numRooms depth : Int) (theme : arenaTheme_t)
    (st : roomLoopState) (i : Nat) :
    (stepRoom numRooms depth theme st i).isBossRoom = false := rfl

theorem stepRoom_theme (numRooms depth : Int) (theme : arenaTheme_t)
    (st : roomLoopState) (i : Nat) :
    (stepRoom numRooms depth theme st i).theme = theme := rfl

theorem roomLoopAt_countP_start (numRooms depth : Int) (theme : arenaTheme_t) (s : Nat)
    (k : Nat) :
    (roomLoopAt numRooms depth theme s k).prevRoom.countP (fun room => room.isStartRoom) =
      if k = 0 then 0 else 1 := by
  induction k with
  | zero => rfl
  | succ k ih =>
    rw [roomLoopAt_prevRoom_succ, List.countP_cons, ih, stepRoom_isStartRoom]
    by_cases hk : k = 0 <;> simp [hk]

theorem roomLoopAt_countP_exit (numRooms depth : Int) (theme : arenaTheme_t) (s : Nat)
    (k : Nat) (hk : (k : Int) ≤ numRooms) :
    (roomLoopAt numRooms depth theme s k).prevRoom.countP (fun room => room.isExitRoom) =
      if 2 ≤ k ∧ (k : Int) = numRooms then 1 else 0 := by
  induction k with
  | zero => simp [roomLoopAt_zero]
  | succ k ih =>
    have hk' : (k : Int) ≤ numRooms := by omega
    rw [roomLoopAt_prevRoom_succ, List.countP_cons, ih hk', stepRoom_isExitRoom]
    have h0 : ¬ (2 ≤ k ∧ (k : Int) = numRooms) := by omega
    rw [if_neg h0]
    by_cases hx : k ≠ 0 ∧ (k : Int) = numRooms - 1
    · have h1 : 2 ≤ k + 1 ∧ ((k + 1 : Nat) : Int) = numRooms := by omega
      simp only [decide_eq_true hx, if_true, if_pos h1]
    · have h1 : ¬ (2 ≤ k + 1 ∧ ((k + 1 : Nat) : Int) = numRooms) := by omega
      simp only [decide_eq_false hx, if_neg h1]
      rfl

theorem roomLoopAt_getLast (numRooms depth : Int) (theme : arenaTheme_t) (s : Nat) (k : Nat) :
    ∃ room, (roomLoopAt numRooms depth theme s (k + 1)).prevRoom.getLast? = some room ∧
      room.isStartRoom = true := by
  induction k with
  | zero =>
    refine ⟨stepRoom numRooms depth theme (roomLoopAt numRooms depth theme s 0) 0, ?_, ?_⟩
    · rw [roomLoopAt_prevRoom_succ]
      rfl
    · rw [stepRoom_isStartRoom]
      rfl
  | succ k ih =>
    obtain ⟨room, h1, h2⟩ := ih
    refine ⟨room, ?_, h2⟩
    rw [roomLoopAt_prevRoom_succ]
    cases hl : (roomLoopAt numRooms depth theme s (k + 1)).prevRoom with
    | nil => rw [hl] at h1; cases h1
    | cons x xs => rw [hl] at h1; rw [List.getLast?_cons_cons]; exact h1

/-- The number of iterations of the room loop is `numRooms` whenever a room exists. -/
theorem toNat_cast_of_pos {numRooms : Int} (h : 1 ≤ numRooms.toNat) :
    ((numRooms.toNat : Nat) : Int) = numRooms := by
  omega

/-! ## Roles: C4 -/

/-- C4 as amended: in the arena returned by `G_GenerateArena`, if the chain has at
least two rooms then exactly one room has `isStartRoom` set, and it is the first
generated, and exactly one room has `isExitRoom` set, and it is the last
generated; if the chain has exactly one room, that room has `isStartRoom` set and
no room has `isExitRoom` set. -/
theorem roles_of_generated_arena (M : Nat) (t0 t1 seed depth : Int) (theme : arenaTheme_t)
    (s : Nat) :
    (2 ≤ (G_GenerateArena M t0 t1 seed depth theme s).1.rooms.length →
      startCount (G_GenerateArena M t0 t1 seed depth theme s).1 = 1 ∧
      exitCount (G_GenerateArena M t0 t1 seed depth theme s).1 = 1 ∧
      (∃ room, firstGenerated (G_GenerateArena M t0 t1 seed depth theme s).1 = some room ∧
        room.isStartRoom = true) ∧
      (∃ room, lastGenerated (G_GenerateArena M t0 t1 seed depth theme s).1 = some room ∧
        room.isExitRoom = true)) ∧
    ((G_GenerateArena M t0 t1 seed depth theme s).1.rooms.length = 1 →
      startCount (G_GenerateArena M t0 t1 seed depth theme s).1 = 1 ∧
      exitCount (G_GenerateArena M t0 t1 seed depth theme s).1 = 0) := by
  simp only [startCount, exitCount, firstGenerated, lastGenerated, G_GenerateArena_rooms,
    roomLoop_eq_roomLoopAt, roomLoopAt_length, roomLoopAt_countP_start]
  generalize (genCount seed depth).1 = numRooms
  generalize (genCount seed depth).2 = s0
  constructor
  · intro h
    have hn : ((numRooms.toNat : Nat) : Int) = numRooms := toNat_cast_of_pos (by omega)
    rw [roomLoopAt_countP_exit numRooms depth theme s0 _ (by omega)]
    obtain ⟨m, hm⟩ : ∃ m, numRooms.toNat = m + 1 := ⟨numRooms.toNat - 1, by omega⟩
    refine ⟨by rw [if_neg (by omega)], by rw [if_pos ⟨h, hn⟩], ?_, ?_⟩
    · rw [hm]
      exact roomLoopAt_getLast numRooms depth theme s0 m
    · rw [hm, roomLoopAt_prevRoom_succ]
      refine ⟨_, rfl, ?_⟩
      rw [stepRoom_isExitRoom]
      exact decide_eq_true ⟨by omega, by omega⟩
  · intro h
    rw [roomLoopAt_countP_exit numRooms depth theme s0 _ (by omega)]
    exact ⟨by rw [if_neg (by omega)], by rw [if_neg (by omega)]⟩

set_option maxRecDepth 100000 in
/-- Witness of `roles_of_generated_arena`: seed 42, depth 1 gives five rooms; seed 0,
depth -2 gives one. -/
theorem roles_of_generated_arena_witness :
    (2 ≤ (G_GenerateArena 64 0 0 42 1 THEME_TECH 0).1.rooms.length ∧
      (G_GenerateArena 64 0 0 0 (-2) THEME_TECH 0).1.rooms.length = 1) ∧
    (startCount (G_GenerateArena 64 0 0 42 1 THEME_TECH 0).1 = 1 ∧
      exitCount (G_GenerateArena 64 0 0 42 1 THEME_TECH 0).1 = 1 ∧
      (∃ room, firstGenerated (G_GenerateArena 64 0 0 42 1 THEME_TECH 0).1 = some room ∧
        room.isStartRoom = true) ∧
      (∃ room, lastGenerated (G_GenerateArena 64 0 0 42 1 THEME_TECH 0).1 = some room ∧
        room.isExitRoom = true)) ∧
    (startCount (G_GenerateArena 64 0 0 0 (-2) THEME_TECH 0).1 = 1 ∧
      exitCount (G_GenerateArena 64 0 0 0 (-2) THEME_TECH 0).1 = 0) :=
  ⟨⟨by decide, by decide⟩,
   (roles_of_generated_arena 64 0 0 42 1 THEME_TECH 0).1 (by decide),
   (roles_of_generated_arena 64 0 0 0 (-2) THEME_TECH 0).2 (by decide)⟩

set_option maxRecDepth 100000 in
/-- C4 fails as stated: seed 0 and depth -2 give an arena with one room, which is
the start room, and no room has `isExitRoom` set. -/
theorem roles_counterexample :
    1 ≤ (G_GenerateArena 64 0 0 0 (-2) THEME_TECH 0).1.rooms.length ∧
    ¬ (startCount (G_GenerateArena 64 0 0 0 (-2) THEME_TECH 0).1 = 1 ∧
       exitCount (G_GenerateArena 64 0 0 0 (-2) THEME_TECH 0).1 = 1) := by
  decide

/-! ## The stages of the generator -/

theorem G_GenerateArena_eq (M : Nat) (t0 t1 seed depth : Int) (theme : arenaTheme_t)
    (s : Nat) :
    G_GenerateArena M t0 t1 seed depth theme s =
      ({ G_PlaceExitPortal (genItems M seed depth theme).1 with
          worldMins := ⟨-2048, -2048, -512⟩
          worldMaxs := ⟨2048, 2048, 512⟩
          generationTime := wrap32 (t1 - t0) }, (genItems M seed depth theme).2) := rfl

theorem G_PlaceExitPortal_frame (a : arena_t) :
    G_PlaceExitPortal a = { a with exitPortal := (G_PlaceExitPortal a).exitPortal } := by
  unfold G_PlaceExitPortal
  split <;> rfl

theorem G_PlacePlayerSpawns_frame (M : Nat) (a : arena_t) (n : Int) (s : Nat) :
    (G_PlacePlayerSpawns M a n s).1 =
      { a with
        playerSpawns := (G_PlacePlayerSpawns M a n s).1.playerSpawns
        numPlayerSpawns := (G_PlacePlayerSpawns M a n s).1.numPlayerSpawns } := by
  unfold G_PlacePlayerSpawns
  split <;> rfl

theorem G_GenerateArena_playerSpawns (M : Nat) (t0 t1 seed depth : Int)
    (theme : arenaTheme_t) (s : Nat) :
    (G_GenerateArena M t0 t1 seed depth theme s).1.playerSpawns =
      (genPlayers M seed depth theme).1.playerSpawns ∧
    (G_GenerateArena M t0 t1 seed depth theme s).1.numPlayerSpawns =
      (genPlayers M seed depth theme).1.numPlayerSpawns := by
  rw [G_GenerateArena_eq, G_PlaceExitPortal_frame]
  exact ⟨rfl, rfl⟩

theorem G_GenerateArena_enemySpawns (M : Nat) (t0 t1 seed depth : Int)
    (theme : arenaTheme_t) (s : Nat) :
    (G_GenerateArena M t0 t1 seed depth theme s).1.enemySpawns =
      (genEnemies M seed depth theme).1.enemySpawns ∧
    (G_GenerateArena M t0 t1 seed depth theme s).1.numEnemySpawns =
      (genEnemies M seed depth theme).1.numEnemySpawns := by
  rw [G_GenerateArena_eq, G_PlaceExitPortal_frame]
  exact ⟨rfl, rfl⟩

theorem G_GenerateArena_itemSpawns (M : Nat) (t0 t1 seed depth : Int)
    (theme : arenaTheme_t) (s : Nat) :
    (G_GenerateArena M t0 t1 seed depth theme s).1.itemSpawns =
      (genItems M seed depth theme).1.itemSpawns ∧
    (G_GenerateArena M t0 t1 seed depth theme s).1.numItemSpawns =
      (genItems M seed depth theme).1.numItemSpawns := by
  rw [G_GenerateArena_eq, G_PlaceExitPortal_frame]
  exact ⟨rfl, rfl⟩

theorem genPlayers_rooms (M : Nat) (seed depth : Int) (theme : arenaTheme_t) :
    (genPlayers M seed depth theme).1.rooms = (genBase seed depth theme).1.rooms := by
  unfold genPlayers
  rw [G_PlacePlayerSpawns_rooms]

theorem genPlayers_enemyTable (M : Nat) (seed depth : Int) (theme : arenaTheme_t) :
    (genPlayers M seed depth theme).1.enemySpawns = [] ∧
    (genPlayers M seed depth theme).1.itemSpawns = [] := by
  unfold genPlayers
  rw [G_PlacePlayerSpawns_frame]
  exact ⟨rfl, rfl⟩

theorem genBase_rooms (seed depth : Int) (theme : arenaTheme_t) :
    (genBase seed depth theme).1.rooms =
      (roomLoop (genCount seed depth).1 depth theme (genCount seed depth).2).prevRoom := rfl

theorem tableStore_nil {α : Type} (written : List α) : tableStore written [] = written := by
  simp [tableStore]

/-! ## Loop invariants -/

theorem roomCount_le (depth : Int) (s : Nat) : (roomCount depth s).1 ≤ 64 := by
  unfold roomCount
  simp only [MAX_ARENA_ROOMS]
  split <;> omega

theorem enemyTarget_le (depth : Int) (s : Nat) : (enemyTarget depth s).1 ≤ 512 := by
  unfold enemyTarget
  simp only [MAX_ARENA_ENTITIES]
  split <;> omega

theorem itemTarget_le (depth : Int) (s : Nat) : (itemTarget depth s).1 ≤ 256 := by
  unfold itemTarget
  simp only [MAX_ARENA_ENTITIES]
  have h : Int.tdiv 512 2 = 256 := by decide
  rw [h]
  split <;> omega

theorem corridorsOf_length (theme : arenaTheme_t) (l : List arenaRoom_t) (idx : Int) :
    (corridorsOf theme l idx).length = l.length - 1 := by
  induction l generalizing idx with
  | nil => rfl
  | cons a t ih =>
    cases t with
    | nil => rfl
    | cons b rest =>
      simp only [corridorsOf, List.length_cons, ih]
      rfl

theorem corridorLoop_eq (theme : arenaTheme_t) (l : List arenaRoom_t)
    (st : corridorLoopState) :
    corridorLoop theme l st =
      { corridors := st.corridors ++ corridorsOf theme l st.roomIndex
        numCorridors := st.numCorridors + ((l.length - 1 : Nat) : Int)
        roomIndex := st.roomIndex + ((l.length - 1 : Nat) : Int) } := by
  induction l generalizing st with
  | nil => simp [corridorLoop, corridorsOf]
  | cons a t ih =>
    cases t with
    | nil => simp [corridorLoop, corridorsOf]
    | cons b rest =>
      rw [corridorLoop, ih]
      simp only [corridorsOf, List.append_assoc, List.singleton_append, List.length_cons,
        Nat.add_sub_cancel]
      congr 1 <;> push_cast <;> omega

theorem playerSpawnLoop_counts (room : arenaRoom_t) (n : Nat) (st : placeState) :
    (playerSpawnLoop room n st).placed = st.placed + (n : Int) ∧
    (playerSpawnLoop room n st).spawns.length = st.spawns.length + n := by
  induction n generalizing st with
  | zero => simp [playerSpawnLoop]
  | succ n ih =>
    rw [playerSpawnLoop]
    obtain ⟨h1, h2⟩ := ih
      { spawns := st.spawns ++
          [⟨floatAddInt room.origin.x (ArenaRandRange (-64) 64 st.arenaRandSeed).1,
            floatAddInt room.origin.y
              (ArenaRandRange (-64) 64 (ArenaRandRange (-64) 64 st.arenaRandSeed).2).1,
            floatAddInt room.origin.z 24⟩]
        placed := st.placed + 1
        arenaRandSeed :=
          (ArenaRandRange (-64) 64 (ArenaRandRange (-64) 64 st.arenaRandSeed).2).2 }
    simp only [] at h1 h2 ⊢
    rw [h1, h2]
    simp only [List.length_append, List.length_singleton]
    constructor
    · push_cast; omega
    · omega

theorem enemyRoomLoop_inv (room : arenaRoom_t) (N : Int) (n : Nat) (st : placeState)
    (h : placeInv N st) : placeInv N (enemyRoomLoop room N n st) := by
  induction n generalizing st with
  | zero => exact h
  | succ n ih =>
    rw [enemyRoomLoop]
    split
    · rename_i hlt
      apply ih
      obtain ⟨h1, h2⟩ := h
      refine ⟨?_, ?_⟩
      · simp only [List.length_append, List.length_singleton]
        push_cast
        omega
      · show st.placed + 1 ≤ max 0 N
        omega
    · exact h

theorem enemyLoop_inv (N : Int) (l : List arenaRoom_t) (st : placeState)
    (h : placeInv N st) : placeInv N (enemyLoop N l st) := by
  induction l generalizing st with
  | nil => exact h
  | cons room next ih =>
    rw [enemyLoop]
    split
    · split
      · exact ih st h
      · exact ih _ (enemyRoomLoop_inv room N _ st h)
    · exact h

theorem itemLoop_inv (N : Int) (l : List arenaRoom_t) (st : placeState)
    (h : placeInv N st) : placeInv N (itemLoop N l st) := by
  induction l generalizing st with
  | nil => exact h
  | cons room next ih =>
    rw [itemLoop]
    split
    · rename_i hlt
      split
      · apply ih
        obtain ⟨h1, h2⟩ := h
        refine ⟨?_, ?_⟩
        · simp only [List.length_append, List.length_singleton]
          push_cast
          omega
        · show st.placed + 1 ≤ max 0 N
          omega
      · exact ih st h
    · exact h

theorem placeInv_init (N : Int) (s : Nat) :
    placeInv N { spawns := [], placed := 0, arenaRandSeed := s } :=
  ⟨rfl, le_max_left 0 N⟩

theorem G_PlacePlayerSpawns_counts (M : Nat) (a : arena_t) (n : Int) (s : Nat)
    (h1 : a.playerSpawns = []) (h2 : a.numPlayerSpawns = 0) :
    (G_PlacePlayerSpawns M a n s).1.numPlayerSpawns =
      ((G_PlacePlayerSpawns M a n s).1.playerSpawns.length : Int) ∧
    (G_PlacePlayerSpawns M a n s).1.numPlayerSpawns ≤ (M : Int) := by
  unfold G_PlacePlayerSpawns
  split
  · simp only [h1, h2, List.length_nil]
    exact ⟨rfl, Int.ofNat_nonneg M⟩
  · rename_i room _
    simp only [h1, tableStore_nil]
    obtain ⟨hp, hl⟩ := playerSpawnLoop_counts room (min n (M : Int)).toNat
      { spawns := [], placed := 0, arenaRandSeed := s }
    rw [hp, hl]
    simp only [List.length_nil]
    constructor
    · push_cast; omega
    · omega

theorem G_PlaceEnemySpawns_counts (a : arena_t) (depth : Int) (s : Nat)
    (h : a.enemySpawns = []) :
    (G_PlaceEnemySpawns a depth s).1.numEnemySpawns =
      ((G_PlaceEnemySpawns a depth s).1.enemySpawns.length : Int) ∧
    (G_PlaceEnemySpawns a depth s).1.numEnemySpawns ≤ 512 := by
  unfold G_PlaceEnemySpawns
  simp only [h, tableStore_nil]
  obtain ⟨h1, h2⟩ := enemyLoop_inv (enemyTarget depth s).1 a.rooms _
    (placeInv_init (enemyTarget depth s).1 (enemyTarget depth s).2)
  have h3 := enemyTarget_le depth s
  exact ⟨h1, by omega⟩

theorem G_PlaceItems_counts (a : arena_t) (depth : Int) (s : Nat)
    (h : a.itemSpawns = []) :
    (G_PlaceItems a depth s).1.numItemSpawns =
      ((G_PlaceItems a depth s).1.itemSpawns.length : Int) ∧
    (G_PlaceItems a depth s).1.numItemSpawns ≤ 256 := by
  unfold G_PlaceItems
  simp only [h, tableStore_nil]
  obtain ⟨h1, h2⟩ := itemLoop_inv (itemTarget depth s).1 a.rooms _
    (placeInv_init (itemTarget depth s).1 (itemTarget depth s).2)
  have h3 := itemTarget_le depth s
  exact ⟨h1, by omega⟩

theorem genCount_le (seed depth : Int) : (genCount seed depth).1 ≤ 64 :=
  roomCount_le depth _

theorem G_GenerateArena_room_counts (M : Nat) (t0 t1 seed depth : Int)
    (theme : arenaTheme_t) (s : Nat) :
    (G_GenerateArena M t0 t1 seed depth theme s).1.numRooms =
      (((genCount seed depth).1.toNat : Nat) : Int) ∧
    (G_GenerateArena M t0 t1 seed depth theme s).1.rooms.length =
      (genCount seed depth).1.toNat := by
  rw [G_GenerateArena_numRooms, G_GenerateArena_rooms, roomLoop_eq_roomLoopAt,
    roomLoopAt_numRooms, roomLoopAt_length]
  exact ⟨rfl, rfl⟩

theorem G_GenerateArena_corridor_counts (M : Nat) (t0 t1 seed depth : Int)
    (theme : arenaTheme_t) (s : Nat) :
    (G_GenerateArena M t0 t1 seed depth theme s).1.numCorridors =
      (((genCount seed depth).1.toNat - 1 : Nat) : Int) ∧
    (G_GenerateArena M t0 t1 seed depth theme s).1.corridors =
      corridorsOf theme (G_GenerateArena M t0 t1 seed depth theme s).1.rooms 0 := by
  obtain ⟨h1, h2⟩ := G_GenerateArena_corridors M t0 t1 seed depth theme s
  obtain ⟨-, h3⟩ := G_GenerateArena_room_counts M t0 t1 seed depth theme s
  rw [h1, h2, corridorLoop_eq, h3]
  simp

/-! ## Capacities: C5 -/

/-- C5: for every seed, depth and theme (no bound on the depth is needed), the
arena returned by `G_GenerateArena` has `numRooms ≤ 64`, `numCorridors ≤ 128`,
`numPlayerSpawns ≤ MAX_CLIENTS`, `numEnemySpawns ≤ 512` and `numItemSpawns ≤ 512`,
and each counter is the number of entries written to its table (the length of the
chain for `numRooms`).  Entry `k` of a table is slot `k`, so every slot written is
below the capacity, although the corridor loop has no capacity check. -/
theorem capacities_respected (M : Nat) (t0 t1 seed depth : Int) (theme : arenaTheme_t)
    (s : Nat) :
    withinCapacity M (G_GenerateArena M t0 t1 seed depth theme s).1 ∧
    countsMatchTables (G_GenerateArena M t0 t1 seed depth theme s).1 := by
  obtain ⟨hr1, hr2⟩ := G_GenerateArena_room_counts M t0 t1 seed depth theme s
  obtain ⟨hc1, hc2⟩ := G_GenerateArena_corridor_counts M t0 t1 seed depth theme s
  obtain ⟨hp1, hp2⟩ := G_GenerateArena_playerSpawns M t0 t1 seed depth theme s
  obtain ⟨he1, he2⟩ := G_GenerateArena_enemySpawns M t0 t1 seed depth theme s
  obtain ⟨hi1, hi2⟩ := G_GenerateArena_itemSpawns M t0 t1 seed depth theme s
  obtain ⟨hp3, hp4⟩ := G_PlacePlayerSpawns_counts M (genBase seed depth theme).1 8
    (genBase seed depth theme).2 rfl rfl
  obtain ⟨he3, he4⟩ := G_PlaceEnemySpawns_counts (genPlayers M seed depth theme).1 depth
    (genPlayers M seed depth theme).2 (genPlayers_enemyTable M seed depth theme).1
  obtain ⟨hi3, hi4⟩ := G_PlaceItems_counts (genEnemies M seed depth theme).1 depth
    (genEnemies M seed depth theme).2 (genPlayers_enemyTable M seed depth theme).2
  have hn := genCount_le seed depth
  have hcl : (G_GenerateArena M t0 t1 seed depth theme s).1.corridors.length =
      (genCount seed depth).1.toNat - 1 := by
    rw [hc2, corridorsOf_length, hr2]
  refine ⟨⟨?_, ?_, ?_, ?_, ?_⟩, ?_, ?_, ?_, ?_, ?_⟩
  · rw [hr1]; simp only [MAX_ARENA_ROOMS]; omega
  · rw [hc1]; simp only [MAX_ARENA_CORRIDORS]; omega
  · rw [hp2]; exact hp4
  · rw [he2]; simp only [MAX_ARENA_ENTITIES]; exact he4
  · rw [hi2]; simp only [MAX_ARENA_ENTITIES]
    have : (genItems M seed depth theme).1.numItemSpawns ≤ 256 := hi4
    omega
  · rw [hr1, hr2]
  · rw [hc1, hcl]
  · rw [hp1, hp2]; exact hp3
  · rw [he1, he2]; exact he3
  · rw [hi1, hi2]; exact hi3

/-! ## Room count: C6 -/

theorem ArenaRandRange_zero_bounds (max : Int) (s : Nat) :
    0 ≤ (ArenaRandRange 0 max s).1 ∧ (ArenaRandRange 0 max s).1 ≤ 32767 := by
  unfold ArenaRandRange
  split
  · exact ⟨le_refl _, show (0 : Int) ≤ 32767 by decide⟩
  · have hr := ArenaRand_lt s
    have hm : (ArenaRand s).1 % toU32 (max - 0 + 1) ≤ (ArenaRand s).1 := Nat.mod_le _ _
    have h0 : toU32 0 = 0 := rfl
    simp only [h0, wrap32]
    generalize (ArenaRand s).1 % toU32 (max - 0 + 1) = q at hm
    constructor <;> omega

theorem genCount_eq (seed depth : Int) (hlo : -2147483648 ≤ depth)
    (hhi : 3 + depth + firstDraw seed depth < 2147483648) :
    (genCount seed depth).1 = min 64 (3 + depth + firstDraw seed depth) := by
  have hk := (ArenaRandRange_zero_bounds depth (ArenaSetSeed (toU32 (seed + depth)) 0)).1
  have hw : wrap32 (3 + depth + firstDraw seed depth) = 3 + depth + firstDraw seed depth :=
    wrap32_of_range (by unfold firstDraw; omega) hhi
  unfold genCount roomCount
  simp only [MAX_ARENA_ROOMS]
  unfold firstDraw at hw
  rw [hw]
  unfold firstDraw
  split <;> omega

/-- C6: let `k` be the value of `ArenaRandRange(0, depth)` drawn right after the
generator is reseeded with `seed + depth`.  For every seed and every depth for
which the `int` expression `3 + depth + k` does not overflow, the arena returned by
`G_GenerateArena` has `numRooms = max 0 (min 64 (3 + depth + k))`, `numRooms` is
the number of nodes of the chain `arena->rooms`, and for `depth ≥ 1`
`min 64 (3 + depth) ≤ numRooms ≤ min 64 (3 + 2 * depth)`. -/
theorem room_count_formula (M : Nat) (t0 t1 seed depth : Int) (theme : arenaTheme_t)
    (s : Nat) (hlo : -2147483648 ≤ depth)
    (hhi : 3 + depth + firstDraw seed depth < 2147483648) :
    (G_GenerateArena M t0 t1 seed depth theme s).1.numRooms =
      max 0 (min 64 (3 + depth + firstDraw seed depth)) ∧
    (G_GenerateArena M t0 t1 seed depth theme s).1.numRooms =
      ((G_GenerateArena M t0 t1 seed depth theme s).1.rooms.length : Int) ∧
    (1 ≤ depth →
      min 64 (3 + depth) ≤ (G_GenerateArena M t0 t1 seed depth theme s).1.numRooms ∧
      (G_GenerateArena M t0 t1 seed depth theme s).1.numRooms ≤ min 64 (3 + 2 * depth)) := by
  obtain ⟨hr1, hr2⟩ := G_GenerateArena_room_counts M t0 t1 seed depth theme s
  have hc := genCount_eq seed depth hlo hhi
  have hk := (ArenaRandRange_zero_bounds depth (ArenaSetSeed (toU32 (seed + depth)) 0)).1
  rw [hr1, hr2, hc]
  refine ⟨by omega, rfl, ?_⟩
  intro hd
  have hk' : 0 ≤ firstDraw seed depth := hk
  have hb := (ArenaRandRange_bounds (ArenaSetSeed (toU32 (seed + depth)) 0) 0 depth
    (by decide) (by omega) (by omega) (by omega)).2
  have hb' : firstDraw seed depth ≤ depth := hb
  omega

/-- Witness of C6 at seed 42, depth 1, where `k = 1` and `numRooms = 5`. -/
theorem room_count_formula_witness :
    ((-2147483648 : Int) ≤ 1 ∧ 3 + 1 + firstDraw 42 1 < 2147483648 ∧ (1 : Int) ≤ 1) ∧
    (G_GenerateArena 64 0 0 42 1 THEME_TECH 0).1.numRooms =
      max 0 (min 64 (3 + 1 + firstDraw 42 1)) ∧
    (G_GenerateArena 64 0 0 42 1 THEME_TECH 0).1.numRooms =
      ((G_GenerateArena 64 0 0 42 1 THEME_TECH 0).1.rooms.length : Int) ∧
    min 64 (3 + 1) ≤ (G_GenerateArena 64 0 0 42 1 THEME_TECH 0).1.numRooms ∧
    (G_GenerateArena 64 0 0 42 1 THEME_TECH 0).1.numRooms ≤ min 64 (3 + 2 * 1) :=
  have h := room_count_formula 64 0 0 42 1 THEME_TECH 0 (by decide) (by decide)
  ⟨by decide, h.1, h.2.1, h.2.2 (by decide)⟩

/-! ## Corridors: C7 -/

theorem corridorsOf_get (theme : arenaTheme_t) (l : List arenaRoom_t) (idx : Int) (i : Nat)
    (h : i + 1 < l.length) :
    ∃ ra rb, l[i]? = some ra ∧ l[i + 1]? = some rb ∧
      (corridorsOf theme l idx)[i]? =
        some { roomA := idx + (i : Int), roomB := idx + (i : Int) + 1, start := ra.origin,
               «end» := rb.origin, width := 128, theme := theme } := by
  induction l generalizing idx i with
  | nil => simp at h
  | cons a t ih =>
    cases t with
    | nil => simp at h
    | cons b rest =>
      cases i with
      | zero =>
        refine ⟨a, b, rfl, by simp, ?_⟩
        simp [corridorsOf]
      | succ j =>
        have hj : j + 1 < (b :: rest).length := by
          simp only [List.length_cons] at h ⊢
          omega
        obtain ⟨ra, rb, h1, h2, h3⟩ := ih (idx + 1) j hj
        refine ⟨ra, rb, ?_, ?_, ?_⟩
        · rw [List.getElem?_cons_succ]; exact h1
        · rw [List.getElem?_cons_succ]; exact h2
        · rw [corridorsOf, List.getElem?_cons_succ, h3]
          have e1 : idx + 1 + (j : Int) = idx + ((j + 1 : Nat) : Int) := by push_cast; omega
          rw [e1]

/-- C7: in the arena returned by `G_GenerateArena`, `numCorridors` is
`numRooms - 1` when `numRooms ≥ 1` and 0 otherwise, and for every `i < numCorridors`
corridor `i` has `roomA = i`, `roomB = i + 1`, `start` the origin of node `i` of the
stored chain, `end` the origin of node `i + 1`, width 128 and the requested theme. -/
theorem corridors_link_adjacent (M : Nat) (t0 t1 seed depth : Int) (theme : arenaTheme_t)
    (s : Nat) :
    (G_GenerateArena M t0 t1 seed depth theme s).1.numCorridors =
      (if 1 ≤ (G_GenerateArena M t0 t1 seed depth theme s).1.numRooms
       then (G_GenerateArena M t0 t1 seed depth theme s).1.numRooms - 1 else 0) ∧
    ∀ i : Nat, (i : Int) < (G_GenerateArena M t0 t1 seed depth theme s).1.numCorridors →
      ∃ ra rb,
        (G_GenerateArena M t0 t1 seed depth theme s).1.rooms[i]? = some ra ∧
        (G_GenerateArena M t0 t1 seed depth theme s).1.rooms[i + 1]? = some rb ∧
        (G_GenerateArena M t0 t1 seed depth theme s).1.corridors[i]? =
          some { roomA := (i : Int), roomB := (i : Int) + 1, start := ra.origin,
                 «end» := rb.origin, width := 128, theme := theme } := by
  obtain ⟨hr1, hr2⟩ := G_GenerateArena_room_counts M t0 t1 seed depth theme s
  obtain ⟨hc1, hc2⟩ := G_GenerateArena_corridor_counts M t0 t1 seed depth theme s
  constructor
  · rw [hc1, hr1]
    split <;> omega
  · intro i hi
    rw [hc1] at hi
    have hlen : i + 1 < (G_GenerateArena M t0 t1 seed depth theme s).1.rooms.length := by
      rw [hr2]; omega
    obtain ⟨ra, rb, h1, h2, h3⟩ := corridorsOf_get theme _ 0 i hlen
    refine ⟨ra, rb, h1, h2, ?_⟩
    rw [hc2, h3]
    simp

set_option maxRecDepth 100000 in
/-- Witness of C7: the last corridor (index 3) of the arena of seed 42, depth 1. -/
theorem corridors_link_adjacent_witness :
    ((3 : Nat) : Int) < (G_GenerateArena 64 0 0 42 1 THEME_TECH 0).1.numCorridors ∧
    ∃ ra rb,
      (G_GenerateArena 64 0 0 42 1 THEME_TECH 0).1.rooms[3]? = some ra ∧
      (G_GenerateArena 64 0 0 42 1 THEME_TECH 0).1.rooms[3 + 1]? = some rb ∧
      (G_GenerateArena 64 0 0 42 1 THEME_TECH 0).1.corridors[3]? =
        some { roomA := ((3 : Nat) : Int), roomB := ((3 : Nat) : Int) + 1, start := ra.origin,
               «end» := rb.origin, width := 128, theme := THEME_TECH } :=
  ⟨by decide, (corridors_link_adjacent 64 0 0 42 1 THEME_TECH 0).2 3 (by decide)⟩

/-! ## Scenario A: C8 -/

set_option maxRecDepth 100000 in
/-- C8 fails as stated: the chain of `G_GenerateArena(42, 1, THEME_TECH)` has five
rooms (the draw after reseeding with 43 is `k = 1`), not between 3 and 4. -/
theorem scenario_A_counterexample :
    ¬ (3 ≤ (G_GenerateArena 64 0 0 42 1 THEME_TECH 0).1.rooms.length ∧
       (G_GenerateArena 64 0 0 42 1 THEME_TECH 0).1.rooms.length ≤ 4) := by
  decide

set_option maxRecDepth 100000 in
/-- C8 as amended: for `G_GenerateArena(42, 1, THEME_TECH)` the length of the chain
is between 4 and 5 (it is 5), the first-created room has the start flag, the
last-created room has the exit flag, and generating again with the same seed and
depth, from any generator state, gives the same room sizes. -/
theorem scenario_A (M M' : Nat) (t0 t1 t0' t1' : Int) (s s' : Nat) :
    4 ≤ (G_GenerateArena M t0 t1 42 1 THEME_TECH s).1.rooms.length ∧
    (G_GenerateArena M t0 t1 42 1 THEME_TECH s).1.rooms.length ≤ 5 ∧
    (G_GenerateArena M t0 t1 42 1 THEME_TECH s).1.rooms.length = 5 ∧
    (∃ room, firstGenerated (G_GenerateArena M t0 t1 42 1 THEME_TECH s).1 = some room ∧
      room.isStartRoom = true) ∧
    (∃ room, lastGenerated (G_GenerateArena M t0 t1 42 1 THEME_TECH s).1 = some room ∧
      room.isExitRoom = true) ∧
    roomSizes (G_GenerateArena M' t0' t1' 42 1 THEME_TECH s').1 =
      roomSizes (G_GenerateArena M t0 t1 42 1 THEME_TECH s).1 := by
  unfold firstGenerated lastGenerated roomSizes
  rw [G_GenerateArena_rooms M t0 t1 42 1 THEME_TECH s,
    G_GenerateArena_rooms M' t0' t1' 42 1 THEME_TECH s']
  refine ⟨by decide, by decide, by decide, ⟨_, rfl, by decide⟩, ⟨_, rfl, by decide⟩, rfl⟩

/-! ## Scenario B and the boss room: C9, C10 -/

set_option maxRecDepth 100000 in
/-- C9, the code at the scenario: in `G_GenerateArena(1, 5, THEME_GOTHIC)` the
second-to-last generated room has type `ROOM_TYPE_BOSS`, width and depth 672 and
height 384, but its `isBossRoom` flag is not set. -/
theorem scenario_B_boss_flag (M : Nat) (t0 t1 : Int) (s : Nat) :
    ∃ room, secondToLastGenerated (G_GenerateArena M t0 t1 1 5 THEME_GOTHIC s).1 = some room ∧
      room.type = ROOM_TYPE_BOSS ∧ room.width = 672 ∧ room.depth = 672 ∧
      room.height = 384 ∧ room.isBossRoom = false := by
  unfold secondToLastGenerated
  rw [G_GenerateArena_rooms M t0 t1 1 5 THEME_GOTHIC s]
  exact ⟨_, rfl, by decide, by decide, by decide, by decide, by decide⟩

set_option maxRecDepth 100000 in
/-- C10, the code at the scenario: in `G_GenerateArena(1, 5, THEME_GOTHIC)` (with
`MAX_CLIENTS = 64`) the enemy pass draws the target 24 and writes 19 spawns, so it
reaches every room; the boss-type room asks for `672 * 672 / 65536 = 6` enemies
and six spawns lie in its bounding box, which the boxes of its two neighbours in
the chain do not meet. -/
theorem boss_room_enemies :
    ∃ room,
      secondToLastGenerated (G_GenerateArena 64 0 0 1 5 THEME_GOTHIC 0).1 = some room ∧
      room.type = ROOM_TYPE_BOSS ∧
      (enemyTarget 5 (genPlayers 64 1 5 THEME_GOTHIC).2).1 = 24 ∧
      (G_GenerateArena 64 0 0 1 5 THEME_GOTHIC 0).1.numEnemySpawns = 19 ∧
      roomEnemies room = 6 ∧
      enemiesInside (G_GenerateArena 64 0 0 1 5 THEME_GOTHIC 0).1 room = 6 ∧
      (∀ other ∈ (G_GenerateArena 64 0 0 1 5 THEME_GOTHIC 0).1.rooms,
        other = room ∨ other.maxs.x < room.mins.x ∨ room.maxs.x < other.mins.x) := by
  refine ⟨_, rfl, ?_, ?_, ?_, ?_, ?_, ?_⟩ <;> decide

/-! ## Degenerate arenas: C11 -/

theorem roomLoop_of_nonpos (numRooms depth : Int) (theme : arenaTheme_t) (s : Nat)
    (h : numRooms ≤ 0) :
    roomLoop numRooms depth theme s =
      { currentPos := ⟨0, 0, 0⟩, prevRoom := [], numRooms := 0, arenaRandSeed := s } := by
  have h0 : numRooms.toNat = 0 := by omega
  rw [roomLoop_eq_roomLoopAt, h0, roomLoopAt_zero]

theorem genCount_of_le (seed depth : Int) (hlo : -2147483648 ≤ depth) (hd : depth ≤ 0) :
    (genCount seed depth).1 = min 64 (3 + depth) := by
  have hk : firstDraw seed depth = 0 := by
    unfold firstDraw
    rw [ArenaRandRange_of_le _ hd]
  have h := genCount_eq seed depth hlo (by rw [hk]; omega)
  rw [h, hk]
  simp

theorem genBase_of_nonpos (seed depth : Int) (theme : arenaTheme_t)
    (h : (genCount seed depth).1 ≤ 0) :
    genBase seed depth theme =
      ({ zeroArena with seed := seed, depth := depth, theme := theme },
        (genCount seed depth).2) := by
  unfold genBase
  simp only [roomLoop_of_nonpos _ depth theme _ h]
  rfl

/-- C11: for every seed and every `int` depth `≤ -3`, `G_GenerateArena` returns an
arena with `numRooms = 0`, an empty chain, `numCorridors = 0`,
`numPlayerSpawns = numEnemySpawns = numItemSpawns = 0` and exit portal `(0, 0, 0)`;
no entry is written to the corridor table or to a spawn table. -/
theorem degenerate_arena (M : Nat) (t0 t1 seed depth : Int) (theme : arenaTheme_t) (s : Nat)
    (hlo : -2147483648 ≤ depth) (hd : depth ≤ -3) :
    (G_GenerateArena M t0 t1 seed depth theme s).1.numRooms = 0 ∧
    (G_GenerateArena M t0 t1 seed depth theme s).1.rooms = [] ∧
    (G_GenerateArena M t0 t1 seed depth theme s).1.numCorridors = 0 ∧
    (G_GenerateArena M t0 t1 seed depth theme s).1.corridors = [] ∧
    (G_GenerateArena M t0 t1 seed depth theme s).1.numPlayerSpawns = 0 ∧
    (G_GenerateArena M t0 t1 seed depth theme s).1.playerSpawns = [] ∧
    (G_GenerateArena M t0 t1 seed depth theme s).1.numEnemySpawns = 0 ∧
    (G_GenerateArena M t0 t1 seed depth theme s).1.enemySpawns = [] ∧
    (G_GenerateArena M t0 t1 seed depth theme s).1.numItemSpawns = 0 ∧
    (G_GenerateArena M t0 t1 seed depth theme s).1.itemSpawns = [] ∧
    (G_GenerateArena M t0 t1 seed depth theme s).1.exitPortal = ⟨0, 0, 0⟩ := by
  have hc : (genCount seed depth).1 ≤ 0 := by
    rw [genCount_of_le seed depth hlo (by omega)]
    omega
  have hb := genBase_of_nonpos seed depth theme hc
  have hp : genPlayers M seed depth theme =
      ({ zeroArena with seed := seed, depth := depth, theme := theme },
        (genCount seed depth).2) := by
    unfold genPlayers
    rw [hb]
    rfl
  have hi : (genItems M seed depth theme).1 =
      { zeroArena with seed := seed, depth := depth, theme := theme } := by
    unfold genItems genEnemies
    rw [hp]
    rfl
  rw [G_GenerateArena_eq, hi]
  exact ⟨rfl, rfl, rfl, rfl, rfl, rfl, rfl, rfl, rfl, rfl, rfl⟩

/-- Witness of C11 at seed 0, depth -3. -/
theorem degenerate_arena_witness :
    ((-2147483648 : Int) ≤ -3 ∧ (-3 : Int) ≤ -3) ∧
    (G_GenerateArena 64 0 0 0 (-3) THEME_TECH 0).1.numRooms = 0 ∧
    (G_GenerateArena 64 0 0 0 (-3) THEME_TECH 0).1.rooms = [] ∧
    (G_GenerateArena 64 0 0 0 (-3) THEME_TECH 0).1.numCorridors = 0 ∧
    (G_GenerateArena 64 0 0 0 (-3) THEME_TECH 0).1.corridors = [] ∧
    (G_GenerateArena 64 0 0 0 (-3) THEME_TECH 0).1.numPlayerSpawns = 0 ∧
    (G_GenerateArena 64 0 0 0 (-3) THEME_TECH 0).1.playerSpawns = [] ∧
    (G_GenerateArena 64 0 0 0 (-3) THEME_TECH 0).1.numEnemySpawns = 0 ∧
    (G_GenerateArena 64 0 0 0 (-3) THEME_TECH 0).1.enemySpawns = [] ∧
    (G_GenerateArena 64 0 0 0 (-3) THEME_TECH 0).1.numItemSpawns = 0 ∧
    (G_GenerateArena 64 0 0 0 (-3) THEME_TECH 0).1.itemSpawns = [] ∧
    (G_GenerateArena 64 0 0 0 (-3) THEME_TECH 0).1.exitPortal = ⟨0, 0, 0⟩ :=
  ⟨by decide, degenerate_arena 64 0 0 0 (-3) THEME_TECH 0 (by decide) (by decide)⟩

/-! ## Player spawns: C12 -/

theorem tableStore_take {α : Type} (written old : List α) :
    (tableStore written old).take written.length = written := by
  unfold tableStore
  rw [List.take_left]

/-- Where float sums are exact, a jittered point is within the radii of the centre. -/
theorem jittered_near (c p : vec3_t) (rx ry : Int) (hj : jittered c p rx ry)
    (he : exactAround c rx ry) : nearPoint c p rx ry := by
  obtain ⟨dx, dy, hx, hy, rfl⟩ := hj
  obtain ⟨ex, ey, ez⟩ := he
  have ax := abs_nonneg c.x
  have ay := abs_nonneg c.y
  have az := abs_nonneg c.z
  have tx := abs_add c.x dx
  have ty := abs_add c.y dy
  have tz := abs_add c.z 24
  have h24 : |(24 : Int)| = 24 := by decide
  unfold nearPoint
  simp only
  rw [floatAddInt_exact c.x dx (by omega) (by omega),
    floatAddInt_exact c.y dy (by omega) (by omega),
    floatAddInt_exact c.z 24 (by omega) (by omega)]
  refine ⟨?_, ?_, rfl⟩
  · rw [add_sub_cancel_left]
    exact hx
  · rw [add_sub_cancel_left]
    exact hy

theorem playerSpawnLoop_jittered (room : arenaRoom_t) (n : Nat) (st : placeState) :
    ∀ p ∈ (playerSpawnLoop room n st).spawns,
      p ∈ st.spawns ∨ jittered room.origin p 64 64 := by
  induction n generalizing st with
  | zero => intro p hp; exact Or.inl hp
  | succ n ih =>
    intro p hp
    rw [playerSpawnLoop] at hp
    rcases ih _ p hp with h | h
    · simp only [List.mem_append, List.mem_singleton] at h
      rcases h with h | h
      · exact Or.inl h
      · right
        have bx := ArenaRandRange_bounds st.arenaRandSeed (-64) 64 (by decide) (by decide)
          (by decide) (by decide)
        have bY := ArenaRandRange_bounds (ArenaRandRange (-64) 64 st.arenaRandSeed).2 (-64) 64
          (by decide) (by decide) (by decide) (by decide)
        exact ⟨_, _, abs_le.mpr ⟨bx.1, bx.2⟩, abs_le.mpr ⟨bY.1, bY.2⟩, h⟩
    · exact Or.inr h

theorem G_PlacePlayerSpawns_of_start (M : Nat) (a : arena_t) (n : Int) (s : Nat)
    (room : arenaRoom_t) (h : a.rooms.find? (fun r => r.isStartRoom) = some room) :
    (G_PlacePlayerSpawns M a n s).1.numPlayerSpawns = max 0 (min n (M : Int)) ∧
    writtenPlayerSpawns (G_PlacePlayerSpawns M a n s).1 =
      (playerSpawnLoop room (min n (M : Int)).toNat
        { spawns := [], placed := 0, arenaRandSeed := s }).spawns := by
  obtain ⟨hp, hl⟩ := playerSpawnLoop_counts room (min n (M : Int)).toNat
    { spawns := [], placed := 0, arenaRandSeed := s }
  simp only [List.length_nil, Nat.zero_add] at hl
  simp only [writtenPlayerSpawns, G_PlacePlayerSpawns, h, hp]
  constructor
  · omega
  · have e : ((0 : Int) + ((min n (M : Int)).toNat : Int)).toNat =
        (playerSpawnLoop room (min n (M : Int)).toNat
          { spawns := [], placed := 0, arenaRandSeed := s }).spawns.length := by
      rw [hl]; omega
    rw [e, tableStore_take]

theorem roomLoopAt_find_start (numRooms depth : Int) (theme : arenaTheme_t) (s : Nat)
    (k : Nat) :
    ∃ room, (roomLoopAt numRooms depth theme s (k + 1)).prevRoom.find?
        (fun r => r.isStartRoom) = some room ∧ room.origin = ⟨0, 0, 0⟩ := by
  induction k with
  | zero =>
    refine ⟨stepRoom numRooms depth theme (roomLoopAt numRooms depth theme s 0) 0, ?_, rfl⟩
    rw [roomLoopAt_prevRoom_succ, List.find?_cons_of_pos]
    rw [stepRoom_isStartRoom]
    rfl
  | succ k ih =>
    obtain ⟨room, h1, h2⟩ := ih
    refine ⟨room, ?_, h2⟩
    rw [roomLoopAt_prevRoom_succ, List.find?_cons_of_neg, h1]
    rw [stepRoom_isStartRoom]
    simp

/-- C12 as amended: if the chain of an arena has a start-flagged room, and `room` is
the first one in chain order, `G_PlacePlayerSpawns` called with `n` sets
`numPlayerSpawns` to `max 0 (min n MAX_CLIENTS)` and every spawn point written is
`room.origin` moved by integers of magnitude at most 64 in `x` and in `y` and by 24
in `z`, in float arithmetic; so it is within 64 of `room.origin` in `x` and in `y`
and 24 above it whenever these sums stay within magnitude `2^24`.  If no room is
start-flagged, the arena (table and count included) and the generator state are
unchanged.  Hence, when `MAX_CLIENTS ≥ 8`, an arena of `G_GenerateArena` with at
least one room has exactly 8 player spawns, all with `|x| ≤ 64`, `|y| ≤ 64`,
`z = 24`. -/
theorem player_spawns_contract (M : Nat) :
    (∀ (a : arena_t) (n : Int) (s : Nat),
      (∀ room, a.rooms.find? (fun r => r.isStartRoom) = some room →
        (G_PlacePlayerSpawns M a n s).1.numPlayerSpawns = max 0 (min n (M : Int)) ∧
        ∀ p ∈ writtenPlayerSpawns (G_PlacePlayerSpawns M a n s).1,
          jittered room.origin p 64 64 ∧
          (exactAround room.origin 64 64 → nearPoint room.origin p 64 64)) ∧
      (a.rooms.find? (fun r => r.isStartRoom) = none →
        G_PlacePlayerSpawns M a n s = (a, s))) ∧
    (8 ≤ M → ∀ (t0 t1 seed depth : Int) (theme : arenaTheme_t) (s : Nat),
      1 ≤ (G_GenerateArena M t0 t1 seed depth theme s).1.rooms.length →
        (G_GenerateArena M t0 t1 seed depth theme s).1.numPlayerSpawns = 8 ∧
        (G_GenerateArena M t0 t1 seed depth theme s).1.playerSpawns.length = 8 ∧
        ∀ p ∈ (G_GenerateArena M t0 t1 seed depth theme s).1.playerSpawns,
          |p.x| ≤ 64 ∧ |p.y| ≤ 64 ∧ p.z = 24) := by
  constructor
  · intro a n s
    constructor
    · intro room h
      obtain ⟨h1, h2⟩ := G_PlacePlayerSpawns_of_start M a n s room h
      refine ⟨h1, ?_⟩
      intro p hp
      rw [h2] at hp
      rcases playerSpawnLoop_jittered room _ _ p hp with h | h
      · simp at h
      · exact ⟨h, jittered_near _ _ _ _ h⟩
    · intro h
      simp only [G_PlacePlayerSpawns, h]
  · intro hM t0 t1 seed depth theme s hlen
    obtain ⟨hp1, hp2⟩ := G_GenerateArena_playerSpawns M t0 t1 seed depth theme s
    obtain ⟨-, hr2⟩ := G_GenerateArena_room_counts M t0 t1 seed depth theme s
    obtain ⟨m, hm⟩ : ∃ m, (genCount seed depth).1.toNat = m + 1 :=
      ⟨(genCount seed depth).1.toNat - 1, by omega⟩
    obtain ⟨room, hf, ho⟩ := roomLoopAt_find_start (genCount seed depth).1 depth theme
      (genCount seed depth).2 m
    have hf' : (genBase seed depth theme).1.rooms.find? (fun r => r.isStartRoom) =
        some room := by
      rw [genBase_rooms, roomLoop_eq_roomLoopAt, hm]
      exact hf
    obtain ⟨h1, h2⟩ := G_PlacePlayerSpawns_of_start M (genBase seed depth theme).1 8
      (genBase seed depth theme).2 room hf'
    obtain ⟨h3, -⟩ := G_PlacePlayerSpawns_counts M (genBase seed depth theme).1 8
      (genBase seed depth theme).2 rfl rfl
    have hcount : (genPlayers M seed depth theme).1.numPlayerSpawns = 8 := by
      unfold genPlayers
      rw [h1]
      omega
    have hlen8 : (genPlayers M seed depth theme).1.playerSpawns.length = 8 := by
      have h3' : (genPlayers M seed depth theme).1.numPlayerSpawns =
          ((genPlayers M seed depth theme).1.playerSpawns.length : Int) := h3
      omega
    refine ⟨by rw [hp2, hcount], by rw [hp1, hlen8], ?_⟩
    intro p hp
    rw [hp1] at hp
    have hw : writtenPlayerSpawns (genPlayers M seed depth theme).1 =
        (genPlayers M seed depth theme).1.playerSpawns := by
      unfold writtenPlayerSpawns
      rw [hcount]
      exact List.take_of_length_le (by rw [hlen8]; decide)
    have hp' : p ∈ writtenPlayerSpawns (genPlayers M seed depth theme).1 := by
      rw [hw]; exact hp
    unfold genPlayers at hp'
    rw [h2] at hp'
    rcases playerSpawnLoop_jittered room _ _ p hp' with h | h
    · simp at h
    · rw [ho] at h
      obtain ⟨hx, hy, hz⟩ := jittered_near _ _ _ _ h (by decide)
      simp only [sub_zero, zero_add] at hx hy hz
      exact ⟨hx, hy, hz⟩

set_option maxRecDepth 100000 in
/-- C12 fails as stated: `G_PlacePlayerSpawns` asked for one spawn in the arena whose
start room is at `x = 33554430`, in generator state 69, draws the offset 64 and
writes `x = 33554496`, the float nearest to 33554494: 66 away from the origin. -/
theorem player_spawns_counterexample :
    ∃ room p, farStartArena.rooms.find? (fun r => r.isStartRoom) = some room ∧
      writtenPlayerSpawns (G_PlacePlayerSpawns 64 farStartArena 1 69).1 = [p] ∧
      (ArenaRandRange (-64) 64 69).1 = 64 ∧ room.origin.x = 33554430 ∧ p.x = 33554496 ∧
      ¬ |p.x - room.origin.x| ≤ 64 :=
  ⟨_, _, rfl, rfl, by decide, by decide, by decide, by decide⟩

set_option maxRecDepth 100000 in
/-- Witness of C12 at `MAX_CLIENTS = 64`: the arena of seed 42, depth 1 before the
player pass, asked for 3 players; the zeroed arena, which has no room; and the
generated arena of seed 42, depth 1. -/
theorem player_spawns_contract_witness :
    (∃ room, (genBase 42 1 THEME_TECH).1.rooms.find? (fun r => r.isStartRoom) = some room ∧
      exactAround room.origin 64 64 ∧
      (G_PlacePlayerSpawns 64 (genBase 42 1 THEME_TECH).1 3 0).1.numPlayerSpawns =
        max 0 (min 3 ((64 : Nat) : Int)) ∧
      ∀ p ∈ writtenPlayerSpawns (G_PlacePlayerSpawns 64 (genBase 42 1 THEME_TECH).1 3 0).1,
        nearPoint room.origin p 64 64) ∧
    (zeroArena.rooms.find? (fun r => r.isStartRoom) = none ∧
      G_PlacePlayerSpawns 64 zeroArena 3 0 = (zeroArena, 0)) ∧
    (8 ≤ 64 ∧ 1 ≤ (G_GenerateArena 64 0 0 42 1 THEME_TECH 0).1.rooms.length) ∧
    (G_GenerateArena 64 0 0 42 1 THEME_TECH 0).1.numPlayerSpawns = 8 ∧
    (G_GenerateArena 64 0 0 42 1 THEME_TECH 0).1.playerSpawns.length = 8 ∧
    ∀ p ∈ (G_GenerateArena 64 0 0 42 1 THEME_TECH 0).1.playerSpawns,
      |p.x| ≤ 64 ∧ |p.y| ≤ 64 ∧ p.z = 24 :=
  have h := ((player_spawns_contract 64).1 (genBase 42 1 THEME_TECH).1 3 0).1 _ rfl
  ⟨⟨_, rfl, by decide, h.1, fun p hp => (h.2 p hp).2 (by decide)⟩,
   ⟨rfl, ((player_spawns_contract 64).1 zeroArena 3 0).2 rfl⟩,
   ⟨by decide, by decide⟩,
   (player_spawns_contract 64).2 (by decide) 0 0 42 1 THEME_TECH 0 (by decide)⟩

/-! ## Enemy spawns: C13 -/

theorem roomEnemies_pos (room : arenaRoom_t) : 1 ≤ roomEnemies room := by
  unfold roomEnemies
  simp only
  split
  · exact le_refl _
  · split <;> omega

theorem tdiv_65536 (x : Int) :
    (0 ≤ x → Int.tdiv x 65536 = x / 65536) ∧ (x < 0 → Int.tdiv x 65536 ≤ 0) := by
  constructor
  · intro h
    exact Int.tdiv_eq_ediv h (by decide)
  · intro h
    have e : x = -(-x) := by omega
    rw [e, Int.neg_tdiv, Int.tdiv_eq_ediv (by omega) (by decide)]
    have : 0 ≤ (-x) / 65536 := Int.ediv_nonneg (by omega) (by decide)
    omega

theorem roomEnemies_eq_enemyDensity (room : arenaRoom_t)
    (h : -2147483648 ≤ room.width * room.depth ∧ room.width * room.depth < 2147483648) :
    roomEnemies room = enemyDensity room := by
  unfold roomEnemies enemyDensity
  rw [wrap32_of_range h.1 h.2]
  have e : (256 : Int) * 256 = 65536 := by decide
  rw [e]
  obtain ⟨h1, h2⟩ := tdiv_65536 (room.width * room.depth)
  generalize room.width * room.depth = x at h1 h2
  simp only
  split
  · rfl
  · by_cases hx : 0 ≤ x
    · rw [h1 hx]
      split <;> omega
    · have := h2 (by omega)
      rw [if_pos (by omega)]
      omega

theorem enemyRoomLoop_placed (room : arenaRoom_t) (N : Int) (n : Nat) (st : placeState) :
    (enemyRoomLoop room N n st).placed = max st.placed (min N (st.placed + (n : Int))) := by
  induction n generalizing st with
  | zero =>
    rw [enemyRoomLoop]
    simp
  | succ n ih =>
    rw [enemyRoomLoop]
    split
    · rw [ih]
      simp only
      push_cast
      omega
    · push_cast
      omega

theorem enemyLoop_of_full (N : Int) (l : List arenaRoom_t) (st : placeState)
    (h : ¬ st.placed < N) : enemyLoop N l st = st := by
  cases l with
  | nil => rfl
  | cons room next => rw [enemyLoop, if_neg h]

theorem enemyLoop_append (N : Int) (l₁ l₂ : List arenaRoom_t) (st : placeState) :
    enemyLoop N (l₁ ++ l₂) st = enemyLoop N l₂ (enemyLoop N l₁ st) := by
  induction l₁ generalizing st with
  | nil => rfl
  | cons room next ih =>
    rw [List.cons_append, enemyLoop, enemyLoop]
    split
    · split
      · exact ih st
      · exact ih _
    · rename_i h
      rw [enemyLoop_of_full N l₂ st h]

theorem enemyRoomLoop_spawns_mono (room : arenaRoom_t) (N : Int) (n : Nat) (st : placeState) :
    st.spawns <+: (enemyRoomLoop room N n st).spawns := by
  induction n generalizing st with
  | zero => exact List.prefix_refl _
  | succ n ih =>
    rw [enemyRoomLoop]
    split
    · simp only []
      refine List.IsPrefix.trans ?_ (ih _)
      exact List.prefix_append _ _
    · exact List.prefix_refl _

theorem enemyLoop_spawns_mono (N : Int) (l : List arenaRoom_t) (st : placeState) :
    st.spawns <+: (enemyLoop N l st).spawns := by
  induction l generalizing st with
  | nil => exact List.prefix_refl _
  | cons room next ih =>
    rw [enemyLoop]
    split
    · split
      · exact ih st
      · exact List.IsPrefix.trans (enemyRoomLoop_spawns_mono room N _ st) (ih _)
    · exact List.prefix_refl _

theorem enemyDemand_nonneg (l : List arenaRoom_t) : 0 ≤ enemyDemand l := by
  induction l with
  | nil => exact le_refl _
  | cons room next ih =>
    unfold enemyDemand at ih ⊢
    rw [List.filter_cons]
    split
    · rw [List.map_cons, List.sum_cons]
      have : 1 ≤ enemyDensity room := by
        unfold enemyDensity
        split <;> omega
      omega
    · exact ih

theorem enemyLoop_placed (N : Int) (l : List arenaRoom_t) (st : placeState)
    (h : ∀ room ∈ l, roomEnemies room = enemyDensity room) :
    (enemyLoop N l st).placed = max st.placed (min N (st.placed + enemyDemand l)) := by
  induction l generalizing st with
  | nil =>
    have : enemyDemand [] = 0 := rfl
    rw [enemyLoop, this]
    omega
  | cons room next ih =>
    have hn := enemyDemand_nonneg next
    have ih' := fun st => ih st (fun r hr => h r (List.mem_cons_of_mem _ hr))
    have hd : enemyDemand (room :: next) =
        (if room.isStartRoom then 0 else enemyDensity room) + enemyDemand next := by
      unfold enemyDemand
      rw [List.filter_cons]
      cases room.isStartRoom <;> simp
    have hr := h room (List.mem_cons_self _ _)
    have hpos := roomEnemies_pos room
    rw [enemyLoop, hd]
    split
    · split
      · rw [ih']
        omega
      · rw [ih', enemyRoomLoop_placed, ← hr]
        have e : (((roomEnemies room).toNat : Nat) : Int) = roomEnemies room := by omega
        rw [e]
        omega
    · split <;> omega

theorem enemyTarget_eq (depth : Int) (s : Nat) (hlo : -2147483648 ≤ depth * 3)
    (hhi : 5 + depth * 3 + (ArenaRandRange 0 depth s).1 < 2147483648) :
    (enemyTarget depth s).1 = min 512 (5 + 3 * depth + (ArenaRandRange 0 depth s).1) := by
  have hk := (ArenaRandRange_zero_bounds depth s).1
  unfold enemyTarget
  simp only [MAX_ARENA_ENTITIES]
  rw [wrap32_of_range (by omega) hhi]
  split <;> omega

theorem placeState_length (N : Int) (l : List arenaRoom_t) (s : Nat) :
    ((enemyLoop N l { spawns := [], placed := 0, arenaRandSeed := s }).spawns.length : Int) =
      (enemyLoop N l { spawns := [], placed := 0, arenaRandSeed := s }).placed :=
  (enemyLoop_inv N l _ (placeInv_init N s)).1.symm

/-- C13: `G_PlaceEnemySpawns` first draws the target
`T = min 512 (5 + 3 * depth + ArenaRandRange(0, depth))` and then sets
`numEnemySpawns = min (max 0 T) (sum of d(room) over the non-start rooms)`, where
`d(room)` is 1 for a room whose boss flag is set and `max 1 ⌊width * depth / 65536⌋`
otherwise.  The spawns are written room after room in chain order: when the walk
has passed a prefix `pre` of the chain it has written
`min (max 0 T) (sum of d over pre)` spawns, these stay the first entries of the
table, and once `T` is reached the rooms behind `pre` receive none.  The
hypotheses say that the `int` expressions `5 + depth * 3 + k` and `width * depth`
do not overflow. -/
theorem enemy_spawn_count (a : arena_t) (depth : Int) (s : Nat)
    (hlo : -2147483648 ≤ depth * 3)
    (hhi : 5 + depth * 3 + (ArenaRandRange 0 depth s).1 < 2147483648)
    (hprod : ∀ room ∈ a.rooms, -2147483648 ≤ room.width * room.depth ∧
      room.width * room.depth < 2147483648) :
    (enemyTarget depth s).1 = min 512 (5 + 3 * depth + (ArenaRandRange 0 depth s).1) ∧
    (G_PlaceEnemySpawns a depth s).1.numEnemySpawns =
      min (max 0 (enemyTarget depth s).1) (enemyDemand a.rooms) ∧
    writtenEnemySpawns (G_PlaceEnemySpawns a depth s).1 = (enemyWalk depth s a.rooms).spawns ∧
    ∀ pre post, a.rooms = pre ++ post →
      ((enemyWalk depth s pre).spawns.length : Int) =
        min (max 0 (enemyTarget depth s).1) (enemyDemand pre) ∧
      (enemyWalk depth s pre).spawns <+: (enemyWalk depth s a.rooms).spawns ∧
      ((enemyTarget depth s).1 ≤ enemyDemand pre →
        (enemyWalk depth s a.rooms).spawns = (enemyWalk depth s pre).spawns) := by
  have hall : ∀ room ∈ a.rooms, roomEnemies room = enemyDensity room :=
    fun room hr => roomEnemies_eq_enemyDensity room (hprod room hr)
  have hplaced : ∀ l, (∀ room ∈ l, roomEnemies room = enemyDensity room) →
      (enemyWalk depth s l).placed = min (max 0 (enemyTarget depth s).1) (enemyDemand l) := by
    intro l hl
    unfold enemyWalk
    rw [enemyLoop_placed _ l _ hl]
    have := enemyDemand_nonneg l
    simp only
    omega
  have hlen : ∀ l, ((enemyWalk depth s l).spawns.length : Int) = (enemyWalk depth s l).placed :=
    fun l => placeState_length _ l _
  refine ⟨enemyTarget_eq depth s hlo hhi, ?_, ?_, ?_⟩
  · exact hplaced a.rooms hall
  · have h1 : (G_PlaceEnemySpawns a depth s).1.numEnemySpawns =
        (enemyWalk depth s a.rooms).placed := rfl
    have h2 : (G_PlaceEnemySpawns a depth s).1.enemySpawns =
        tableStore (enemyWalk depth s a.rooms).spawns a.enemySpawns := rfl
    unfold writtenEnemySpawns
    rw [h1, h2]
    have e : (enemyWalk depth s a.rooms).placed.toNat =
        (enemyWalk depth s a.rooms).spawns.length := by
      have := hlen a.rooms
      omega
    rw [e, tableStore_take]
  · intro pre post hsplit
    have hpre : ∀ room ∈ pre, roomEnemies room = enemyDensity room := by
      intro room hr
      exact hall room (by rw [hsplit]; exact List.mem_append_left _ hr)
    have happ : enemyWalk depth s a.rooms =
        enemyLoop (enemyTarget depth s).1 post (enemyWalk depth s pre) := by
      unfold enemyWalk
      rw [hsplit, enemyLoop_append]
    refine ⟨?_, ?_, ?_⟩
    · rw [hlen pre, hplaced pre hpre]
    · rw [happ]
      exact enemyLoop_spawns_mono _ post _
    · intro hT
      rw [happ, enemyLoop_of_full]
      rw [hplaced pre hpre]
      have := enemyDemand_nonneg pre
      omega

set_option maxRecDepth 100000 in
/-- Witness of C13: the enemy pass on the arena of scenario A with depth -1, where
the target is 2 and is reached behind the first two rooms of the chain. -/
theorem enemy_spawn_count_witness :
    ((-2147483648 : Int) ≤ -1 * 3 ∧
      5 + -1 * 3 + (ArenaRandRange 0 (-1) 0).1 < 2147483648 ∧
      (∀ room ∈ arenaA.rooms, -2147483648 ≤ room.width * room.depth ∧
        room.width * room.depth < 2147483648) ∧
      arenaA.rooms = arenaA.rooms.take 2 ++ arenaA.rooms.drop 2 ∧
      (enemyTarget (-1) 0).1 ≤ enemyDemand (arenaA.rooms.take 2)) ∧
    (enemyTarget (-1) 0).1 = min 512 (5 + 3 * -1 + (ArenaRandRange 0 (-1) 0).1) ∧
    (G_PlaceEnemySpawns arenaA (-1) 0).1.numEnemySpawns =
      min (max 0 (enemyTarget (-1) 0).1) (enemyDemand arenaA.rooms) ∧
    writtenEnemySpawns (G_PlaceEnemySpawns arenaA (-1) 0).1 =
      (enemyWalk (-1) 0 arenaA.rooms).spawns ∧
    ((enemyWalk (-1) 0 (arenaA.rooms.take 2)).spawns.length : Int) =
      min (max 0 (enemyTarget (-1) 0).1) (enemyDemand (arenaA.rooms.take 2)) ∧
    (enemyWalk (-1) 0 (arenaA.rooms.take 2)).spawns <+:
      (enemyWalk (-1) 0 arenaA.rooms).spawns ∧
    (enemyWalk (-1) 0 arenaA.rooms).spawns =
      (enemyWalk (-1) 0 (arenaA.rooms.take 2)).spawns :=
  have h := enemy_spawn_count arenaA (-1) 0 (by decide) (by decide) (by decide)
  have hs : arenaA.rooms = arenaA.rooms.take 2 ++ arenaA.rooms.drop 2 :=
    (List.take_append_drop 2 _).symm
  ⟨⟨by decide, by decide, by decide, hs, by decide⟩, h.1, h.2.1, h.2.2.1,
    (h.2.2.2 _ _ hs).1, (h.2.2.2 _ _ hs).2.1, (h.2.2.2 _ _ hs).2.2 (by decide)⟩

/-! ## Enemy jitter: C14 -/

theorem tdiv_three (x : Int) :
    Int.tdiv x 3 = if 0 ≤ x then x / 3 else -((-x) / 3) := by
  split
  · rename_i h
    exact Int.tdiv_eq_ediv h (by decide)
  · have e : x = -(-x) := by omega
    rw [e, Int.neg_tdiv, Int.tdiv_eq_ediv (by omega) (by decide)]
    simp

theorem jitter_third (w : Int) (s : Nat) (hw : -2147483648 ≤ w ∧ w < 2147483648) :
    |(ArenaRandRange (Int.tdiv (wrap32 (-w)) 3) (Int.tdiv w 3) s).1| ≤ |Int.tdiv w 3| := by
  have hlo := tdiv_three (wrap32 (-w))
  have hhi := tdiv_three w
  by_cases hle : Int.tdiv w 3 ≤ Int.tdiv (wrap32 (-w)) 3
  · rw [ArenaRandRange_of_le s hle]
    simp only
    rw [hlo, hhi]
    unfold wrap32
    rw [abs_le]
    by_cases h0 : 0 ≤ w
    · rw [if_pos h0, abs_of_nonneg (by omega)]
      split <;> omega
    · rw [if_neg h0, abs_of_nonpos (by omega)]
      split <;> omega
  · have hb := ArenaRandRange_bounds s (Int.tdiv (wrap32 (-w)) 3) (Int.tdiv w 3)
      (by rw [hlo]; unfold wrap32; split <;> omega)
      (by rw [hhi]; split <;> omega)
      (by omega)
      (by rw [hlo, hhi]; unfold wrap32; split <;> split <;> omega)
    generalize (ArenaRandRange (Int.tdiv (wrap32 (-w)) 3) (Int.tdiv w 3) s).1 = dx at hb
    rw [hlo, hhi] at hb hle
    rw [hhi]
    unfold wrap32 at hb hle
    rw [abs_le]
    by_cases h0 : 0 ≤ w
    · rw [if_pos h0] at hb hle ⊢
      rw [abs_of_nonneg (by omega)]
      split at hb <;> omega
    · rw [if_neg h0] at hb hle ⊢
      rw [abs_of_nonpos (by omega)]
      split at hb <;> omega

theorem enemyRoomLoop_jittered (room : arenaRoom_t) (N : Int) (n : Nat) (st : placeState)
    (hr : intExtents room) :
    ∀ p ∈ (enemyRoomLoop room N n st).spawns,
      p ∈ st.spawns ∨
      jittered room.origin p |Int.tdiv room.width 3| |Int.tdiv room.depth 3| := by
  induction n generalizing st with
  | zero => intro p hp; exact Or.inl hp
  | succ n ih =>
    intro p hp
    rw [enemyRoomLoop] at hp
    split at hp
    · rcases ih _ p hp with h | h
      · simp only [List.mem_append, List.mem_singleton] at h
        rcases h with h | h
        · exact Or.inl h
        · exact Or.inr ⟨_, _, jitter_third room.width _ hr.1, jitter_third room.depth _ hr.2, h⟩
      · exact Or.inr h
    · exact Or.inl hp

theorem enemyLoop_jittered (N : Int) (l : List arenaRoom_t) (st : placeState)
    (hl : ∀ room ∈ l, intExtents room) :
    ∀ p ∈ (enemyLoop N l st).spawns,
      p ∈ st.spawns ∨ ∃ room ∈ l, room.isStartRoom = false ∧
        jittered room.origin p |Int.tdiv room.width 3| |Int.tdiv room.depth 3| := by
  induction l generalizing st with
  | nil => intro p hp; exact Or.inl hp
  | cons room next ih =>
    have ih' := fun st => ih st (fun r hr => hl r (List.mem_cons_of_mem _ hr))
    intro p hp
    rw [enemyLoop] at hp
    split at hp
    · split at hp
      · rcases ih' _ p hp with h | ⟨r, hr, h⟩
        · exact Or.inl h
        · exact Or.inr ⟨r, List.mem_cons_of_mem _ hr, h⟩
      · rename_i hs
        rcases ih' _ p hp with h | ⟨r, hr, h⟩
        · rcases enemyRoomLoop_jittered room N _ st (hl room (List.mem_cons_self _ _)) p h
            with h' | h'
          · exact Or.inl h'
          · exact Or.inr ⟨room, List.mem_cons_self _ _, by simpa using hs, h'⟩
        · exact Or.inr ⟨r, List.mem_cons_of_mem _ hr, h⟩
    · exact Or.inl hp

/-- C14 as amended: every enemy spawn point written by `G_PlaceEnemySpawns` for a
room is the room centre moved by integers of magnitude at most `|width / 3|` and
`|depth / 3|` in `x` and `y` (C divisions: a third of the extents, not of the
half-extents) and by 24 in `z`, in float arithmetic; so
`|p.x - origin.x| ≤ |width / 3|`, `|p.y - origin.y| ≤ |depth / 3|` and
`p.z = origin.z + 24` whenever these sums stay within magnitude `2^24`.  The first
part is about the loop that writes the spawns of one room, the second about the
whole pass: every point it writes is such a point of a non-start room of the
chain. -/
theorem enemy_jitter :
    (∀ (room : arenaRoom_t) (N : Int) (n : Nat) (st : placeState), intExtents room →
      ∀ p ∈ (enemyRoomLoop room N n st).spawns,
        p ∈ st.spawns ∨
        (jittered room.origin p |Int.tdiv room.width 3| |Int.tdiv room.depth 3| ∧
          (exactAround room.origin |Int.tdiv room.width 3| |Int.tdiv room.depth 3| →
            nearPoint room.origin p |Int.tdiv room.width 3| |Int.tdiv room.depth 3|))) ∧
    (∀ (a : arena_t) (depth : Int) (s : Nat), (∀ room ∈ a.rooms, intExtents room) →
      ∀ p ∈ writtenEnemySpawns (G_PlaceEnemySpawns a depth s).1,
        ∃ room ∈ a.rooms, room.isStartRoom = false ∧
          jittered room.origin p |Int.tdiv room.width 3| |Int.tdiv room.depth 3| ∧
          (exactAround room.origin |Int.tdiv room.width 3| |Int.tdiv room.depth 3| →
            nearPoint room.origin p |Int.tdiv room.width 3| |Int.tdiv room.depth 3|)) := by
  constructor
  · intro room N n st hr p hp
    rcases enemyRoomLoop_jittered room N n st hr p hp with h | h
    · exact Or.inl h
    · exact Or.inr ⟨h, jittered_near _ _ _ _ h⟩
  · intro a depth s hl p hp
    have hw : writtenEnemySpawns (G_PlaceEnemySpawns a depth s).1 =
        (enemyWalk depth s a.rooms).spawns := by
      have h1 : (G_PlaceEnemySpawns a depth s).1.numEnemySpawns =
          (enemyWalk depth s a.rooms).placed := rfl
      have h2 : (G_PlaceEnemySpawns a depth s).1.enemySpawns =
          tableStore (enemyWalk depth s a.rooms).spawns a.enemySpawns := rfl
      unfold writtenEnemySpawns
      rw [h1, h2]
      have e : (enemyWalk depth s a.rooms).placed.toNat =
          (enemyWalk depth s a.rooms).spawns.length := by
        have := placeState_length (enemyTarget depth s).1 a.rooms (enemyTarget depth s).2
        unfold enemyWalk
        omega
      rw [e, tableStore_take]
    rw [hw] at hp
    rcases enemyLoop_jittered _ a.rooms _ hl p hp with h | ⟨room, hr, hs, h⟩
    · simp at h
    · exact ⟨room, hr, hs, h, jittered_near _ _ _ _ h⟩

set_option maxRecDepth 100000 in
/-- C14 fails as stated: in the arena of seed 42, depth 1 the first enemy spawn,
written for the head of the chain (origin `(1789, -40, 0)`, width 335, depth 359),
is `(1851, -128, 24)`: it is 62 and 88 away from the centre, more than
`(335 / 2) / 3 = 55` and `(359 / 2) / 3 = 59`. -/
theorem enemy_jitter_counterexample :
    ∃ room p, arenaA.rooms.head? = some room ∧
      (writtenEnemySpawns (G_GenerateArena 64 0 0 42 1 THEME_TECH 0).1).head? = some p ∧
      (enemyRoomLoop room (enemyTarget 1 stateA).1 (roomEnemies room).toNat
        { spawns := [], placed := 0, arenaRandSeed := (enemyTarget 1 stateA).2 }).spawns = [p] ∧
      ¬ |p.x - room.origin.x| ≤ Int.tdiv (Int.tdiv room.width 2) 3 ∧
      ¬ |p.y - room.origin.y| ≤ Int.tdiv (Int.tdiv room.depth 2) 3 :=
  ⟨_, _, rfl, rfl, by decide, by decide, by decide⟩

set_option maxRecDepth 100000 in
/-- Witness of `enemy_jitter`: the room loop on the head of the chain of scenario A,
and the enemy pass of scenario A, where every sum is exact. -/
theorem enemy_jitter_witness :
    (∃ room, arenaA.rooms.head? = some room ∧ intExtents room ∧
      exactAround room.origin |Int.tdiv room.width 3| |Int.tdiv room.depth 3| ∧
      ∀ p ∈ (enemyRoomLoop room 8 1
          { spawns := [], placed := 0, arenaRandSeed := stateA }).spawns,
        p ∈ ([] : List vec3_t) ∨
        nearPoint room.origin p |Int.tdiv room.width 3| |Int.tdiv room.depth 3|) ∧
    (∀ room ∈ arenaA.rooms, intExtents room) ∧
    (∀ room ∈ arenaA.rooms,
      exactAround room.origin |Int.tdiv room.width 3| |Int.tdiv room.depth 3|) ∧
    ∀ p ∈ writtenEnemySpawns (G_PlaceEnemySpawns arenaA 1 stateA).1,
      ∃ room ∈ arenaA.rooms, room.isStartRoom = false ∧
        nearPoint room.origin p |Int.tdiv room.width 3| |Int.tdiv room.depth 3| :=
  have hex : ∀ room ∈ arenaA.rooms,
      exactAround room.origin |Int.tdiv room.width 3| |Int.tdiv room.depth 3| := by decide
  ⟨⟨_, rfl, by decide, by decide, fun p hp =>
      (enemy_jitter.1 _ 8 1 { spawns := [], placed := 0, arenaRandSeed := stateA }
        (by decide) p hp).imp id (fun h => h.2 (by decide))⟩,
   by decide, hex,
   fun p hp =>
    (enemy_jitter.2 arenaA 1 stateA (by decide) p hp).imp
      (fun room h => ⟨h.1, h.2.1, h.2.2.2 (hex room h.1)⟩)⟩

/-! ## Item spawns: C15 -/

theorem itemLoop_cons (N : Int) (room : arenaRoom_t) (next : List arenaRoom_t)
    (st : placeState) :
    itemLoop N (room :: next) st =
      if st.placed < N then
        if (!room.isStartRoom) = true then
          itemLoop N next
            { spawns := st.spawns ++ [(itemPoint room st.arenaRandSeed).1]
              placed := st.placed + 1
              arenaRandSeed := (itemPoint room st.arenaRandSeed).2 }
        else itemLoop N next st
      else st := rfl

theorem filter_nonStart_cons (room : arenaRoom_t) (next : List arenaRoom_t) :
    (room :: next).filter (fun r => !r.isStartRoom) =
      if (!room.isStartRoom) = true then room :: next.filter (fun r => !r.isStartRoom)
      else next.filter (fun r => !r.isStartRoom) := by
  cases h : room.isStartRoom <;> simp [List.filter_cons, h]

theorem itemLoop_placed (N : Int) (l : List arenaRoom_t) (st : placeState) :
    (itemLoop N l st).placed =
      max st.placed (min N (st.placed +
        ((l.filter (fun room => !room.isStartRoom)).length : Int))) := by
  induction l generalizing st with
  | nil =>
    rw [itemLoop]
    simp
  | cons room next ih =>
    rw [itemLoop_cons]
    split
    · split
      · rename_i hs
        rw [ih, filter_nonStart_cons, if_pos hs, List.length_cons]
        push_cast
        omega
      · rename_i hs
        rw [ih, filter_nonStart_cons, if_neg hs]
    · omega

theorem itemLoop_spawns (N : Int) (l : List arenaRoom_t) (st : placeState) :
    ∃ pts, (itemLoop N l st).spawns = st.spawns ++ pts ∧
      List.Forall₂ placedFor
        ((l.filter (fun room => !room.isStartRoom)).take pts.length) pts := by
  induction l generalizing st with
  | nil => exact ⟨[], by rw [itemLoop, List.append_nil], List.Forall₂.nil⟩
  | cons room next ih =>
    rw [itemLoop_cons]
    split
    · split
      · rename_i hs
        obtain ⟨pts, h1, h2⟩ := ih
          { spawns := st.spawns ++ [(itemPoint room st.arenaRandSeed).1]
            placed := st.placed + 1
            arenaRandSeed := (itemPoint room st.arenaRandSeed).2 }
        refine ⟨(itemPoint room st.arenaRandSeed).1 :: pts, ?_, ?_⟩
        · rw [h1, List.append_assoc, List.singleton_append]
        · rw [filter_nonStart_cons, if_pos hs, List.length_cons, List.take_succ_cons]
          exact List.Forall₂.cons ⟨st.arenaRandSeed, rfl⟩ h2
      · rename_i hs
        obtain ⟨pts, h1, h2⟩ := ih st
        refine ⟨pts, h1, ?_⟩
        rw [filter_nonStart_cons, if_neg hs]
        exact h2
    · exact ⟨[], by rw [List.append_nil], List.Forall₂.nil⟩

theorem itemTarget_eq (depth : Int) (s : Nat) (hlo : -2147483648 ≤ depth)
    (hhi : 3 + depth + (ArenaRandRange 0 3 s).1 < 2147483648) :
    (itemTarget depth s).1 = min 256 (3 + depth + (ArenaRandRange 0 3 s).1) := by
  have hk := (ArenaRandRange_zero_bounds 3 s).1
  unfold itemTarget
  simp only [MAX_ARENA_ENTITIES]
  have h : Int.tdiv 512 2 = 256 := by decide
  rw [h, wrap32_of_range (by omega) hhi]
  split <;> omega

theorem G_PlaceItems_written (a : arena_t) (depth : Int) (s : Nat) :
    (G_PlaceItems a depth s).1.numItemSpawns =
      min (max 0 (itemTarget depth s).1) ((nonStartRooms a).length : Int) ∧
    List.Forall₂ placedFor
      ((nonStartRooms a).take (G_PlaceItems a depth s).1.numItemSpawns.toNat)
      (writtenItemSpawns (G_PlaceItems a depth s).1) := by
  have hinv := itemLoop_inv (itemTarget depth s).1 a.rooms _
    (placeInv_init (itemTarget depth s).1 (itemTarget depth s).2)
  have hpl := itemLoop_placed (itemTarget depth s).1 a.rooms
    { spawns := [], placed := 0, arenaRandSeed := (itemTarget depth s).2 }
  obtain ⟨pts, hp1, hp2⟩ := itemLoop_spawns (itemTarget depth s).1 a.rooms
    { spawns := [], placed := 0, arenaRandSeed := (itemTarget depth s).2 }
  simp only [List.nil_append] at hp1
  have hn : (G_PlaceItems a depth s).1.numItemSpawns =
      (itemLoop (itemTarget depth s).1 a.rooms
        { spawns := [], placed := 0, arenaRandSeed := (itemTarget depth s).2 }).placed := rfl
  have ht : (G_PlaceItems a depth s).1.itemSpawns =
      tableStore (itemLoop (itemTarget depth s).1 a.rooms
        { spawns := [], placed := 0, arenaRandSeed := (itemTarget depth s).2 }).spawns
        a.itemSpawns := rfl
  have hlen : (itemLoop (itemTarget depth s).1 a.rooms
      { spawns := [], placed := 0, arenaRandSeed := (itemTarget depth s).2 }).placed.toNat =
      pts.length := by
    have := hinv.1
    rw [hp1] at this
    omega
  constructor
  · rw [hn, hpl]
    unfold nonStartRooms
    simp only
    omega
  · unfold writtenItemSpawns nonStartRooms
    rw [ht, hn, hlen, hp1]
    rw [tableStore_take]
    exact hp2

theorem roomLoopAt_nonStart_length (numRooms depth : Int) (theme : arenaTheme_t) (s : Nat)
    (k : Nat) :
    ((roomLoopAt numRooms depth theme s k).prevRoom.filter
      (fun room => !room.isStartRoom)).length = k - 1 := by
  induction k with
  | zero => rfl
  | succ k ih =>
    rw [roomLoopAt_prevRoom_succ]
    by_cases hk : k = 0
    · subst hk
      rw [filter_nonStart_cons, if_neg (by rw [stepRoom_isStartRoom]; simp)]
      exact ih
    · rw [filter_nonStart_cons, if_pos (by rw [stepRoom_isStartRoom]; simp [hk]),
        List.length_cons, ih]
      omega

/-- C15: `G_PlaceItems` first draws the target `T`, which is
`min 256 (3 + depth + ArenaRandRange(0, 3))` when that `int` expression does not
overflow, and then sets `numItemSpawns = min (max 0 T) (number of non-start rooms)`;
the `j`-th item spawn written is the point the loop writes for the `j`-th non-start
room in chain order, one per room and none for a start room.  Hence every arena of
`G_GenerateArena` has `numItemSpawns ≤ max 0 (numRooms - 1)`. -/
theorem item_spawns_contract :
    (∀ (a : arena_t) (depth : Int) (s : Nat),
      (-2147483648 ≤ depth → 3 + depth + (ArenaRandRange 0 3 s).1 < 2147483648 →
        (itemTarget depth s).1 = min 256 (3 + depth + (ArenaRandRange 0 3 s).1)) ∧
      (G_PlaceItems a depth s).1.numItemSpawns =
        min (max 0 (itemTarget depth s).1) ((nonStartRooms a).length : Int) ∧
      List.Forall₂ placedFor
        ((nonStartRooms a).take (G_PlaceItems a depth s).1.numItemSpawns.toNat)
        (writtenItemSpawns (G_PlaceItems a depth s).1)) ∧
    (∀ (M : Nat) (t0 t1 seed depth : Int) (theme : arenaTheme_t) (s : Nat),
      (G_GenerateArena M t0 t1 seed depth theme s).1.numItemSpawns ≤
        max 0 ((G_GenerateArena M t0 t1 seed depth theme s).1.numRooms - 1)) := by
  constructor
  · intro a depth s
    obtain ⟨h1, h2⟩ := G_PlaceItems_written a depth s
    exact ⟨fun hlo hhi => itemTarget_eq depth s hlo hhi, h1, h2⟩
  · intro M t0 t1 seed depth theme s
    obtain ⟨hi1, hi2⟩ := G_GenerateArena_itemSpawns M t0 t1 seed depth theme s
    obtain ⟨hr1, -⟩ := G_GenerateArena_room_counts M t0 t1 seed depth theme s
    obtain ⟨h1, -⟩ := G_PlaceItems_written (genEnemies M seed depth theme).1 depth
      (genEnemies M seed depth theme).2
    have hrooms : (genEnemies M seed depth theme).1.rooms =
        (roomLoopAt (genCount seed depth).1 depth theme (genCount seed depth).2
          (genCount seed depth).1.toNat).prevRoom := by
      have e : (genEnemies M seed depth theme).1.rooms =
          (genPlayers M seed depth theme).1.rooms := rfl
      rw [e, genPlayers_rooms, genBase_rooms, roomLoop_eq_roomLoopAt]
    have hns : (nonStartRooms (genEnemies M seed depth theme).1).length =
        (genCount seed depth).1.toNat - 1 := by
      unfold nonStartRooms
      rw [hrooms, roomLoopAt_nonStart_length]
    have h1' : (genItems M seed depth theme).1.numItemSpawns =
        min (max 0 (itemTarget depth (genEnemies M seed depth theme).2).1)
          ((nonStartRooms (genEnemies M seed depth theme).1).length : Int) := h1
    rw [hi2, hr1, h1', hns]
    omega

set_option maxRecDepth 100000 in
/-- Witness of C15: the item pass on the arena of scenario A, with depth 1. -/
theorem item_spawns_contract_witness :
    ((-2147483648 : Int) ≤ 1 ∧ 3 + 1 + (ArenaRandRange 0 3 stateA).1 < 2147483648) ∧
    (itemTarget 1 stateA).1 = min 256 (3 + 1 + (ArenaRandRange 0 3 stateA).1) ∧
    (G_PlaceItems arenaA 1 stateA).1.numItemSpawns =
      min (max 0 (itemTarget 1 stateA).1) ((nonStartRooms arenaA).length : Int) ∧
    List.Forall₂ placedFor
      ((nonStartRooms arenaA).take (G_PlaceItems arenaA 1 stateA).1.numItemSpawns.toNat)
      (writtenItemSpawns (G_PlaceItems arenaA 1 stateA).1) ∧
    (G_GenerateArena 64 0 0 42 1 THEME_TECH 0).1.numItemSpawns ≤
      max 0 ((G_GenerateArena 64 0 0 42 1 THEME_TECH 0).1.numRooms - 1) :=
  ⟨⟨by decide, by decide⟩,
   (item_spawns_contract.1 arenaA 1 stateA).1 (by decide) (by decide),
   (item_spawns_contract.1 arenaA 1 stateA).2.1,
   (item_spawns_contract.1 arenaA 1 stateA).2.2,
   item_spawns_contract.2 64 0 0 42 1 THEME_TECH 0⟩

/-! ## Exit portal: C16 -/

theorem depthTheme_eq_tier (d : Int) : depthTheme d = tier d := by
  unfold depthTheme tier
  split_ifs <;> first | rfl | omega

theorem currentRunLive_emptyState (s : Nat) : currentRunLive (emptyState s) := by
  intro q h
  cases h

theorem storeRun_same (runs : Nat → Option roguelikeRun_t) (p : Nat) (r : roguelikeRun_t) :
    storeRun runs p r p = some r := by
  unfold storeRun
  rw [if_pos rfl]

theorem storeRun_other (runs : Nat → Option roguelikeRun_t) (p : Nat) (r : roguelikeRun_t)
    (q : Nat) (h : q ≠ p) : storeRun runs p r q = runs q := by
  unfold storeRun
  rw [if_neg h]

theorem G_StartRoguelikeRun_eq (M : Nat) (t0 t1 : Int) (p : Nat) (seed : Int)
    (permadeath : Bool) (g : gameState) (h : currentRunLive g) :
    ∃ runs, G_StartRoguelikeRun M t0 t1 p seed permadeath g =
        some (startRun M t0 t1 p seed permadeath runs g.arenaRandSeed) ∧
      ∀ q, g.currentRun = some q → q ≠ p → runs q = none := by
  unfold G_StartRoguelikeRun
  cases hc : g.currentRun with
  | none => exact ⟨g.runs, rfl, fun q hq => by cases hq⟩
  | some q =>
    obtain ⟨r, hr⟩ := h q hc
    refine ⟨freeRun g.runs q, by simp only [hr], ?_⟩
    intro q' hq' _
    cases hq'
    unfold freeRun
    rw [if_pos rfl]

/-- C17: in a state whose `currentRun` is `NULL` or points to a run in memory,
`G_StartRoguelikeRun(seed, permadeath)` returns the pointer `p` to the new run,
which is the current run afterwards (`G_GetCurrentRun` returns `p`); the run has
the given seed, `currentDepth = maxDepth = 1`, `score = kills = 0`,
`timeElapsed = 0`, the given `permadeath`, `lives` 1 with permadeath and 3 without,
and its arena is the one `G_GenerateArena(seed, 1, THEME_TECH)` returns in the
generator state at the call.  A run that was current before is freed. -/
theorem start_run_contract (M : Nat) (t0 t1 : Int) (p : Nat) (seed : Int)
    (permadeath : Bool) (g : gameState) (h : currentRunLive g) :
    ∃ g', G_StartRoguelikeRun M t0 t1 p seed permadeath g = some (p, g') ∧
      G_GetCurrentRun g' = some p ∧
      g'.runs p = some
        { seed := seed, currentDepth := 1, maxDepth := 1, score := 0, kills := 0,
          permadeath := permadeath, lives := if permadeath then 1 else 3, timeElapsed := 0,
          currentArena :=
            some (G_GenerateArena M t0 t1 seed 1 THEME_TECH g.arenaRandSeed).1 } ∧
      ∀ q, g.currentRun = some q → q ≠ p → g'.runs q = none := by
  obtain ⟨runs, h1, h2⟩ := G_StartRoguelikeRun_eq M t0 t1 p seed permadeath g h
  refine ⟨(startRun M t0 t1 p seed permadeath runs g.arenaRandSeed).2, h1, rfl, ?_, ?_⟩
  · exact storeRun_same _ _ _
  · intro q hq hne
    have e : (startRun M t0 t1 p seed permadeath runs g.arenaRandSeed).2.runs q = runs q :=
      storeRun_other _ _ _ q hne
    rw [e]
    exact h2 q hq hne

/-- Witness of C17: a run with seed 7 and permadeath started in the empty state. -/
theorem start_run_contract_witness :
    currentRunLive (emptyState 0) ∧
    ∃ g', G_StartRoguelikeRun 64 0 0 0 7 true (emptyState 0) = some (0, g') ∧
      G_GetCurrentRun g' = some 0 ∧
      g'.runs 0 = some
        { seed := 7, currentDepth := 1, maxDepth := 1, score := 0, kills := 0,
          permadeath := true, lives := if true then 1 else 3, timeElapsed := 0,
          currentArena :=
            some (G_GenerateArena 64 0 0 7 1 THEME_TECH (emptyState 0).arenaRandSeed).1 } ∧
      ∀ q, (emptyState 0).currentRun = some q → q ≠ 0 → g'.runs q = none :=
  ⟨currentRunLive_emptyState 0,
   start_run_contract 64 0 0 0 7 true (emptyState 0) (currentRunLive_emptyState 0)⟩

/-- C18: `G_AdvanceToNextArena` on a `NULL` run returns `qfalse` and leaves the
state as it is.  On a run in memory with `currentDepth = d` (`d + 1` not
overflowing) it returns `qtrue`; afterwards the run has `currentDepth = d + 1`,
`maxDepth = max maxDepth (d + 1)`, the arena
`G_GenerateArena(run.seed, d + 1, tier (d + 1))` generated in the generator state
at the call, and its `seed`, `score`, `kills`, `permadeath`, `lives` and
`timeElapsed` as before; `currentRun` and the other runs are unchanged. -/
theorem advance_contract (M : Nat) (t0 t1 : Int) :
    (∀ g : gameState, G_AdvanceToNextArena M t0 t1 none g = some (false, g)) ∧
    (∀ (g : gameState) (p : Nat) (r : roguelikeRun_t), g.runs p = some r →
      -2147483648 ≤ r.currentDepth → r.currentDepth < 2147483647 →
      ∃ g', G_AdvanceToNextArena M t0 t1 (some p) g = some (true, g') ∧
        g'.runs p = some
          { r with
            currentDepth := r.currentDepth + 1
            maxDepth := max r.maxDepth (r.currentDepth + 1)
            currentArena := some (G_GenerateArena M t0 t1 r.seed (r.currentDepth + 1)
              (tier (r.currentDepth + 1)) g.arenaRandSeed).1 } ∧
        g'.currentRun = g.currentRun ∧
        (∀ q, q ≠ p → g'.runs q = g.runs q) ∧
        g'.arenaRandSeed = (G_GenerateArena M t0 t1 r.seed (r.currentDepth + 1)
          (tier (r.currentDepth + 1)) g.arenaRandSeed).2) := by
  constructor
  · intro g
    rfl
  · intro g p r hr hlo hhi
    have hw : wrap32 (r.currentDepth + 1) = r.currentDepth + 1 :=
      wrap32_of_range (by omega) (by omega)
    have hm : (if r.currentDepth + 1 > r.maxDepth then r.currentDepth + 1 else r.maxDepth) =
        max r.maxDepth (r.currentDepth + 1) := by
      split <;> omega
    have hadv : advanceRun M t0 t1 r g.arenaRandSeed =
        ({ r with
            currentDepth := r.currentDepth + 1
            maxDepth := max r.maxDepth (r.currentDepth + 1)
            currentArena := some (G_GenerateArena M t0 t1 r.seed (r.currentDepth + 1)
              (tier (r.currentDepth + 1)) g.arenaRandSeed).1 },
         (G_GenerateArena M t0 t1 r.seed (r.currentDepth + 1)
              (tier (r.currentDepth + 1)) g.arenaRandSeed).2) := by
      unfold advanceRun
      simp only [hw, hm, depthTheme_eq_tier]
    refine ⟨{ g with runs := storeRun g.runs p (advanceRun M t0 t1 r g.arenaRandSeed).1,
                     arenaRandSeed := (advanceRun M t0 t1 r g.arenaRandSeed).2 }, ?_, ?_, rfl,
      ?_, ?_⟩
    · simp only [G_AdvanceToNextArena, hr]
    · simp only [storeRun_same, hadv]
    · intro q hq
      exact storeRun_other _ _ _ q hq
    · simp only [hadv]

/-- Witness of C18: the run of seed 7 started in the empty state, advanced once. -/
theorem advance_contract_witness :
    ∃ g r, G_StartRoguelikeRun 64 0 0 0 7 true (emptyState 0) = some (0, g) ∧
      (g.runs 0 = some r ∧ -2147483648 ≤ r.currentDepth ∧ r.currentDepth < 2147483647) ∧
      ∃ g', G_AdvanceToNextArena 64 0 0 (some 0) g = some (true, g') ∧
        g'.runs 0 = some
          { r with
            currentDepth := r.currentDepth + 1
            maxDepth := max r.maxDepth (r.currentDepth + 1)
            currentArena := some (G_GenerateArena 64 0 0 r.seed (r.currentDepth + 1)
              (tier (r.currentDepth + 1)) g.arenaRandSeed).1 } ∧
        g'.currentRun = g.currentRun ∧
        (∀ q, q ≠ 0 → g'.runs q = g.runs q) ∧
        g'.arenaRandSeed = (G_GenerateArena 64 0 0 r.seed (r.currentDepth + 1)
          (tier (r.currentDepth + 1)) g.arenaRandSeed).2 :=
  ⟨_, _, rfl, ⟨rfl, by decide, by decide⟩,
   (advance_contract 64 0 0).2 _ 0 _ rfl (by decide) (by decide)⟩

/-! ## Depth, tier and reproducibility of a run: C19, C20 -/

theorem withoutTime_G_GenerateArena (M : Nat) (t0 t1 t0' t1' seed depth : Int)
    (theme : arenaTheme_t) (s s' : Nat) :
    withoutTime (G_GenerateArena M t0 t1 seed depth theme s).1 =
      withoutTime (G_GenerateArena M t0' t1' seed depth theme s').1 := rfl

theorem G_GenerateArena_theme (M : Nat) (t0 t1 seed depth : Int) (theme : arenaTheme_t)
    (s : Nat) : (G_GenerateArena M t0 t1 seed depth theme s).1.theme = theme := by
  rw [G_GenerateArena_eq, G_PlaceExitPortal_frame]
  show (genPlayers M seed depth theme).1.theme = theme
  unfold genPlayers
  rw [G_PlacePlayerSpawns_frame]
  rfl

theorem depthAt_eq (k : Nat) (h : (k : Int) + 1 < 2147483648) : depthAt k = 1 + (k : Int) := by
  induction k with
  | zero => rfl
  | succ k ih =>
    rw [depthAt, ih (by omega), wrap32_of_range (by omega) (by omega)]
    push_cast
    omega

/-- The run of `startThenAdvance` after `k` advances: it is the current run, keeps
what the start gave it, has depth `depthAt k` and the arena generated for that
depth with the run's seed. -/
theorem startThenAdvance_run (M : Nat) (env : surroundings) (p : Nat) (seed : Int)
    (permadeath : Bool) (g : gameState) (h : currentRunLive g) (k : Nat) :
    ∃ g' r, startThenAdvance M env p seed permadeath g k = some g' ∧
      g'.currentRun = some p ∧ g'.runs p = some r ∧
      r.seed = seed ∧ r.permadeath = permadeath ∧
      r.lives = (if permadeath then 1 else 3) ∧ r.score = 0 ∧ r.kills = 0 ∧
      r.timeElapsed = 0 ∧ r.currentDepth = depthAt k ∧
      ((k : Int) + 1 < 2147483648 → r.maxDepth = 1 + (k : Int)) ∧
      ∃ t0 t1 s, r.currentArena =
        some (G_GenerateArena M t0 t1 seed (depthAt k) (tier (depthAt k)) s).1 := by
  induction k with
  | zero =>
    have h' : currentRunLive { g with arenaRandSeed := env.draws 0 g.arenaRandSeed } := h
    obtain ⟨runs, h1, -⟩ := G_StartRoguelikeRun_eq M (env.clock 0).1 (env.clock 0).2 p seed
      permadeath _ h'
    refine ⟨(startRun M (env.clock 0).1 (env.clock 0).2 p seed permadeath runs
        (env.draws 0 g.arenaRandSeed)).2,
      { seed := seed, currentDepth := 1, maxDepth := 1, score := 0, kills := 0,
        permadeath := permadeath, lives := if permadeath then 1 else 3, timeElapsed := 0,
        currentArena := some (G_GenerateArena M (env.clock 0).1 (env.clock 0).2 seed 1
          THEME_TECH (env.draws 0 g.arenaRandSeed)).1 },
      ?_, rfl, storeRun_same _ _ _, rfl, rfl, rfl, rfl, rfl, rfl, rfl,
      fun _ => rfl, ⟨(env.clock 0).1, (env.clock 0).2, env.draws 0 g.arenaRandSeed, rfl⟩⟩
    rw [startThenAdvance, h1]
    rfl
  | succ k ih =>
    obtain ⟨g', r, h1, h2, h3, h4, h5, h6, h7, h8, h9, h10, h11, -⟩ := ih
    have hstep : G_AdvanceToNextArena M (env.clock (k + 1)).1 (env.clock (k + 1)).2 (some p)
        { g' with arenaRandSeed := env.draws (k + 1) g'.arenaRandSeed } =
        some (true,
          { currentRun := g'.currentRun
            arenaRandSeed := (advanceRun M (env.clock (k + 1)).1 (env.clock (k + 1)).2 r
              (env.draws (k + 1) g'.arenaRandSeed)).2
            runs := storeRun g'.runs p (advanceRun M (env.clock (k + 1)).1
              (env.clock (k + 1)).2 r (env.draws (k + 1) g'.arenaRandSeed)).1 }) := by
      simp only [G_AdvanceToNextArena, h3]
    refine ⟨{ currentRun := g'.currentRun
              arenaRandSeed := (advanceRun M (env.clock (k + 1)).1 (env.clock (k + 1)).2 r
                (env.draws (k + 1) g'.arenaRandSeed)).2
              runs := storeRun g'.runs p (advanceRun M (env.clock (k + 1)).1
                (env.clock (k + 1)).2 r (env.draws (k + 1) g'.arenaRandSeed)).1 },
      (advanceRun M (env.clock (k + 1)).1 (env.clock (k + 1)).2 r
        (env.draws (k + 1) g'.arenaRandSeed)).1, ?_, h2, storeRun_same _ _ _, h4, h5, h6, h7, h8,
      h9, ?_, ?_, ?_⟩
    · rw [startThenAdvance, h1]
      show Option.map _ (G_AdvanceToNextArena M (env.clock (k + 1)).1 (env.clock (k + 1)).2
        (some p) { g' with arenaRandSeed := env.draws (k + 1) g'.arenaRandSeed }) = _
      rw [hstep]
      rfl
    · show wrap32 (r.currentDepth + 1) = depthAt (k + 1)
      rw [h10, depthAt]
    · intro hk
      have hm := h11 (by push_cast at hk ⊢; omega)
      have hd := depthAt_eq k (by push_cast at hk ⊢; omega)
      show (if wrap32 (r.currentDepth + 1) > r.maxDepth then wrap32 (r.currentDepth + 1)
        else r.maxDepth) = 1 + ((k + 1 : Nat) : Int)
      rw [h10, hd, hm, wrap32_of_range (by omega) (by push_cast at hk; omega)]
      push_cast
      split <;> omega
    · refine ⟨(env.clock (k + 1)).1, (env.clock (k + 1)).2, env.draws (k + 1) g'.arenaRandSeed,
        ?_⟩
      show some (G_GenerateArena M _ _ r.seed (wrap32 (r.currentDepth + 1))
        (depthTheme (wrap32 (r.currentDepth + 1))) _).1 = _
      rw [h4, h10, depthTheme_eq_tier]
      rfl

theorem tier_mono (d d' : Int) (h : d ≤ d') : tier d ≤ tier d' := by
  unfold tier THEME_TECH THEME_GOTHIC THEME_SPACE THEME_HELL
  split_ifs <;> first | decide | omega

theorem tier_ne_random (d : Int) : tier d ≠ THEME_RANDOM := by
  unfold tier THEME_TECH THEME_GOTHIC THEME_SPACE THEME_HELL THEME_RANDOM
  split_ifs <;> decide

/-- C19: a run started with `G_StartRoguelikeRun` and advanced `k` times (`1 + k`
within the `int` range), whatever its seed and permadeath flag and whatever is
drawn in between, is the current run and has `currentDepth = maxDepth = 1 + k`,
its lives from the start, and a current arena of theme `tier (1 + k)`, where
`tier d` is `THEME_TECH` for `d < 3`, `THEME_GOTHIC` for `3 ≤ d < 6`, `THEME_SPACE`
for `6 ≤ d < 10` and `THEME_HELL` for `d ≥ 10`.  `tier` is non-decreasing and never
`THEME_RANDOM`.  For seed 7 with permadeath and `k = 4`: `lives = 1`,
`currentDepth = maxDepth = 5`, theme `THEME_GOTHIC`. -/
theorem run_depth_and_tier :
    (∀ (M : Nat) (env : surroundings) (p : Nat) (seed : Int) (permadeath : Bool)
      (g : gameState) (k : Nat), currentRunLive g → (k : Int) + 1 < 2147483648 →
      ∃ g' r a, startThenAdvance M env p seed permadeath g k = some g' ∧
        G_GetCurrentRun g' = some p ∧ g'.runs p = some r ∧
        r.currentDepth = 1 + (k : Int) ∧ r.maxDepth = 1 + (k : Int) ∧
        r.lives = (if permadeath then 1 else 3) ∧
        r.currentArena = some a ∧ a.theme = tier (1 + (k : Int))) ∧
    (∀ d d' : Int, d ≤ d' → tier d ≤ tier d') ∧
    (∀ d : Int, tier d ≠ THEME_RANDOM) ∧
    (∀ (M : Nat) (env : surroundings) (p : Nat) (g : gameState), currentRunLive g →
      ∃ g' r a, startThenAdvance M env p 7 true g 4 = some g' ∧ g'.runs p = some r ∧
        r.lives = 1 ∧ r.currentDepth = 5 ∧ r.maxDepth = 5 ∧
        r.currentArena = some a ∧ a.theme = THEME_GOTHIC) := by
  have main : ∀ (M : Nat) (env : surroundings) (p : Nat) (seed : Int) (permadeath : Bool)
      (g : gameState) (k : Nat), currentRunLive g → (k : Int) + 1 < 2147483648 →
      ∃ g' r a, startThenAdvance M env p seed permadeath g k = some g' ∧
        G_GetCurrentRun g' = some p ∧ g'.runs p = some r ∧
        r.currentDepth = 1 + (k : Int) ∧ r.maxDepth = 1 + (k : Int) ∧
        r.lives = (if permadeath then 1 else 3) ∧
        r.currentArena = some a ∧ a.theme = tier (1 + (k : Int)) := by
    intro M env p seed permadeath g k hg hk
    obtain ⟨g', r, h1, h2, h3, -, -, h6, -, -, -, h10, h11, t0, t1, s, h12⟩ :=
      startThenAdvance_run M env p seed permadeath g hg k
    have hd := depthAt_eq k hk
    refine ⟨g', r, _, h1, h2, h3, by rw [h10, hd], h11 hk, h6, h12, ?_⟩
    rw [G_GenerateArena_theme, hd]
  refine ⟨main, tier_mono, tier_ne_random, ?_⟩
  intro M env p g hg
  obtain ⟨g', r, a, h1, -, h3, h4, h5, h6, h7, h8⟩ := main M env p 7 true g 4 hg (by decide)
  exact ⟨g', r, a, h1, h3, h6, h4, h5, h7, h8⟩

/-- Witness of C19: the run of seed 7 with permadeath started in the empty state,
advanced four times with nothing in between. -/
theorem run_depth_and_tier_witness :
    (currentRunLive (emptyState 0) ∧ ((4 : Nat) : Int) + 1 < 2147483648 ∧ (3 : Int) ≤ 7) ∧
    (∃ g' r a, startThenAdvance 64 quiet 0 7 true (emptyState 0) 4 = some g' ∧
      G_GetCurrentRun g' = some 0 ∧ g'.runs 0 = some r ∧
      r.currentDepth = 1 + ((4 : Nat) : Int) ∧ r.maxDepth = 1 + ((4 : Nat) : Int) ∧
      r.lives = (if true then 1 else 3) ∧
      r.currentArena = some a ∧ a.theme = tier (1 + ((4 : Nat) : Int))) ∧
    tier 3 ≤ tier 7 ∧
    (∃ g' r a, startThenAdvance 64 quiet 0 7 true (emptyState 0) 4 = some g' ∧
      g'.runs 0 = some r ∧ r.lives = 1 ∧ r.currentDepth = 5 ∧ r.maxDepth = 5 ∧
      r.currentArena = some a ∧ a.theme = THEME_GOTHIC) :=
  ⟨⟨currentRunLive_emptyState 0, by decide, by decide⟩,
   run_depth_and_tier.1 64 quiet 0 7 true (emptyState 0) 4 (currentRunLive_emptyState 0)
     (by decide),
   run_depth_and_tier.2.1 3 7 (by decide),
   run_depth_and_tier.2.2.2 64 quiet 0 (emptyState 0) (currentRunLive_emptyState 0)⟩

/-- C20: two runs started with the same seed, each advanced `k` times, hold current
arenas that agree in every field but `generationTime`, whatever their permadeath
flags, the states `g₁`, `g₂` they are started in (so whatever runs, arena
generations and draws came before or between them), the addresses they are
allocated at, and the clock readings and draws around their calls. -/
theorem runs_reproducible (M : Nat) (env₁ env₂ : surroundings) (p₁ p₂ : Nat) (seed : Int)
    (perm₁ perm₂ : Bool) (g₁ g₂ : gameState) (k : Nat)
    (h₁ : currentRunLive g₁) (h₂ : currentRunLive g₂) :
    ∃ ga gb a b, startThenAdvance M env₁ p₁ seed perm₁ g₁ k = some ga ∧
      startThenAdvance M env₂ p₂ seed perm₂ g₂ k = some gb ∧
      arenaOfRun ga p₁ = some a ∧ arenaOfRun gb p₂ = some b ∧
      withoutTime a = withoutTime b := by
  obtain ⟨ga, ra, ha1, -, ha3, -, -, -, -, -, -, -, -, t0, t1, s, ha⟩ :=
    startThenAdvance_run M env₁ p₁ seed perm₁ g₁ h₁ k
  obtain ⟨gb, rb, hb1, -, hb3, -, -, -, -, -, -, -, -, t0', t1', s', hb⟩ :=
    startThenAdvance_run M env₂ p₂ seed perm₂ g₂ h₂ k
  refine ⟨ga, gb, _, _, ha1, hb1, ?_, ?_, withoutTime_G_GenerateArena M t0 t1 t0' t1' seed
    (depthAt k) (tier (depthAt k)) s s'⟩
  · unfold arenaOfRun
    rw [ha3]
    exact ha
  · unfold arenaOfRun
    rw [hb3]
    exact hb

/-- Witness of C20: seed 7, two advances; one run with permadeath started in the
empty state at address 0, the other without permadeath started with generator
state 5 at address 3. -/
theorem runs_reproducible_witness :
    (currentRunLive (emptyState 0) ∧ currentRunLive (emptyState 5)) ∧
    ∃ ga gb a b, startThenAdvance 64 quiet 0 7 true (emptyState 0) 2 = some ga ∧
      startThenAdvance 64 quiet 3 7 false (emptyState 5) 2 = some gb ∧
      arenaOfRun ga 0 = some a ∧ arenaOfRun gb 3 = some b ∧
      withoutTime a = withoutTime b :=
  ⟨⟨currentRunLive_emptyState 0, currentRunLive_emptyState 5⟩,
   runs_reproducible 64 quiet quiet 0 3 7 true false (emptyState 0) (emptyState 5) 2
     (currentRunLive_emptyState 0) (currentRunLive_emptyState 5)⟩

/-! ## The current run over sequences of calls: C21 -/

theorem freeRun_other (runs : Nat → Option roguelikeRun_t) (p q : Nat) (h : q ≠ p) :
    freeRun runs p q = runs q := by
  unfold freeRun
  rw [if_neg h]

theorem runCallExec_step (M : Nat) (c : runCall) (g : gameState) (h : currentRunLive g) :
    ∃ g', runCallExec M c g = some g' ∧ currentRunLive g' ∧
      G_GetCurrentRun g' = activeAfter (G_GetCurrentRun g) c := by
  cases c with
  | init =>
    refine ⟨G_InitArenaGenerator g, rfl, ?_, rfl⟩
    intro q hq
    cases hq
  | start p t0 t1 seed permadeath =>
    obtain ⟨runs, h1, -⟩ := G_StartRoguelikeRun_eq M t0 t1 p seed permadeath g h
    refine ⟨(startRun M t0 t1 p seed permadeath runs g.arenaRandSeed).2, ?_, ?_, rfl⟩
    · show Option.map _ (G_StartRoguelikeRun M t0 t1 p seed permadeath g) = _
      rw [h1]
      rfl
    · intro q hq
      have e : q = p := by
        have : some p = some q := hq
        cases this
        rfl
      subst e
      exact ⟨_, storeRun_same _ _ _⟩
  | endCurrent victory =>
    cases hc : g.currentRun with
    | none =>
      refine ⟨g, ?_, h, ?_⟩
      · simp only [runCallExec, G_GetCurrentRun, hc, G_EndRoguelikeRun]
      · simp only [G_GetCurrentRun, hc, activeAfter]
    | some q =>
      obtain ⟨r, hr⟩ := h q hc
      refine ⟨{ g with currentRun := none, runs := freeRun g.runs q }, ?_, ?_, rfl⟩
      · simp only [runCallExec, G_GetCurrentRun, hc, G_EndRoguelikeRun, hr, if_true]
      · intro q' hq'
        cases hq'
  | endNull victory =>
    exact ⟨g, rfl, h, rfl⟩

theorem runCallsExec_all (M : Nat) (cs : List runCall) (g : gameState)
    (h : currentRunLive g) :
    ∃ g', runCallsExec M cs g = some g' ∧ currentRunLive g' ∧
      G_GetCurrentRun g' = activeAfterAll (G_GetCurrentRun g) cs := by
  induction cs generalizing g with
  | nil => exact ⟨g, rfl, h, rfl⟩
  | cons c cs ih =>
    obtain ⟨g₁, h1, h2, h3⟩ := runCallExec_step M c g h
    obtain ⟨g₂, h4, h5, h6⟩ := ih g₁ h2
    refine ⟨g₂, ?_, h5, ?_⟩
    · rw [runCallsExec, h1]
      exact h4
    · rw [h6, h3]
      rfl

/-- C21: from a state whose `currentRun` is `NULL` or points to a run in memory,
every sequence of `G_InitArenaGenerator`, `G_StartRoguelikeRun` and
`G_EndRoguelikeRun` calls (end applied to the current run or to `NULL`) runs
through, and `G_GetCurrentRun` then returns the active run of the specification's
state machine, so `NULL` exactly when no run is active: `NULL` after an init, the
new run after a start (also when a run was active), `NULL` after ending the
current run, and what it returned before after ending a `NULL` run. -/
theorem current_run_tracks_active (M : Nat) (g : gameState) (h : currentRunLive g) :
    (∀ cs : List runCall, ∃ g', runCallsExec M cs g = some g' ∧ currentRunLive g' ∧
      G_GetCurrentRun g' = activeAfterAll (G_GetCurrentRun g) cs ∧
      (G_GetCurrentRun g' = none ↔ activeAfterAll (G_GetCurrentRun g) cs = none)) ∧
    G_GetCurrentRun (G_InitArenaGenerator g) = none ∧
    (∀ (p : Nat) (t0 t1 seed : Int) (permadeath : Bool),
      ∃ g', G_StartRoguelikeRun M t0 t1 p seed permadeath g = some (p, g') ∧
        G_GetCurrentRun g' = some p) ∧
    (∀ victory : Bool,
      ∃ g', G_EndRoguelikeRun (G_GetCurrentRun g) victory g = some g' ∧
        G_GetCurrentRun g' = none) ∧
    (∀ victory : Bool, G_EndRoguelikeRun none victory g = some g) := by
  refine ⟨?_, rfl, ?_, ?_, fun _ => rfl⟩
  · intro cs
    obtain ⟨g', h1, h2, h3⟩ := runCallsExec_all M cs g h
    exact ⟨g', h1, h2, h3, by rw [h3]⟩
  · intro p t0 t1 seed permadeath
    obtain ⟨runs, h1, -⟩ := G_StartRoguelikeRun_eq M t0 t1 p seed permadeath g h
    exact ⟨_, h1, rfl⟩
  · intro victory
    obtain ⟨g', h1, -, h3⟩ := runCallExec_step M (.endCurrent victory) g h
    exact ⟨g', h1, h3⟩

/-- Witness of C21: from the empty state, a start, a second start, an end of a
`NULL` run, an end of the current run and an init. -/
theorem current_run_tracks_active_witness :
    currentRunLive (emptyState 0) ∧
    (∃ g', runCallsExec 64
        [.start 0 0 0 7 true, .start 1 0 0 8 false, .endNull true, .endCurrent false, .init]
        (emptyState 0) = some g' ∧ currentRunLive g' ∧
      G_GetCurrentRun g' = activeAfterAll (G_GetCurrentRun (emptyState 0))
        [.start 0 0 0 7 true, .start 1 0 0 8 false, .endNull true, .endCurrent false, .init] ∧
      (G_GetCurrentRun g' = none ↔ activeAfterAll (G_GetCurrentRun (emptyState 0))
        [.start 0 0 0 7 true, .start 1 0 0 8 false, .endNull true, .endCurrent false, .init]
          = none)) :=
  ⟨currentRunLive_emptyState 0,
   (current_run_tracks_active 64 (emptyState 0) (currentRunLive_emptyState 0)).1 _⟩

/-! ## Difficulty score and names: C23, C24 -/

/-- C23: `G_CalculateArenaDifficulty` returns 0 for a `NULL` arena and otherwise
`depth * 100 + numEnemySpawns * 10 + numRooms`, `depth` being the requested depth
stored in the arena, provided that `int` expression does not overflow. -/
theorem difficulty_contract :
    G_CalculateArenaDifficulty none = 0 ∧
    ∀ a : arena_t,
      -2147483648 ≤ a.depth * 100 + a.numEnemySpawns * 10 + a.numRooms →
      a.depth * 100 + a.numEnemySpawns * 10 + a.numRooms < 2147483648 →
      G_CalculateArenaDifficulty (some a) =
        a.depth * 100 + a.numEnemySpawns * 10 + a.numRooms := by
  refine ⟨rfl, ?_⟩
  intro a h1 h2
  exact wrap32_of_range h1 h2

set_option maxRecDepth 100000 in
/-- Witness of C23: the arena of scenario A, of difficulty `1 * 100 + 4 * 10 + 5`. -/
theorem difficulty_contract_witness :
    ((-2147483648 : Int) ≤ (G_GenerateArena 64 0 0 42 1 THEME_TECH 0).1.depth * 100 +
        (G_GenerateArena 64 0 0 42 1 THEME_TECH 0).1.numEnemySpawns * 10 +
        (G_GenerateArena 64 0 0 42 1 THEME_TECH 0).1.numRooms ∧
      (G_GenerateArena 64 0 0 42 1 THEME_TECH 0).1.depth * 100 +
        (G_GenerateArena 64 0 0 42 1 THEME_TECH 0).1.numEnemySpawns * 10 +
        (G_GenerateArena 64 0 0 42 1 THEME_TECH 0).1.numRooms < 2147483648) ∧
    G_CalculateArenaDifficulty (some (G_GenerateArena 64 0 0 42 1 THEME_TECH 0).1) =
      (G_GenerateArena 64 0 0 42 1 THEME_TECH 0).1.depth * 100 +
        (G_GenerateArena 64 0 0 42 1 THEME_TECH 0).1.numEnemySpawns * 10 +
        (G_GenerateArena 64 0 0 42 1 THEME_TECH 0).1.numRooms ∧
    G_CalculateArenaDifficulty (some (G_GenerateArena 64 0 0 42 1 THEME_TECH 0).1) = 145 :=
  ⟨⟨by decide, by decide⟩,
   difficulty_contract.2 (G_GenerateArena 64 0 0 42 1 THEME_TECH 0).1 (by decide) (by decide),
   by decide⟩

theorem themeName_cases (t : Int) (h0 : 0 ≤ t) (h1 : t < 5) :
    t = 0 ∨ t = 1 ∨ t = 2 ∨ t = 3 ∨ t = 4 := by omega

theorem roomTypeName_cases (t : Int) (h0 : 0 ≤ t) (h1 : t < 8) :
    t = 0 ∨ t = 1 ∨ t = 2 ∨ t = 3 ∨ t = 4 ∨ t = 5 ∨ t = 6 ∨ t = 7 := by omega

/-- C24: `G_GetThemeName` and `G_GetRoomTypeName` return `"Unknown"` for every
selector outside the enumerated range (negative, or `≥ THEME_COUNT = 5`,
`≥ ROOM_TYPE_COUNT = 8`); for a selector in range they return its name in the
table, which is not `"Unknown"` and differs from the name of any other selector
in range. -/
theorem names_total :
    (∀ t : Int, t < 0 ∨ t ≥ 5 → G_GetThemeName t = "Unknown") ∧
    (∀ t : Int, t < 0 ∨ t ≥ 8 → G_GetRoomTypeName t = "Unknown") ∧
    (G_GetThemeName THEME_TECH = "Tech" ∧ G_GetThemeName THEME_GOTHIC = "Gothic" ∧
      G_GetThemeName THEME_SPACE = "Space" ∧ G_GetThemeName THEME_HELL = "Hell" ∧
      G_GetThemeName THEME_RANDOM = "Random") ∧
    (G_GetRoomTypeName ROOM_TYPE_ARENA = "Arena" ∧
      G_GetRoomTypeName ROOM_TYPE_CORRIDOR = "Corridor" ∧
      G_GetRoomTypeName ROOM_TYPE_JUNCTION = "Junction" ∧
      G_GetRoomTypeName ROOM_TYPE_MULTILEVEL = "Multilevel" ∧
      G_GetRoomTypeName ROOM_TYPE_HAZARD = "Hazard" ∧
      G_GetRoomTypeName ROOM_TYPE_BOSS = "Boss" ∧
      G_GetRoomTypeName ROOM_TYPE_START = "Start" ∧
      G_GetRoomTypeName ROOM_TYPE_EXIT = "Exit") ∧
    (∀ t : Int, 0 ≤ t → t < 5 → G_GetThemeName t ≠ "Unknown") ∧
    (∀ t : Int, 0 ≤ t → t < 8 → G_GetRoomTypeName t ≠ "Unknown") ∧
    (∀ t u : Int, 0 ≤ t → t < 5 → 0 ≤ u → u < 5 →
      G_GetThemeName t = G_GetThemeName u → t = u) ∧
    (∀ t u : Int, 0 ≤ t → t < 8 → 0 ≤ u → u < 8 →
      G_GetRoomTypeName t = G_GetRoomTypeName u → t = u) := by
  refine ⟨?_, ?_, by decide, by decide, ?_, ?_, ?_, ?_⟩
  · intro t h
    unfold G_GetThemeName
    rw [if_pos (by simp only [THEME_COUNT]; exact h)]
  · intro t h
    unfold G_GetRoomTypeName
    rw [if_pos (by simp only [ROOM_TYPE_COUNT]; exact h)]
  · intro t h0 h1
    rcases themeName_cases t h0 h1 with h | h | h | h | h <;> subst h <;> decide
  · intro t h0 h1
    rcases roomTypeName_cases t h0 h1 with h | h | h | h | h | h | h | h <;> subst h <;> decide
  · intro t u h0 h1 h2 h3
    rcases themeName_cases t h0 h1 with h | h | h | h | h <;>
      rcases themeName_cases u h2 h3 with h' | h' | h' | h' | h' <;>
      subst h <;> subst h' <;> decide
  · intro t u h0 h1 h2 h3
    rcases roomTypeName_cases t h0 h1 with h | h | h | h | h | h | h | h <;>
      rcases roomTypeName_cases u h2 h3 with h' | h' | h' | h' | h' | h' | h' | h' <;>
      subst h <;> subst h' <;> decide

/-- Witness of C24: selectors -1, 5 and 8 out of range, 3 and 4 in range. -/
theorem names_total_witness :
    (((-1 : Int) < 0 ∨ (-1 : Int) ≥ 5) ∧ ((8 : Int) < 0 ∨ (8 : Int) ≥ 8) ∧
      (0 : Int) ≤ 3 ∧ (3 : Int) < 5 ∧ (0 : Int) ≤ 4 ∧ (4 : Int) < 5 ∧ (3 : Int) < 8 ∧
      (4 : Int) < 8) ∧
    G_GetThemeName (-1) = "Unknown" ∧ G_GetRoomTypeName 8 = "Unknown" ∧
    G_GetThemeName 3 ≠ "Unknown" ∧ G_GetRoomTypeName 3 ≠ "Unknown" ∧
    (G_GetThemeName 3 = G_GetThemeName 4 → (3 : Int) = 4) ∧
    (G_GetRoomTypeName 3 = G_GetRoomTypeName 4 → (3 : Int) = 4) :=
  ⟨by decide,
   names_total.1 (-1) (by decide),
   names_total.2.1 8 (by decide),
   names_total.2.2.2.2.1 3 (by decide) (by decide),
   names_total.2.2.2.2.2.1 3 (by decide) (by decide),
   names_total.2.2.2.2.2.2.1 3 4 (by decide) (by decide) (by decide) (by decide),
   names_total.2.2.2.2.2.2.2 3 4 (by decide) (by decide) (by decide) (by decide)⟩

/-! ## Bullet time: C25, C29 -/

theorem tdiv_1000 (x : Int) (h : 0 ≤ x) : Int.tdiv x 1000 = x / 1000 :=
  Int.tdiv_eq_ediv h (by decide)

theorem BG_UpdateBulletTime_active_energy (PMF : Int) (ps : playerState_t) (msec : Int)
    (hm : 0 ≤ msec) (hov : 20 * msec < 2147483648)
    (he : 0 ≤ PS_BULLETTIME_ENERGY ps ∧ PS_BULLETTIME_ENERGY ps ≤ 100) :
    PS_BULLETTIME_ENERGY (BG_UpdateBulletTime PMF ps msec true) =
      max 0 (PS_BULLETTIME_ENERGY ps - 20 * msec / 1000) := by
  have hd : 0 ≤ 20 * msec / 1000 := Int.ediv_nonneg (by omega) (by decide)
  have hd' : 20 * msec / 1000 ≤ 2147483648 := by omega
  unfold BG_UpdateBulletTime
  simp only [PM_BULLETTIME_DRAIN_RATE, Bool.true_eq_false, and_false, if_false, if_true]
  rw [wrap32_of_range (by omega) hov, tdiv_1000 _ (by omega),
    wrap32_of_range (by omega) (by omega)]
  split
  · simp only [PS_BULLETTIME_ENERGY, setBulletTimeEnergy, if_true]
    unfold PS_BULLETTIME_ENERGY at *
    omega
  · simp only [PS_BULLETTIME_ENERGY, setBulletTimeEnergy, if_true]
    unfold PS_BULLETTIME_ENERGY at *
    omega

theorem bulletTimeFrames_short (PMF : Int) (msecs : List Int) (ps : playerState_t)
    (hm : ∀ m ∈ msecs, 0 ≤ m ∧ m < 50)
    (he : 0 < PS_BULLETTIME_ENERGY ps ∧ PS_BULLETTIME_ENERGY ps ≤ 100) :
    PS_BULLETTIME_ENERGY (bulletTimeFrames PMF ps msecs) = PS_BULLETTIME_ENERGY ps := by
  induction msecs generalizing ps with
  | nil => rfl
  | cons m ms ih =>
    obtain ⟨h0, h1⟩ := hm m (List.mem_cons_self _ _)
    have hstep := BG_UpdateBulletTime_active_energy PMF ps m h0 (by omega) ⟨by omega, he.2⟩
    have hz : 20 * m / 1000 = 0 := by omega
    rw [hz] at hstep
    have hkeep : PS_BULLETTIME_ENERGY (BG_UpdateBulletTime PMF ps m true) =
        PS_BULLETTIME_ENERGY ps := by
      rw [hstep]
      omega
    have := ih (BG_UpdateBulletTime PMF ps m true)
      (fun x hx => hm x (List.mem_cons_of_mem _ hx)) (by rw [hkeep]; exact he)
    unfold bulletTimeFrames at this ⊢
    rw [List.foldl_cons, this, hkeep]

theorem bulletTimeFrames_energy (PMF : Int) (msecs : List Int) (ps : playerState_t)
    (hm : ∀ m ∈ msecs, 0 ≤ m ∧ 20 * m < 2147483648)
    (he : 0 ≤ PS_BULLETTIME_ENERGY ps ∧ PS_BULLETTIME_ENERGY ps ≤ 100) :
    PS_BULLETTIME_ENERGY (bulletTimeFrames PMF ps msecs) =
      msecs.foldl (fun e m => max 0 (e - 20 * m / 1000)) (PS_BULLETTIME_ENERGY ps) := by
  induction msecs generalizing ps with
  | nil => rfl
  | cons m ms ih =>
    obtain ⟨h0, h1⟩ := hm m (List.mem_cons_self _ _)
    have hstep := BG_UpdateBulletTime_active_energy PMF ps m h0 h1 he
    have hd : 0 ≤ 20 * m / 1000 := Int.ediv_nonneg (by omega) (by decide)
    have := ih (BG_UpdateBulletTime PMF ps m true)
      (fun x hx => hm x (List.mem_cons_of_mem _ hx)) (by rw [hstep]; omega)
    unfold bulletTimeFrames at this ⊢
    rw [List.foldl_cons, this, hstep, List.foldl_cons]

set_option maxRecDepth 100000 in
/-- C25, the code at a failing input: bullet time held active for one second in
125 frames of 8 ms, starting from energy 100, leaves the energy at 100, because
the drain of a frame is `(20 * msec) / 1000`, which is 0 for every frame shorter
than 50 ms; in 20 frames of 50 ms the energy does fall to 80. -/
theorem bullet_time_drain (PMF : Int) :
    (List.replicate 125 (8 : Int)).sum = 1000 ∧
    (∀ m ∈ List.replicate 125 (8 : Int), 0 < m) ∧
    PS_BULLETTIME_ENERGY fullEnergy = 100 ∧
    PS_BULLETTIME_ENERGY (bulletTimeFrames PMF fullEnergy (List.replicate 125 8)) = 100 ∧
    (List.replicate 20 (50 : Int)).sum = 1000 ∧
    PS_BULLETTIME_ENERGY (bulletTimeFrames PMF fullEnergy (List.replicate 20 50)) = 80 := by
  refine ⟨by decide, by decide, rfl, ?_, by decide, ?_⟩
  · rw [bulletTimeFrames_short PMF _ fullEnergy]
    · rfl
    · intro m hm
      rw [List.eq_of_mem_replicate hm]
      decide
    · decide
  · rw [bulletTimeFrames_energy PMF _ fullEnergy]
    · decide
    · intro m hm
      rw [List.eq_of_mem_replicate hm]
      decide
    · decide

theorem BG_UpdateBulletTime_inactive_energy (PMF : Int) (ps : playerState_t) (msec : Int)
    (hm : 0 ≤ msec) (hov : 20 * msec < 2147483648)
    (he : 0 ≤ PS_BULLETTIME_ENERGY ps ∧ PS_BULLETTIME_ENERGY ps ≤ 100) :
    0 < PS_BULLETTIME_ENERGY (BG_UpdateBulletTime PMF ps msec false) ∧
    PS_BULLETTIME_ENERGY (BG_UpdateBulletTime PMF ps msec false) ≤ 100 := by
  have hd : 0 ≤ 10 * msec / 1000 := Int.ediv_nonneg (by omega) (by decide)
  have hd' : 10 * msec / 1000 ≤ 2147483 := by omega
  unfold BG_UpdateBulletTime
  simp only [PM_BULLETTIME_RECHARGE_RATE, PM_BULLETTIME_MAX_ENERGY, Bool.false_eq_true,
    if_false, and_true]
  have hw : wrap32 (10 * msec) = 10 * msec := wrap32_of_range (by omega) (by omega)
  rw [hw, tdiv_1000 _ (by omega)]
  simp only [PS_BULLETTIME_ENERGY, setBulletTimeEnergy, if_true]
  unfold PS_BULLETTIME_ENERGY at he
  by_cases h0 : ps.powerups 11 = 0
  · rw [if_pos h0, wrap32_of_range (by omega) (by omega)]
    split <;> omega
  · rw [if_neg h0, wrap32_of_range (by omega) (by omega)]
    split <;> omega

theorem BG_UpdateBulletTime_flags (PMF : Int) (ps : playerState_t) (msec : Int)
    (active : Bool) :
    (BG_UpdateBulletTime PMF ps msec active).pm_flags =
      if active = true ∧ 0 < PS_BULLETTIME_ENERGY (BG_UpdateBulletTime PMF ps msec active)
      then Int.lor ps.pm_flags PMF else Int.land ps.pm_flags (Int.lnot PMF) := by
  cases active with
  | false => simp [BG_UpdateBulletTime]
  | true =>
    unfold BG_UpdateBulletTime
    simp only [Bool.true_eq_false, and_false, if_false, if_true, true_and]
    split
    · simp [PS_BULLETTIME_ENERGY, setBulletTimeEnergy]
    · rename_i h
      have h' : 0 < wrap32 (PS_BULLETTIME_ENERGY ps -
          Int.tdiv (wrap32 (PM_BULLETTIME_DRAIN_RATE * msec)) 1000) := by omega
      simp only [PS_BULLETTIME_ENERGY, setBulletTimeEnergy, if_true] at h' ⊢
      rw [if_pos h']

theorem BG_UpdateBulletTime_powerups (PMF : Int) (ps : playerState_t) (msec : Int)
    (active : Bool) (i : Nat) (hi : i ≠ 11) :
    (BG_UpdateBulletTime PMF ps msec active).powerups i = ps.powerups i := by
  unfold BG_UpdateBulletTime
  simp only
  split_ifs <;> simp [setBulletTimeEnergy, hi]

/-- C29: for a player state with bullet time energy in `[0, 100]`, `msec ≥ 0` with
`20 * msec` not overflowing, and either value of `active`, the energy after
`BG_UpdateBulletTime` is again in `[0, 100]`; afterwards every bit of the mask
`PMF_BULLET_TIME` is set in `pm_flags` if `active` is true and the energy after
the call is positive, and clear otherwise; every bit of `pm_flags` outside the
mask, and every other slot of `powerups`, is as before. -/
theorem bullet_time_energy_range (PMF : Int) (ps : playerState_t) (msec : Int) (active : Bool)
    (he : 0 ≤ PS_BULLETTIME_ENERGY ps ∧ PS_BULLETTIME_ENERGY ps ≤ 100)
    (hm : 0 ≤ msec) (hov : 20 * msec < 2147483648) :
    (0 ≤ PS_BULLETTIME_ENERGY (BG_UpdateBulletTime PMF ps msec active) ∧
      PS_BULLETTIME_ENERGY (BG_UpdateBulletTime PMF ps msec active) ≤ 100) ∧
    (∀ k : Nat, PMF.testBit k = true →
      ((BG_UpdateBulletTime PMF ps msec active).pm_flags.testBit k = true ↔
        active = true ∧ 0 < PS_BULLETTIME_ENERGY (BG_UpdateBulletTime PMF ps msec active))) ∧
    (∀ k : Nat, PMF.testBit k = false →
      (BG_UpdateBulletTime PMF ps msec active).pm_flags.testBit k = ps.pm_flags.testBit k) ∧
    (∀ i : Nat, i ≠ 11 →
      (BG_UpdateBulletTime PMF ps msec active).powerups i = ps.powerups i) := by
  have hflags := BG_UpdateBulletTime_flags PMF ps msec active
  refine ⟨?_, ?_, ?_, fun i hi => BG_UpdateBulletTime_powerups PMF ps msec active i hi⟩
  · cases active with
    | false =>
      have := BG_UpdateBulletTime_inactive_energy PMF ps msec hm hov he
      omega
    | true =>
      rw [BG_UpdateBulletTime_active_energy PMF ps msec hm hov he]
      have hd : 0 ≤ 20 * msec / 1000 := Int.ediv_nonneg (by omega) (by decide)
      omega
  · intro k hk
    rw [hflags]
    split
    · rename_i h
      rw [Int.testBit_lor, hk, Bool.or_true]
      exact ⟨fun _ => h, fun _ => rfl⟩
    · rename_i h
      rw [Int.testBit_land, Int.testBit_lnot, hk]
      simp only [Bool.not_true, Bool.and_false]
      exact ⟨fun hc => Bool.noConfusion hc, fun hc => absurd hc h⟩
  · intro k hk
    rw [hflags]
    split
    · rw [Int.testBit_lor, hk, Bool.or_false]
    · rw [Int.testBit_land, Int.testBit_lnot, hk]
      simp

/-- Witness of C29: full energy, a frame of 50 ms with bullet time active, the mask
being bit 14; bit 14 is in the mask, bit 3 is not. -/
theorem bullet_time_energy_range_witness :
    ((0 ≤ PS_BULLETTIME_ENERGY fullEnergy ∧ PS_BULLETTIME_ENERGY fullEnergy ≤ 100) ∧
      (0 : Int) ≤ 50 ∧ (20 : Int) * 50 < 2147483648 ∧
      (16384 : Int).testBit 14 = true ∧ (16384 : Int).testBit 3 = false ∧ 12 ≠ 11) ∧
    (0 ≤ PS_BULLETTIME_ENERGY (BG_UpdateBulletTime 16384 fullEnergy 50 true) ∧
      PS_BULLETTIME_ENERGY (BG_UpdateBulletTime 16384 fullEnergy 50 true) ≤ 100) ∧
    ((BG_UpdateBulletTime 16384 fullEnergy 50 true).pm_flags.testBit 14 = true ↔
      true = true ∧ 0 < PS_BULLETTIME_ENERGY (BG_UpdateBulletTime 16384 fullEnergy 50 true)) ∧
    (BG_UpdateBulletTime 16384 fullEnergy 50 true).pm_flags.testBit 3 =
      fullEnergy.pm_flags.testBit 3 ∧
    (BG_UpdateBulletTime 16384 fullEnergy 50 true).powerups 12 = fullEnergy.powerups 12 :=
  have h := bullet_time_energy_range 16384 fullEnergy 50 true (by decide) (by decide)
    (by decide)
  ⟨⟨by decide, by decide, by decide, by decide, by decide, by decide⟩,
   h.1, h.2.1 14 (by decide), h.2.2.1 3 (by decide), h.2.2.2 12 (by decide)⟩

/-! ## Order of the chain: C27 -/

theorem roomLoopAt_prevRoom_eq (numRooms depth : Int) (theme : arenaTheme_t) (s : Nat)
    (k : Nat) :
    (roomLoopAt numRooms depth theme s k).prevRoom =
      ((List.range k).map (fun j =>
        stepRoom numRooms depth theme (roomLoopAt numRooms depth theme s j) j)).reverse := by
  induction k with
  | zero => rfl
  | succ k ih =>
    rw [roomLoopAt_prevRoom_succ, ih, List.range_succ, List.map_append, List.reverse_append]
    rfl

theorem generationOrder_eq (M : Nat) (t0 t1 seed depth : Int) (theme : arenaTheme_t)
    (s : Nat) :
    generationOrder (G_GenerateArena M t0 t1 seed depth theme s).1 =
      (List.range (G_GenerateArena M t0 t1 seed depth theme s).1.rooms.length).map
        (generatedRoom seed depth theme) := by
  obtain ⟨-, hr2⟩ := G_GenerateArena_room_counts M t0 t1 seed depth theme s
  rw [hr2]
  unfold generationOrder
  rw [G_GenerateArena_rooms, roomLoop_eq_roomLoopAt, roomLoopAt_prevRoom_eq,
    List.reverse_reverse]
  rfl

theorem generationOrder_get (M : Nat) (t0 t1 seed depth : Int) (theme : arenaTheme_t)
    (s : Nat) (j : Nat)
    (hj : j < (G_GenerateArena M t0 t1 seed depth theme s).1.rooms.length) :
    (generationOrder (G_GenerateArena M t0 t1 seed depth theme s).1)[j]? =
      some (generatedRoom seed depth theme j) := by
  rw [generationOrder_eq, List.getElem?_map, List.getElem?_range hj]
  rfl

theorem rooms_get (M : Nat) (t0 t1 seed depth : Int) (theme : arenaTheme_t)
    (s : Nat) (i : Nat)
    (hi : i < (G_GenerateArena M t0 t1 seed depth theme s).1.rooms.length) :
    (G_GenerateArena M t0 t1 seed depth theme s).1.rooms[i]? =
      some (generatedRoom seed depth theme
        ((G_GenerateArena M t0 t1 seed depth theme s).1.rooms.length - 1 - i)) := by
  have h1 := generationOrder_get M t0 t1 seed depth theme s
    ((G_GenerateArena M t0 t1 seed depth theme s).1.rooms.length - 1 - i) (by omega)
  unfold generationOrder at h1
  rw [List.getElem?_reverse (by omega)] at h1
  rw [← h1]
  congr 1
  omega

theorem generatedRoom_isStartRoom (seed depth : Int) (theme : arenaTheme_t) (j : Nat) :
    (generatedRoom seed depth theme j).isStartRoom = decide (j = 0) :=
  stepRoom_isStartRoom _ _ _ _ _

theorem generatedRoom_isExitRoom (seed depth : Int) (theme : arenaTheme_t) (j : Nat) :
    (generatedRoom seed depth theme j).isExitRoom =
      decide (j ≠ 0 ∧ (j : Int) = (genCount seed depth).1 - 1) :=
  stepRoom_isExitRoom _ _ _ _ _

/-- C27: in the arena returned by `G_GenerateArena`, with `n` rooms, node `i` of
the chain `arena->rooms` is the room generated at position `n - 1 - i`: traversal
through `next` is the reverse of the generation order.  For `n ≥ 1` the head of the
chain is the room generated last (the exit room when `n ≥ 2`) and the final node
is the room generated first, the start room. -/
theorem chain_is_reverse_of_generation (M : Nat) (t0 t1 seed depth : Int)
    (theme : arenaTheme_t) (s : Nat) :
    ((G_GenerateArena M t0 t1 seed depth theme s).1.numRooms =
      ((G_GenerateArena M t0 t1 seed depth theme s).1.rooms.length : Int)) ∧
    (∀ i, i < (G_GenerateArena M t0 t1 seed depth theme s).1.rooms.length →
      (G_GenerateArena M t0 t1 seed depth theme s).1.rooms[i]? =
        some (generatedRoom seed depth theme
          ((G_GenerateArena M t0 t1 seed depth theme s).1.rooms.length - 1 - i))) ∧
    (1 ≤ (G_GenerateArena M t0 t1 seed depth theme s).1.rooms.length →
      (G_GenerateArena M t0 t1 seed depth theme s).1.rooms.head? =
        some (generatedRoom seed depth theme
          ((G_GenerateArena M t0 t1 seed depth theme s).1.rooms.length - 1)) ∧
      (G_GenerateArena M t0 t1 seed depth theme s).1.rooms.getLast? =
        some (generatedRoom seed depth theme 0) ∧
      (generatedRoom seed depth theme 0).isStartRoom = true) ∧
    (2 ≤ (G_GenerateArena M t0 t1 seed depth theme s).1.rooms.length →
      (generatedRoom seed depth theme
        ((G_GenerateArena M t0 t1 seed depth theme s).1.rooms.length - 1)).isExitRoom = true) := by
  obtain ⟨hr1, hr2⟩ := G_GenerateArena_room_counts M t0 t1 seed depth theme s
  refine ⟨by rw [hr1, hr2], fun i hi => rooms_get M t0 t1 seed depth theme s i hi, ?_, ?_⟩
  · intro hn
    refine ⟨?_, ?_, ?_⟩
    · have h0 := rooms_get M t0 t1 seed depth theme s 0 (by omega)
      rw [← List.head?_eq_getElem?] at h0
      exact h0
    · have h1 := rooms_get M t0 t1 seed depth theme s
        ((G_GenerateArena M t0 t1 seed depth theme s).1.rooms.length - 1) (by omega)
      rw [List.getLast?_eq_getElem?, h1]
      congr 2
      omega
    · rw [generatedRoom_isStartRoom]
      rfl
  · intro hn
    rw [generatedRoom_isExitRoom]
    have hc : (((genCount seed depth).1.toNat : Nat) : Int) = (genCount seed depth).1 :=
      toNat_cast_of_pos (by omega)
    rw [hr2] at hn ⊢
    exact decide_eq_true ⟨by omega, by omega⟩

set_option maxRecDepth 100000 in
/-- Witness of C27: the arena of scenario A, which has five rooms; node 1. -/
theorem chain_is_reverse_of_generation_witness :
    (1 < (G_GenerateArena 64 0 0 42 1 THEME_TECH 0).1.rooms.length ∧
      1 ≤ (G_GenerateArena 64 0 0 42 1 THEME_TECH 0).1.rooms.length ∧
      2 ≤ (G_GenerateArena 64 0 0 42 1 THEME_TECH 0).1.rooms.length) ∧
    (G_GenerateArena 64 0 0 42 1 THEME_TECH 0).1.rooms[1]? =
      some (generatedRoom 42 1 THEME_TECH
        ((G_GenerateArena 64 0 0 42 1 THEME_TECH 0).1.rooms.length - 1 - 1)) ∧
    ((G_GenerateArena 64 0 0 42 1 THEME_TECH 0).1.rooms.head? =
        some (generatedRoom 42 1 THEME_TECH
          ((G_GenerateArena 64 0 0 42 1 THEME_TECH 0).1.rooms.length - 1)) ∧
      (G_GenerateArena 64 0 0 42 1 THEME_TECH 0).1.rooms.getLast? =
        some (generatedRoom 42 1 THEME_TECH 0) ∧
      (generatedRoom 42 1 THEME_TECH 0).isStartRoom = true) ∧
    (generatedRoom 42 1 THEME_TECH
      ((G_GenerateArena 64 0 0 42 1 THEME_TECH 0).1.rooms.length - 1)).isExitRoom = true :=
  have h := chain_is_reverse_of_generation 64 0 0 42 1 THEME_TECH 0
  ⟨⟨by decide, by decide, by decide⟩, h.2.1 1 (by decide), h.2.2.1 (by decide),
    h.2.2.2 (by decide)⟩

/-! ## Boss rooms: C26 -/

theorem roomTypeAt_eq_boss (numRooms depth : Int) (i : Nat) (s : Nat) :
    (roomTypeAt numRooms depth i s).1 = ROOM_TYPE_BOSS ↔
      i ≠ 0 ∧ (i : Int) ≠ numRooms - 1 ∧ Int.tmod depth 5 = 0 ∧ (i : Int) = numRooms - 2 := by
  unfold roomTypeAt
  simp only [ROOM_TYPE_START, ROOM_TYPE_EXIT, ROOM_TYPE_BOSS, ROOM_TYPE_ARENA,
    ROOM_TYPE_CORRIDOR, ROOM_TYPE_JUNCTION, ROOM_TYPE_MULTILEVEL, ROOM_TYPE_HAZARD]
  split_ifs <;> simp <;> omega

/-- A type that comes from the weighted draw is one of the five drawn types. -/
theorem roomTypeAt_drawn (numRooms depth : Int) (i : Nat) (s : Nat)
    (h0 : i ≠ 0) (h1 : (i : Int) ≠ numRooms - 1)
    (h2 : ¬ (Int.tmod depth 5 = 0 ∧ (i : Int) = numRooms - 2)) :
    (roomTypeAt numRooms depth i s).1 = ROOM_TYPE_ARENA ∨
    (roomTypeAt numRooms depth i s).1 = ROOM_TYPE_CORRIDOR ∨
    (roomTypeAt numRooms depth i s).1 = ROOM_TYPE_JUNCTION ∨
    (roomTypeAt numRooms depth i s).1 = ROOM_TYPE_MULTILEVEL ∨
    (roomTypeAt numRooms depth i s).1 = ROOM_TYPE_HAZARD := by
  have hi : ¬ ((i : Int) = 0) := by omega
  unfold roomTypeAt
  rw [if_neg hi, if_neg h1, if_neg h2]
  simp only []
  split_ifs <;> simp

theorem genCount_of_rooms (seed depth : Int) (hlo : -2147483648 ≤ depth)
    (hup : depth < 2147483648) (h : 1 ≤ (genCount seed depth).1) :
    -2 ≤ depth ∧ ((genCount seed depth).1 = 2 → depth = -1) ∧
    (0 ≤ depth → 3 ≤ (genCount seed depth).1) := by
  have hk := ArenaRandRange_zero_bounds depth (ArenaSetSeed (toU32 (seed + depth)) 0)
  have hz : depth ≤ 0 → (ArenaRandRange 0 depth (ArenaSetSeed (toU32 (seed + depth)) 0)).1 = 0 := by
    intro hd
    rw [ArenaRandRange_of_le _ hd]
  unfold genCount roomCount at h ⊢
  simp only [MAX_ARENA_ROOMS] at h ⊢
  generalize (ArenaRandRange 0 depth (ArenaSetSeed (toU32 (seed + depth)) 0)).1 = k at hk hz h ⊢
  unfold wrap32 at h ⊢
  refine ⟨?_, ?_, ?_⟩
  · by_cases hd : depth ≤ 0
    · have := hz hd
      split at h <;> omega
    · omega
  · intro h2
    by_cases hd : depth ≤ 0
    · have := hz hd
      split at h2 <;> omega
    · split at h2 <;> omega
  · intro hd
    by_cases hd0 : depth ≤ 0
    · have := hz hd0
      split <;> omega
    · split at h <;> split <;> omega

theorem generatedRoom_type (seed depth : Int) (theme : arenaTheme_t) (j : Nat) :
    (generatedRoom seed depth theme j).type =
      (roomTypeAt (genCount seed depth).1 depth j
        (roomLoopAt (genCount seed depth).1 depth theme (genCount seed depth).2 j).arenaRandSeed).1 :=
  rfl

theorem stepRoom_boss_size (numRooms depth : Int) (theme : arenaTheme_t) (st : roomLoopState)
    (i : Nat) (h : (stepRoom numRooms depth theme st i).type = ROOM_TYPE_BOSS) :
    (stepRoom numRooms depth theme st i).width = wrap32 (512 + depth * 32) ∧
    (stepRoom numRooms depth theme st i).depth = wrap32 (512 + depth * 32) ∧
    (stepRoom numRooms depth theme st i).height = 384 := by
  have ht : (roomTypeAt numRooms depth i st.arenaRandSeed).1 = ROOM_TYPE_BOSS := h
  have hsz : (roomSize depth (roomTypeAt numRooms depth i st.arenaRandSeed).1
      (roomTypeAt numRooms depth i st.arenaRandSeed).2).1 =
      (wrap32 (512 + depth * 32), 384, wrap32 (512 + depth * 32)) := by
    rw [ht]
    unfold roomSize
    simp only
    rw [if_neg (by decide), if_pos trivial]
  simp [stepRoom, G_CreateRoom, hsz]

/-- C26: for an `int` depth, the room at node `i` of the chain of the arena
returned by `G_GenerateArena` has type `ROOM_TYPE_BOSS` if and only if
`depth mod 5 = 0` and `i = 1`, the node of the room generated second-to-last.  When
`depth ≥ 0`, `depth mod 5 = 0` and `512 + depth * 32` does not overflow, that room
exists, has neither the start nor the exit flag, while exactly one room has each
of them, and has width and depth `512 + 32 * depth` and height 384.  A room that is
neither the first nor the last generated and is not that second-to-last room of a
depth divisible by five has one of the five types of the weighted draw, so it is
never of type `ROOM_TYPE_START`, `ROOM_TYPE_EXIT` or `ROOM_TYPE_BOSS`. -/
theorem boss_room_placement (M : Nat) (t0 t1 seed depth : Int) (theme : arenaTheme_t)
    (s : Nat) (hlo : -2147483648 ≤ depth) (hup : depth < 2147483648) :
    (∀ (i : Nat) (room : arenaRoom_t),
      (G_GenerateArena M t0 t1 seed depth theme s).1.rooms[i]? = some room →
      (room.type = ROOM_TYPE_BOSS ↔ Int.tmod depth 5 = 0 ∧ i = 1)) ∧
    (0 ≤ depth → Int.tmod depth 5 = 0 → 512 + depth * 32 < 2147483648 →
      ∃ room, secondToLastGenerated (G_GenerateArena M t0 t1 seed depth theme s).1 = some room ∧
        room.type = ROOM_TYPE_BOSS ∧ room.isStartRoom = false ∧ room.isExitRoom = false ∧
        room.width = 512 + 32 * depth ∧ room.depth = 512 + 32 * depth ∧ room.height = 384 ∧
        startCount (G_GenerateArena M t0 t1 seed depth theme s).1 = 1 ∧
        exitCount (G_GenerateArena M t0 t1 seed depth theme s).1 = 1) ∧
    (∀ (i : Nat) (room : arenaRoom_t),
      (G_GenerateArena M t0 t1 seed depth theme s).1.rooms[i]? = some room →
      i ≠ 0 → i + 1 ≠ (G_GenerateArena M t0 t1 seed depth theme s).1.rooms.length →
      ¬ (Int.tmod depth 5 = 0 ∧ i = 1) →
      (room.type = ROOM_TYPE_ARENA ∨ room.type = ROOM_TYPE_CORRIDOR ∨
        room.type = ROOM_TYPE_JUNCTION ∨ room.type = ROOM_TYPE_MULTILEVEL ∨
        room.type = ROOM_TYPE_HAZARD) ∧
      room.type ≠ ROOM_TYPE_START ∧ room.type ≠ ROOM_TYPE_EXIT ∧
      room.type ≠ ROOM_TYPE_BOSS) := by
  obtain ⟨hr1, hr2⟩ := G_GenerateArena_room_counts M t0 t1 seed depth theme s
  have hget := rooms_get M t0 t1 seed depth theme s
  rw [hr2] at hget
  have hpos : ∀ i : Nat, i < (genCount seed depth).1.toNat →
      (((genCount seed depth).1.toNat : Nat) : Int) = (genCount seed depth).1 :=
    fun i hi => toNat_cast_of_pos (by omega)
  have hiff : ∀ (i : Nat) (room : arenaRoom_t),
      (G_GenerateArena M t0 t1 seed depth theme s).1.rooms[i]? = some room →
      (room.type = ROOM_TYPE_BOSS ↔ Int.tmod depth 5 = 0 ∧ i = 1) := by
    intro i room hroom
    have hi : i < (genCount seed depth).1.toNat := by
      have := (List.getElem?_eq_some_iff.mp hroom).1
      omega
    have hc := hpos i hi
    obtain ⟨-, h2, -⟩ := genCount_of_rooms seed depth hlo hup (by omega)
    rw [hget i hi] at hroom
    cases hroom
    rw [generatedRoom_type, roomTypeAt_eq_boss]
    constructor
    · rintro ⟨-, -, h5, h6⟩
      exact ⟨h5, by omega⟩
    · rintro ⟨h5, h6⟩
      subst h6
      have hne : (genCount seed depth).1 ≠ 2 := by
        intro h
        have := h2 h
        subst this
        revert h5
        decide
      exact ⟨by omega, by omega, h5, by omega⟩
  refine ⟨hiff, ?_, ?_⟩
  · intro hd0 h5 hov
    have hk := (ArenaRandRange_zero_bounds depth (ArenaSetSeed (toU32 (seed + depth)) 0)).2
    have hc3 : 3 ≤ (genCount seed depth).1 := by
      have hge : 1 ≤ (genCount seed depth).1 := by
        rw [genCount_eq seed depth hlo (by unfold firstDraw; omega)]
        have := (ArenaRandRange_zero_bounds depth (ArenaSetSeed (toU32 (seed + depth)) 0)).1
        unfold firstDraw
        omega
      exact (genCount_of_rooms seed depth hlo hup hge).2.2 hd0
    have hlen : 1 < (genCount seed depth).1.toNat := by omega
    have hc := hpos 1 hlen
    have hroom := hget 1 hlen
    have hboss := (hiff 1 _ hroom).mpr ⟨h5, rfl⟩
    obtain ⟨hw, hdp, hh⟩ := stepRoom_boss_size _ _ _ _ _ hboss
    have hwr : wrap32 (512 + depth * 32) = 512 + 32 * depth := by
      rw [wrap32_of_range (by omega) hov]
      omega
    have hsc : startCount (G_GenerateArena M t0 t1 seed depth theme s).1 = 1 := by
      unfold startCount
      rw [G_GenerateArena_rooms, roomLoop_eq_roomLoopAt, roomLoopAt_countP_start,
        if_neg (by omega)]
    have hec : exitCount (G_GenerateArena M t0 t1 seed depth theme s).1 = 1 := by
      unfold exitCount
      rw [G_GenerateArena_rooms, roomLoop_eq_roomLoopAt,
        roomLoopAt_countP_exit _ _ _ _ _ (by omega), if_pos ⟨by omega, hc⟩]
    refine ⟨_, hroom, hboss, ?_, ?_, by rw [← hwr]; exact hw, by rw [← hwr]; exact hdp, hh,
      hsc, hec⟩
    · rw [generatedRoom_isStartRoom]
      exact decide_eq_false (by omega)
    · rw [generatedRoom_isExitRoom]
      exact decide_eq_false (by omega)
  · intro i room hroom hi0 hilast hnb5
    have hnb : room.type ≠ ROOM_TYPE_BOSS := fun h => hnb5 ((hiff i room hroom).mp h)
    have hi : i < (genCount seed depth).1.toNat := by
      have := (List.getElem?_eq_some_iff.mp hroom).1
      omega
    rw [hr2] at hilast
    have hc := hpos i hi
    rw [hget i hi] at hroom
    cases hroom
    rw [generatedRoom_type] at hnb ⊢
    have hnb' := fun h => hnb ((roomTypeAt_eq_boss _ _ _ _).mpr h)
    have hrange := roomTypeAt_drawn (genCount seed depth).1 depth
      ((genCount seed depth).1.toNat - 1 - i)
      (roomLoopAt (genCount seed depth).1 depth theme (genCount seed depth).2
        ((genCount seed depth).1.toNat - 1 - i)).arenaRandSeed
      (by omega) (by omega)
      (fun h => hnb' ⟨by omega, by omega, h.1, h.2⟩)
    refine ⟨hrange, ?_, ?_, hnb⟩
    · intro h
      rw [h] at hrange
      revert hrange
      decide
    · intro h
      rw [h] at hrange
      revert hrange
      decide

set_option maxRecDepth 100000 in
/-- Witness of C26 at seed 1, depth 5, theme gothic: the room at node 1 is the boss
room, of width and depth 672, and the room at node 2 has a drawn type. -/
theorem boss_room_placement_witness :
    ((-2147483648 : Int) ≤ 5 ∧ (5 : Int) < 2147483648 ∧ (0 : Int) ≤ 5 ∧ Int.tmod 5 5 = 0 ∧
      512 + (5 : Int) * 32 < 2147483648 ∧
      2 < (G_GenerateArena 64 0 0 1 5 THEME_GOTHIC 0).1.rooms.length ∧
      2 + 1 ≠ (G_GenerateArena 64 0 0 1 5 THEME_GOTHIC 0).1.rooms.length) ∧
    (∃ room, secondToLastGenerated (G_GenerateArena 64 0 0 1 5 THEME_GOTHIC 0).1 = some room ∧
        room.type = ROOM_TYPE_BOSS ∧ room.isStartRoom = false ∧ room.isExitRoom = false ∧
        room.width = 512 + 32 * 5 ∧ room.depth = 512 + 32 * 5 ∧ room.height = 384 ∧
        startCount (G_GenerateArena 64 0 0 1 5 THEME_GOTHIC 0).1 = 1 ∧
        exitCount (G_GenerateArena 64 0 0 1 5 THEME_GOTHIC 0).1 = 1) ∧
    ((generatedRoom 1 5 THEME_GOTHIC
        ((G_GenerateArena 64 0 0 1 5 THEME_GOTHIC 0).1.rooms.length - 1 - 1)).type =
          ROOM_TYPE_BOSS ↔ Int.tmod 5 5 = 0 ∧ 1 = 1) ∧
    (generatedRoom 1 5 THEME_GOTHIC
        ((G_GenerateArena 64 0 0 1 5 THEME_GOTHIC 0).1.rooms.length - 1 - 2)).type ≠
      ROOM_TYPE_BOSS :=
  have hlen : 2 < (G_GenerateArena 64 0 0 1 5 THEME_GOTHIC 0).1.rooms.length ∧
      2 + 1 ≠ (G_GenerateArena 64 0 0 1 5 THEME_GOTHIC 0).1.rooms.length := by
    rw [(G_GenerateArena_room_counts 64 0 0 1 5 THEME_GOTHIC 0).2]
    decide
  have h := boss_room_placement 64 0 0 1 5 THEME_GOTHIC 0 (by decide) (by decide)
  ⟨⟨by decide, by decide, by decide, by decide, by decide, hlen.1, hlen.2⟩,
    h.2.1 (by decide) (by decide) (by decide),
    h.1 1 _ (rooms_get 64 0 0 1 5 THEME_GOTHIC 0 1 (by omega)),
    (h.2.2 2 _ (rooms_get 64 0 0 1 5 THEME_GOTHIC 0 2 hlen.1) (by decide) hlen.2
      (by decide)).2.2.2⟩

/-! ## Positions of the rooms: C28 -/

theorem roomSize_width (depth : Int) (type : roomType_t) (s : Nat) (h1 : -2 ≤ depth)
    (h2 : depth * 32 + 640 < 2147483648) :
    0 < (roomSize depth type s).1.1 ∧ (roomSize depth type s).1.1 + 128 < 2147483648 ∧
    (depth ≤ 8172 → (roomSize depth type s).1.1 + 128 ≤ 262144) := by
  have hw := ArenaRandRange_bounds s 0 128 (by decide) (by decide) (by decide) (by decide)
  have hc := ArenaRandRange_bounds
    (ArenaRandRange 0 128 (ArenaRandRange 0 64 (ArenaRandRange 0 128 s).2).2).2 0 256
    (by decide) (by decide) (by decide) (by decide)
  unfold roomSize
  simp only
  split_ifs
  · refine ⟨?_, ?_, ?_⟩ <;> dsimp only <;> omega
  · rw [wrap32_of_range (by omega) (by omega)]
    refine ⟨?_, ?_, ?_⟩ <;> dsimp only <;> omega
  · rw [wrap32_of_range (by omega) (by omega)]
    refine ⟨?_, ?_, ?_⟩ <;> dsimp only <;> omega

theorem stepRoom_origin (numRooms depth : Int) (theme : arenaTheme_t) (st : roomLoopState)
    (i : Nat) : (stepRoom numRooms depth theme st i).origin = st.currentPos := rfl

theorem stepRoom_width (numRooms depth : Int) (theme : arenaTheme_t) (st : roomLoopState)
    (i : Nat) :
    (stepRoom numRooms depth theme st i).width =
      (roomSize depth (roomTypeAt numRooms depth i st.arenaRandSeed).1
        (roomTypeAt numRooms depth i st.arenaRandSeed).2).1.1 := rfl

/-- The cursor after one iteration of the room loop: `x` is advanced by a float
sum, `z` is kept, and `y` is kept or moved by a float sum with a draw from
`[-256, 256]`, and kept in the first iteration. -/
theorem roomStep_currentPos (numRooms depth : Int) (theme : arenaTheme_t) (st : roomLoopState)
    (i : Nat) :
    (roomStep numRooms depth theme st i).currentPos.x =
      floatAddInt st.currentPos.x
        (wrap32 ((stepRoom numRooms depth theme st i).width + 128)) ∧
    (roomStep numRooms depth theme st i).currentPos.z = st.currentPos.z ∧
    (i = 0 → (roomStep numRooms depth theme st i).currentPos.y = st.currentPos.y) ∧
    ((roomStep numRooms depth theme st i).currentPos.y = st.currentPos.y ∨
      ∃ off : Int, |off| ≤ 256 ∧
        (roomStep numRooms depth theme st i).currentPos.y = floatAddInt st.currentPos.y off) := by
  have hb := fun s => ArenaRandRange_bounds s (-256) 256 (by decide) (by decide) (by decide)
    (by decide)
  rw [stepRoom_width]
  unfold roomStep
  simp only
  split
  · rename_i hc
    refine ⟨rfl, rfl, ?_, Or.inr ⟨_, abs_le.mpr (hb _), rfl⟩⟩
    intro hi
    omega
  · exact ⟨rfl, rfl, fun _ => rfl, Or.inl rfl⟩

theorem generatedRoom_origin (seed depth : Int) (theme : arenaTheme_t) (j : Nat) :
    (generatedRoom seed depth theme j).origin =
      (roomLoopAt (genCount seed depth).1 depth theme (genCount seed depth).2 j).currentPos :=
  rfl

theorem generatedRoom_origin_succ (seed depth : Int) (theme : arenaTheme_t) (j : Nat) :
    (generatedRoom seed depth theme (j + 1)).origin.x =
      floatAddInt (generatedRoom seed depth theme j).origin.x
        (wrap32 ((generatedRoom seed depth theme j).width + 128)) ∧
    (generatedRoom seed depth theme (j + 1)).origin.z =
      (generatedRoom seed depth theme j).origin.z ∧
    (j = 0 → (generatedRoom seed depth theme (j + 1)).origin.y =
      (generatedRoom seed depth theme j).origin.y) ∧
    ((generatedRoom seed depth theme (j + 1)).origin.y =
        (generatedRoom seed depth theme j).origin.y ∨
      ∃ off : Int, |off| ≤ 256 ∧
        (generatedRoom seed depth theme (j + 1)).origin.y =
          floatAddInt (generatedRoom seed depth theme j).origin.y off) := by
  rw [generatedRoom_origin, generatedRoom_origin, roomLoopAt_succ]
  exact roomStep_currentPos _ _ _ _ _

theorem generatedRoom_origin_zero (seed depth : Int) (theme : arenaTheme_t) :
    (generatedRoom seed depth theme 0).origin = ⟨0, 0, 0⟩ := rfl

theorem generatedRoom_origin_z (seed depth : Int) (theme : arenaTheme_t) (j : Nat) :
    (generatedRoom seed depth theme j).origin.z = 0 := by
  induction j with
  | zero => rfl
  | succ j ih => rw [(generatedRoom_origin_succ seed depth theme j).2.1, ih]

/-- The lateral coordinate stays small, so its float sums are exact: consecutive
rooms differ by at most 256 in `y`. -/
theorem generatedRoom_origin_y (seed depth : Int) (theme : arenaTheme_t) (j : Nat)
    (hj : j ≤ 65535) :
    |(generatedRoom seed depth theme j).origin.y| ≤ 256 * (j : Int) ∧
    |(generatedRoom seed depth theme (j + 1)).origin.y -
      (generatedRoom seed depth theme j).origin.y| ≤ 256 := by
  induction j with
  | zero =>
    refine ⟨?_, ?_⟩
    · rw [generatedRoom_origin_zero]
      decide
    · rw [(generatedRoom_origin_succ seed depth theme 0).2.2.1 rfl, sub_self]
      decide
  | succ j ih =>
    obtain ⟨h1, h2⟩ := ih (by omega)
    have a1 := abs_le.mp h1
    have a2 := abs_le.mp h2
    have hy : |(generatedRoom seed depth theme (j + 1)).origin.y| ≤ 256 * ((j + 1 : Nat) : Int) := by
      rw [abs_le]
      push_cast
      constructor <;> omega
    refine ⟨hy, ?_⟩
    have b1 := abs_le.mp hy
    push_cast at b1
    rcases (generatedRoom_origin_succ seed depth theme (j + 1)).2.2.2 with h | ⟨off, ho, h⟩
    · rw [h, sub_self]
      decide
    · have o1 := abs_le.mp ho
      rw [h, floatAddInt_exact _ off (by rw [abs_le]; constructor <;> omega)
        (by rw [abs_le]; constructor <;> omega), add_sub_cancel_left]
      exact ho

theorem generatedRoom_width (seed depth : Int) (theme : arenaTheme_t) (j : Nat)
    (h1 : -2 ≤ depth) (h2 : depth * 32 + 640 < 2147483648) :
    0 < (generatedRoom seed depth theme j).width ∧
    wrap32 ((generatedRoom seed depth theme j).width + 128) =
      (generatedRoom seed depth theme j).width + 128 ∧
    (depth ≤ 8172 → (generatedRoom seed depth theme j).width + 128 ≤ 262144) := by
  have h := roomSize_width depth
    (roomTypeAt (genCount seed depth).1 depth j
      (roomLoopAt (genCount seed depth).1 depth theme (genCount seed depth).2 j).arenaRandSeed).1
    (roomTypeAt (genCount seed depth).1 depth j
      (roomLoopAt (genCount seed depth).1 depth theme (genCount seed depth).2 j).arenaRandSeed).2
    h1 h2
  have hw : (generatedRoom seed depth theme j).width = _ := stepRoom_width _ _ _ _ _
  rw [hw]
  exact ⟨h.1, wrap32_of_range (by omega) h.2.1, h.2.2⟩

/-- The cursor advances by the float sum with `width + 128`, and never goes below 0. -/
theorem generatedRoom_x_succ (seed depth : Int) (theme : arenaTheme_t) (j : Nat)
    (h1 : -2 ≤ depth) (h2 : depth * 32 + 640 < 2147483648) :
    (generatedRoom seed depth theme (j + 1)).origin.x =
      floatAddInt (generatedRoom seed depth theme j).origin.x
        ((generatedRoom seed depth theme j).width + 128) ∧
    0 ≤ (generatedRoom seed depth theme j).origin.x := by
  have hs := fun k => (generatedRoom_origin_succ seed depth theme k).1
  have hw := fun k => generatedRoom_width seed depth theme k h1 h2
  have hnn : ∀ k, 0 ≤ (generatedRoom seed depth theme k).origin.x := by
    intro k
    induction k with
    | zero => exact le_refl _
    | succ k ih =>
      rw [hs k, (hw k).2.1]
      exact floatAddInt_nonneg _ _ ih (by have := (hw k).1; omega)
  refine ⟨?_, hnn j⟩
  rw [hs j, (hw j).2.1]

/-- While the exact sum stays within `2^24`, the float sum is the exact sum. -/
theorem generatedRoom_x_exact (seed depth : Int) (theme : arenaTheme_t) (j : Nat)
    (h1 : -2 ≤ depth) (h2 : depth * 32 + 640 < 2147483648)
    (h3 : (generatedRoom seed depth theme j).origin.x +
      (generatedRoom seed depth theme j).width + 128 ≤ 16777216) :
    (generatedRoom seed depth theme (j + 1)).origin.x =
      (generatedRoom seed depth theme j).origin.x +
        (generatedRoom seed depth theme j).width + 128 := by
  obtain ⟨hs, hx⟩ := generatedRoom_x_succ seed depth theme j h1 h2
  have hw := (generatedRoom_width seed depth theme j h1 h2).1
  rw [hs, floatAddInt_exact _ _ (by rw [abs_le]; constructor <;> omega)
    (by rw [abs_le]; constructor <;> omega)]
  ring

/-- Up to depth 8172 every room of an arena (at most 64 of them) is reached by exact
sums. -/
theorem generatedRoom_x_le (seed depth : Int) (theme : arenaTheme_t) (j : Nat)
    (h1 : -2 ≤ depth) (h2 : depth ≤ 8172) (hj : j ≤ 63) :
    (generatedRoom seed depth theme j).origin.x +
      (generatedRoom seed depth theme j).width + 128 ≤ 262144 * ((j : Int) + 1) := by
  have hw := fun k => (generatedRoom_width seed depth theme k h1 (by omega)).2.2 h2
  induction j with
  | zero =>
    have := hw 0
    rw [generatedRoom_origin_zero]
    simp only
    omega
  | succ j ih =>
    have hj1 := ih (by omega)
    have := hw (j + 1)
    rw [generatedRoom_x_exact seed depth theme j h1 (by omega) (by omega)]
    push_cast
    omega

theorem generatedRoom_x_lt (seed depth : Int) (theme : arenaTheme_t)
    (h1 : -2 ≤ depth) (h2 : depth ≤ 8172) (j k : Nat) (hjk : j < k) (hk : k ≤ 64) :
    (generatedRoom seed depth theme j).origin.x < (generatedRoom seed depth theme k).origin.x := by
  induction k with
  | zero => omega
  | succ k ih =>
    have hle := generatedRoom_x_le seed depth theme k h1 h2 (by omega)
    have hs := generatedRoom_x_exact seed depth theme k h1 (by omega) (by omega)
    have hw := (generatedRoom_width seed depth theme k h1 (by omega)).1
    by_cases hk2 : j = k
    · subst hk2
      omega
    · have := ih (by omega) (by omega)
      omega

/-- C28 as amended: with the rooms of the arena returned by `G_GenerateArena` in
generation order, for an `int` depth for which the widths do not overflow: every
room has `origin.z = 0`, a positive width and `origin.x ≥ 0`, the first room has
origin `(0, 0, 0)`, and the room behind a room `r` has as `origin.x` the float sum
of `r.origin.x` and `r.width + 128`, which is `r.origin.x + r.width + 128`, and
more than `r.origin.x`, whenever that value is at most `2^24`; the second room has
`origin.y = 0`, and from the second room on consecutive rooms differ by at most 256
in `origin.y`.  Up to depth 8172 every sum is exact: the recurrence holds for every
room and `origin.x` strictly increases along the generation order. -/
theorem room_positions (M : Nat) (t0 t1 seed depth : Int) (theme : arenaTheme_t) (s : Nat)
    (hlo : -2147483648 ≤ depth) (hup : depth * 32 + 640 < 2147483648) :
    (∀ (j : Nat) (r : arenaRoom_t),
      (generationOrder (G_GenerateArena M t0 t1 seed depth theme s).1)[j]? = some r →
      r.origin.z = 0 ∧ 0 < r.width ∧ 0 ≤ r.origin.x ∧ (j = 0 → r.origin = ⟨0, 0, 0⟩) ∧
      ∀ r2 : arenaRoom_t,
        (generationOrder (G_GenerateArena M t0 t1 seed depth theme s).1)[j + 1]? = some r2 →
        r2.origin.x = floatAddInt r.origin.x (r.width + 128) ∧
        (r.origin.x + r.width + 128 ≤ 16777216 →
          r2.origin.x = r.origin.x + r.width + 128 ∧ r.origin.x < r2.origin.x) ∧
        (j = 0 → r2.origin.y = 0) ∧
        (1 ≤ j → |r2.origin.y - r.origin.y| ≤ 256)) ∧
    (depth ≤ 8172 →
      (∀ (j : Nat) (r r2 : arenaRoom_t),
        (generationOrder (G_GenerateArena M t0 t1 seed depth theme s).1)[j]? = some r →
        (generationOrder (G_GenerateArena M t0 t1 seed depth theme s).1)[j + 1]? = some r2 →
        r2.origin.x = r.origin.x + r.width + 128) ∧
      (∀ (j k : Nat) (r r2 : arenaRoom_t), j < k →
        (generationOrder (G_GenerateArena M t0 t1 seed depth theme s).1)[j]? = some r →
        (generationOrder (G_GenerateArena M t0 t1 seed depth theme s).1)[k]? = some r2 →
        r.origin.x < r2.origin.x)) := by
  have hlen : (generationOrder (G_GenerateArena M t0 t1 seed depth theme s).1).length =
      (G_GenerateArena M t0 t1 seed depth theme s).1.rooms.length := List.length_reverse _
  have hget : ∀ (j : Nat) (r : arenaRoom_t),
      (generationOrder (G_GenerateArena M t0 t1 seed depth theme s).1)[j]? = some r →
      r = generatedRoom seed depth theme j ∧ -2 ≤ depth ∧ j < 64 := by
    intro j r hr
    have hj : j < (G_GenerateArena M t0 t1 seed depth theme s).1.rooms.length := by
      have := (List.getElem?_eq_some_iff.mp hr).1
      omega
    rw [generationOrder_get M t0 t1 seed depth theme s j hj] at hr
    refine ⟨(Option.some.inj hr).symm, ?_⟩
    rw [(G_GenerateArena_room_counts M t0 t1 seed depth theme s).2] at hj
    have h64 := genCount_le seed depth
    exact ⟨(genCount_of_rooms seed depth hlo (by omega) (by omega)).1, by omega⟩
  constructor
  · intro j r hr
    obtain ⟨rfl, hd, hj⟩ := hget j r hr
    obtain ⟨hx, hnn⟩ := generatedRoom_x_succ seed depth theme j hd hup
    have hw := (generatedRoom_width seed depth theme j hd hup).1
    refine ⟨generatedRoom_origin_z _ _ _ _, hw, hnn, ?_, ?_⟩
    · rintro rfl
      rfl
    · intro r2 hr2
      obtain ⟨rfl, -, -⟩ := hget (j + 1) r2 hr2
      refine ⟨hx, ?_, ?_, fun _ => (generatedRoom_origin_y seed depth theme j (by omega)).2⟩
      · intro h3
        have he := generatedRoom_x_exact seed depth theme j hd hup h3
        exact ⟨he, by omega⟩
      · rintro rfl
        rw [(generatedRoom_origin_succ seed depth theme 0).2.2.1 rfl]
        rfl
  · intro h8
    constructor
    · intro j r r2 hr hr2
      obtain ⟨rfl, hd, hj⟩ := hget j r hr
      obtain ⟨rfl, -, -⟩ := hget (j + 1) r2 hr2
      have hle := generatedRoom_x_le seed depth theme j hd h8 (by omega)
      exact generatedRoom_x_exact seed depth theme j hd hup (by omega)
    · intro j k r r2 hjk hr hr2
      obtain ⟨rfl, hd, -⟩ := hget j r hr
      obtain ⟨rfl, -, hk⟩ := hget k r2 hr2
      exact generatedRoom_x_lt seed depth theme hd h8 j k hjk (by omega)

set_option maxRecDepth 1000000 in
/-- C28 fails as stated: in the arena of seed 0, depth 1000000 the second room is at
`x = 16000401` and 16000356 wide, and the third room is at `x = 32000884`, the float
nearest to `16000401 + 16000356 + 128 = 32000885`; and in the arena of seed 33,
depth 67108843, the room generated at position 17, a corridor 749 wide at
`x = 17179871232`, where consecutive floats are 2048 apart, is followed by a room
with the same `origin.x`. -/
theorem room_positions_counterexample :
    (∃ r r2 : arenaRoom_t,
      (generationOrder (G_GenerateArena 64 0 0 0 1000000 THEME_HELL 0).1)[1]? = some r ∧
      (generationOrder (G_GenerateArena 64 0 0 0 1000000 THEME_HELL 0).1)[2]? = some r2 ∧
      r.origin.x = 16000401 ∧ r.width = 16000356 ∧ r2.origin.x = 32000884 ∧
      r2.origin.x ≠ r.origin.x + r.width + 128) ∧
    (∃ r r2 : arenaRoom_t,
      (generationOrder (G_GenerateArena 64 0 0 33 67108843 THEME_HELL 0).1)[17]? = some r ∧
      (generationOrder (G_GenerateArena 64 0 0 33 67108843 THEME_HELL 0).1)[18]? = some r2 ∧
      r.origin.x = 17179871232 ∧ r.width = 749 ∧ r2.origin.x = 17179871232 ∧
      ¬ r.origin.x < r2.origin.x) :=
  have hlen : 2 < (G_GenerateArena 64 0 0 0 1000000 THEME_HELL 0).1.rooms.length := by
    rw [(G_GenerateArena_room_counts 64 0 0 0 1000000 THEME_HELL 0).2]
    decide
  have hlen2 : 18 < (G_GenerateArena 64 0 0 33 67108843 THEME_HELL 0).1.rooms.length := by
    rw [(G_GenerateArena_room_counts 64 0 0 33 67108843 THEME_HELL 0).2]
    decide
  ⟨⟨_, _, generationOrder_get 64 0 0 0 1000000 THEME_HELL 0 1 (by omega),
      generationOrder_get 64 0 0 0 1000000 THEME_HELL 0 2 hlen,
      by decide, by decide, by decide, by decide⟩,
    ⟨_, _, generationOrder_get 64 0 0 33 67108843 THEME_HELL 0 17 (by omega),
      generationOrder_get 64 0 0 33 67108843 THEME_HELL 0 18 hlen2,
      by decide, by decide, by decide, by decide⟩⟩

/-- Witness of C28 at seed 42, depth 1: the first three rooms in generation order. -/
theorem room_positions_witness :
    ((-2147483648 : Int) ≤ 1 ∧ (1 : Int) * 32 + 640 < 2147483648 ∧ (1 : Int) ≤ 8172 ∧
      2 < (G_GenerateArena 64 0 0 42 1 THEME_TECH 0).1.rooms.length) ∧
    (generatedRoom 42 1 THEME_TECH 0).origin.z = 0 ∧
    0 < (generatedRoom 42 1 THEME_TECH 0).width ∧
    (generatedRoom 42 1 THEME_TECH 1).origin.x =
      floatAddInt (generatedRoom 42 1 THEME_TECH 0).origin.x
        ((generatedRoom 42 1 THEME_TECH 0).width + 128) ∧
    (generatedRoom 42 1 THEME_TECH 1).origin.x =
      (generatedRoom 42 1 THEME_TECH 0).origin.x + (generatedRoom 42 1 THEME_TECH 0).width + 128 ∧
    (generatedRoom 42 1 THEME_TECH 1).origin.y = 0 ∧
    |(generatedRoom 42 1 THEME_TECH 2).origin.y - (generatedRoom 42 1 THEME_TECH 1).origin.y| ≤
      256 ∧
    (generatedRoom 42 1 THEME_TECH 0).origin.x < (generatedRoom 42 1 THEME_TECH 2).origin.x :=
  have hlen : 2 < (G_GenerateArena 64 0 0 42 1 THEME_TECH 0).1.rooms.length := by
    rw [(G_GenerateArena_room_counts 64 0 0 42 1 THEME_TECH 0).2]
    decide
  have h := room_positions 64 0 0 42 1 THEME_TECH 0 (by decide) (by decide)
  have g0 := generationOrder_get 64 0 0 42 1 THEME_TECH 0 0 (by omega)
  have g1 := generationOrder_get 64 0 0 42 1 THEME_TECH 0 1 (by omega)
  have g2 := generationOrder_get 64 0 0 42 1 THEME_TECH 0 2 hlen
  have h0 := h.1 0 _ g0
  have h1 := h0.2.2.2.2 _ g1
  ⟨⟨by decide, by decide, by decide, hlen⟩, h0.1, h0.2.1, h1.1,
    (h.2 (by decide)).1 0 _ _ g0 g1, h1.2.2.1 rfl,
    ((h.1 1 _ g1).2.2.2.2 _ g2).2.2.2 (le_refl 1), (h.2 (by decide)).2 0 2 _ _ (by decide) g0 g2⟩

/-! ## Theme is cosmetic: C22 -/

theorem roomStep_withoutTheme (numRooms depth : Int) (theme : arenaTheme_t)
    (st : roomLoopState) (i : Nat) :
    stateWithoutTheme (roomStep numRooms depth theme st i) =
      roomStep numRooms depth THEME_TECH (stateWithoutTheme st) i := by
  unfold roomStep stateWithoutTheme
  simp only
  split <;> rfl

theorem roomLoopAt_withoutTheme (numRooms depth : Int) (theme : arenaTheme_t) (s : Nat)
    (k : Nat) :
    stateWithoutTheme (roomLoopAt numRooms depth theme s k) =
      roomLoopAt numRooms depth THEME_TECH s k := by
  induction k with
  | zero => rfl
  | succ k ih => rw [roomLoopAt_succ, roomLoopAt_succ, roomStep_withoutTheme, ih]

theorem corridorsOf_withoutTheme (theme : arenaTheme_t) (l : List arenaRoom_t) (idx : Int) :
    (corridorsOf theme l idx).map corridorWithoutTheme =
      corridorsOf THEME_TECH (l.map roomWithoutTheme) idx := by
  induction l generalizing idx with
  | nil => rfl
  | cons a t ih =>
    cases t with
    | nil => rfl
    | cons b rest =>
      have h := ih (idx + 1)
      simp only [List.map_cons] at h ⊢
      rw [corridorsOf, corridorsOf, List.map_cons, h]
      rfl

theorem genBase_withoutTheme (seed depth : Int) (theme : arenaTheme_t) :
    withoutTheme (genBase seed depth theme).1 = (genBase seed depth THEME_TECH).1 ∧
    (genBase seed depth theme).2 = (genBase seed depth THEME_TECH).2 := by
  have h := roomLoopAt_withoutTheme (genCount seed depth).1 depth theme (genCount seed depth).2
    (genCount seed depth).1.toNat
  rw [← roomLoop_eq_roomLoopAt, ← roomLoop_eq_roomLoopAt] at h
  have hp : (roomLoop (genCount seed depth).1 depth theme (genCount seed depth).2).prevRoom.map
      roomWithoutTheme =
      (roomLoop (genCount seed depth).1 depth THEME_TECH (genCount seed depth).2).prevRoom :=
    congrArg roomLoopState.prevRoom h
  have hn : (roomLoop (genCount seed depth).1 depth theme (genCount seed depth).2).numRooms =
      (roomLoop (genCount seed depth).1 depth THEME_TECH (genCount seed depth).2).numRooms := by
    have h2 := congrArg roomLoopState.numRooms h
    exact h2
  have hs : (roomLoop (genCount seed depth).1 depth theme (genCount seed depth).2).arenaRandSeed =
      (roomLoop (genCount seed depth).1 depth THEME_TECH (genCount seed depth).2).arenaRandSeed := by
    have h2 := congrArg roomLoopState.arenaRandSeed h
    exact h2
  refine ⟨?_, hs⟩
  unfold genBase withoutTheme
  simp only [corridorLoop_eq, List.nil_append, zero_add, ← hp, ← hn, List.length_map,
    corridorsOf_withoutTheme]

theorem playerSpawnLoop_withoutTheme (room : arenaRoom_t) (n : Nat) (st : placeState) :
    playerSpawnLoop (roomWithoutTheme room) n st = playerSpawnLoop room n st := by
  induction n generalizing st with
  | zero => rfl
  | succ n ih =>
    rw [playerSpawnLoop, playerSpawnLoop]
    exact ih _

theorem find_start_withoutTheme (l : List arenaRoom_t) :
    (l.map roomWithoutTheme).find? (fun room => room.isStartRoom) =
      (l.find? (fun room => room.isStartRoom)).map roomWithoutTheme := by
  induction l with
  | nil => rfl
  | cons a t ih =>
    rw [List.map_cons, List.find?_cons, List.find?_cons, ih]
    show (match a.isStartRoom with
      | true => some (roomWithoutTheme a)
      | false => _) = _
    cases a.isStartRoom <;> rfl

theorem find_exit_withoutTheme (l : List arenaRoom_t) :
    (l.map roomWithoutTheme).find? (fun room => room.isExitRoom) =
      (l.find? (fun room => room.isExitRoom)).map roomWithoutTheme := by
  induction l with
  | nil => rfl
  | cons a t ih =>
    rw [List.map_cons, List.find?_cons, List.find?_cons, ih]
    show (match a.isExitRoom with
      | true => some (roomWithoutTheme a)
      | false => _) = _
    cases a.isExitRoom <;> rfl

theorem G_PlacePlayerSpawns_withoutTheme (M : Nat) (a : arena_t) (n : Int) (s : Nat) :
    withoutTheme (G_PlacePlayerSpawns M a n s).1 =
      (G_PlacePlayerSpawns M (withoutTheme a) n s).1 ∧
    (G_PlacePlayerSpawns M a n s).2 = (G_PlacePlayerSpawns M (withoutTheme a) n s).2 := by
  unfold G_PlacePlayerSpawns
  have h := find_start_withoutTheme a.rooms
  have hr : (withoutTheme a).rooms = a.rooms.map roomWithoutTheme := rfl
  rw [hr, h]
  cases a.rooms.find? (fun room => room.isStartRoom) with
  | none => exact ⟨rfl, rfl⟩
  | some room =>
    simp only [Option.map_some', playerSpawnLoop_withoutTheme]
    exact ⟨rfl, trivial⟩

theorem enemyRoomLoop_withoutTheme (room : arenaRoom_t) (N : Int) (n : Nat) (st : placeState) :
    enemyRoomLoop (roomWithoutTheme room) N n st = enemyRoomLoop room N n st := by
  induction n generalizing st with
  | zero => rfl
  | succ n ih =>
    rw [enemyRoomLoop, enemyRoomLoop]
    split
    · exact ih _
    · rfl

theorem enemyLoop_withoutTheme (N : Int) (l : List arenaRoom_t) (st : placeState) :
    enemyLoop N (l.map roomWithoutTheme) st = enemyLoop N l st := by
  induction l generalizing st with
  | nil => rfl
  | cons a t ih =>
    rw [List.map_cons, enemyLoop, enemyLoop]
    split
    · have hs : (roomWithoutTheme a).isStartRoom = a.isStartRoom := rfl
      have he : roomEnemies (roomWithoutTheme a) = roomEnemies a := rfl
      rw [hs, he, enemyRoomLoop_withoutTheme, ih, ih]
    · rfl

theorem itemLoop_withoutTheme (N : Int) (l : List arenaRoom_t) (st : placeState) :
    itemLoop N (l.map roomWithoutTheme) st = itemLoop N l st := by
  induction l generalizing st with
  | nil => rfl
  | cons a t ih =>
    rw [List.map_cons, itemLoop, itemLoop]
    split
    · have hs : (roomWithoutTheme a).isStartRoom = a.isStartRoom := rfl
      rw [hs]
      split
      · exact ih _
      · exact ih _
    · rfl

theorem G_PlaceEnemySpawns_withoutTheme (a : arena_t) (depth : Int) (s : Nat) :
    withoutTheme (G_PlaceEnemySpawns a depth s).1 =
      (G_PlaceEnemySpawns (withoutTheme a) depth s).1 ∧
    (G_PlaceEnemySpawns a depth s).2 = (G_PlaceEnemySpawns (withoutTheme a) depth s).2 := by
  have hr : (withoutTheme a).rooms = a.rooms.map roomWithoutTheme := rfl
  unfold G_PlaceEnemySpawns
  simp only [hr, enemyLoop_withoutTheme]
  exact ⟨rfl, trivial⟩

theorem G_PlaceItems_withoutTheme (a : arena_t) (depth : Int) (s : Nat) :
    withoutTheme (G_PlaceItems a depth s).1 = (G_PlaceItems (withoutTheme a) depth s).1 ∧
    (G_PlaceItems a depth s).2 = (G_PlaceItems (withoutTheme a) depth s).2 := by
  have hr : (withoutTheme a).rooms = a.rooms.map roomWithoutTheme := rfl
  unfold G_PlaceItems
  simp only [hr, itemLoop_withoutTheme]
  exact ⟨rfl, trivial⟩

theorem G_PlaceExitPortal_withoutTheme (a : arena_t) :
    withoutTheme (G_PlaceExitPortal a) = G_PlaceExitPortal (withoutTheme a) := by
  unfold G_PlaceExitPortal
  have h := find_exit_withoutTheme a.rooms
  have hr : (withoutTheme a).rooms = a.rooms.map roomWithoutTheme := rfl
  rw [hr, h]
  cases a.rooms.find? (fun room => room.isExitRoom) with
  | none => rfl
  | some room => rfl

theorem genItems_withoutTheme (M : Nat) (seed depth : Int) (theme : arenaTheme_t) :
    withoutTheme (genItems M seed depth theme).1 = (genItems M seed depth THEME_TECH).1 ∧
    (genItems M seed depth theme).2 = (genItems M seed depth THEME_TECH).2 := by
  obtain ⟨hb1, hb2⟩ := genBase_withoutTheme seed depth theme
  have hp : withoutTheme (genPlayers M seed depth theme).1 =
      (genPlayers M seed depth THEME_TECH).1 ∧
      (genPlayers M seed depth theme).2 = (genPlayers M seed depth THEME_TECH).2 := by
    unfold genPlayers
    obtain ⟨h1, h2⟩ := G_PlacePlayerSpawns_withoutTheme M (genBase seed depth theme).1 8
      (genBase seed depth theme).2
    rw [h1, h2, hb1, hb2]
    exact ⟨rfl, rfl⟩
  have he : withoutTheme (genEnemies M seed depth theme).1 =
      (genEnemies M seed depth THEME_TECH).1 ∧
      (genEnemies M seed depth theme).2 = (genEnemies M seed depth THEME_TECH).2 := by
    unfold genEnemies
    obtain ⟨h1, h2⟩ := G_PlaceEnemySpawns_withoutTheme (genPlayers M seed depth theme).1 depth
      (genPlayers M seed depth theme).2
    rw [h1, h2, hp.1, hp.2]
    exact ⟨rfl, rfl⟩
  unfold genItems
  obtain ⟨h1, h2⟩ := G_PlaceItems_withoutTheme (genEnemies M seed depth theme).1 depth
    (genEnemies M seed depth theme).2
  rw [h1, h2, he.1, he.2]
  exact ⟨rfl, rfl⟩

theorem G_GenerateArena_withoutTheme (M : Nat) (t0 t1 seed depth : Int)
    (theme : arenaTheme_t) (s : Nat) :
    withoutTheme (G_GenerateArena M t0 t1 seed depth theme s).1 =
      (G_GenerateArena M t0 t1 seed depth THEME_TECH s).1 ∧
    (G_GenerateArena M t0 t1 seed depth theme s).2 =
      (G_GenerateArena M t0 t1 seed depth THEME_TECH s).2 := by
  obtain ⟨h1, h2⟩ := genItems_withoutTheme M seed depth theme
  rw [G_GenerateArena_eq, G_GenerateArena_eq]
  refine ⟨?_, h2⟩
  show ({ withoutTheme (G_PlaceExitPortal (genItems M seed depth theme).1) with
      worldMins := ⟨-2048, -2048, -512⟩
      worldMaxs := ⟨2048, 2048, 512⟩
      generationTime := wrap32 (t1 - t0) } : arena_t) = _
  rw [G_PlaceExitPortal_withoutTheme, h1]

theorem corridorsOf_theme (theme : arenaTheme_t) (l : List arenaRoom_t) (idx : Int) :
    ∀ c ∈ corridorsOf theme l idx, c.theme = theme := by
  induction l generalizing idx with
  | nil =>
    intro c hc
    simp [corridorsOf] at hc
  | cons a t ih =>
    cases t with
    | nil =>
      intro c hc
      simp [corridorsOf] at hc
    | cons b rest =>
      intro c hc
      rw [corridorsOf, List.mem_cons] at hc
      rcases hc with rfl | hc
      · rfl
      · exact ih (idx + 1) c hc

theorem G_GenerateArena_tags (M : Nat) (t0 t1 seed depth : Int) (theme : arenaTheme_t)
    (s : Nat) :
    (G_GenerateArena M t0 t1 seed depth theme s).1.theme = theme ∧
    (∀ room ∈ (G_GenerateArena M t0 t1 seed depth theme s).1.rooms, room.theme = theme) ∧
    (∀ c ∈ (G_GenerateArena M t0 t1 seed depth theme s).1.corridors, c.theme = theme) := by
  refine ⟨G_GenerateArena_theme M t0 t1 seed depth theme s, ?_, ?_⟩
  · rw [G_GenerateArena_rooms, roomLoop_eq_roomLoopAt, roomLoopAt_prevRoom_eq]
    intro room hroom
    rw [List.mem_reverse, List.mem_map] at hroom
    obtain ⟨j, -, rfl⟩ := hroom
    rfl
  · rw [(G_GenerateArena_corridors M t0 t1 seed depth theme s).1, corridorLoop_eq]
    exact corridorsOf_theme theme _ _

theorem withoutTheme_shapes (a b : arena_t) (h : withoutTheme a = withoutTheme b) :
    a.numRooms = b.numRooms ∧ a.rooms.map roomShape = b.rooms.map roomShape ∧
    a.numCorridors = b.numCorridors ∧
    a.corridors.map corridorShape = b.corridors.map corridorShape ∧
    (a.playerSpawns = b.playerSpawns ∧ a.numPlayerSpawns = b.numPlayerSpawns) ∧
    (a.enemySpawns = b.enemySpawns ∧ a.numEnemySpawns = b.numEnemySpawns) ∧
    (a.itemSpawns = b.itemSpawns ∧ a.numItemSpawns = b.numItemSpawns) ∧
    a.exitPortal = b.exitPortal := by
  have hr : ∀ x : arena_t, (withoutTheme x).rooms.map roomShape = x.rooms.map roomShape := by
    intro x
    show (x.rooms.map roomWithoutTheme).map roomShape = _
    rw [List.map_map]
    rfl
  have hc : ∀ x : arena_t,
      (withoutTheme x).corridors.map corridorShape = x.corridors.map corridorShape := by
    intro x
    show (x.corridors.map corridorWithoutTheme).map corridorShape = _
    rw [List.map_map]
    rfl
  have e1 : (withoutTheme a).numRooms = (withoutTheme b).numRooms := by rw [h]
  have e2 : (withoutTheme a).numCorridors = (withoutTheme b).numCorridors := by rw [h]
  have e3 : (withoutTheme a).playerSpawns = (withoutTheme b).playerSpawns := by rw [h]
  have e4 : (withoutTheme a).numPlayerSpawns = (withoutTheme b).numPlayerSpawns := by rw [h]
  have e5 : (withoutTheme a).enemySpawns = (withoutTheme b).enemySpawns := by rw [h]
  have e6 : (withoutTheme a).numEnemySpawns = (withoutTheme b).numEnemySpawns := by rw [h]
  have e7 : (withoutTheme a).itemSpawns = (withoutTheme b).itemSpawns := by rw [h]
  have e8 : (withoutTheme a).numItemSpawns = (withoutTheme b).numItemSpawns := by rw [h]
  have e9 : (withoutTheme a).exitPortal = (withoutTheme b).exitPortal := by rw [h]
  refine ⟨e1, ?_, e2, ?_, ⟨e3, e4⟩, ⟨e5, e6⟩, ⟨e7, e8⟩, e9⟩
  · rw [← hr a, ← hr b, h]
  · rw [← hc a, ← hc b, h]

/-- C22: for every seed and depth and any two themes, the arenas returned by
`G_GenerateArena` are equal once the theme tags of the arena, of its rooms and of its
corridors are blanked, and the generator is left in the same state.  So they agree on
`numRooms`, on the type, origin, width, height, depth, bounding box and role flags of
every room, on the indices, endpoints and width of every corridor, on the spawn
tables and on the exit portal; and the tags of each arena are the theme passed. -/
theorem theme_is_cosmetic (M : Nat) (t0 t1 seed depth : Int) (th1 th2 : arenaTheme_t)
    (s : Nat) :
    withoutTheme (G_GenerateArena M t0 t1 seed depth th1 s).1 =
      withoutTheme (G_GenerateArena M t0 t1 seed depth th2 s).1 ∧
    (G_GenerateArena M t0 t1 seed depth th1 s).2 = (G_GenerateArena M t0 t1 seed depth th2 s).2 ∧
    ((G_GenerateArena M t0 t1 seed depth th1 s).1.numRooms =
        (G_GenerateArena M t0 t1 seed depth th2 s).1.numRooms ∧
      (G_GenerateArena M t0 t1 seed depth th1 s).1.rooms.map roomShape =
        (G_GenerateArena M t0 t1 seed depth th2 s).1.rooms.map roomShape ∧
      (G_GenerateArena M t0 t1 seed depth th1 s).1.numCorridors =
        (G_GenerateArena M t0 t1 seed depth th2 s).1.numCorridors ∧
      (G_GenerateArena M t0 t1 seed depth th1 s).1.corridors.map corridorShape =
        (G_GenerateArena M t0 t1 seed depth th2 s).1.corridors.map corridorShape ∧
      ((G_GenerateArena M t0 t1 seed depth th1 s).1.playerSpawns =
          (G_GenerateArena M t0 t1 seed depth th2 s).1.playerSpawns ∧
        (G_GenerateArena M t0 t1 seed depth th1 s).1.numPlayerSpawns =
          (G_GenerateArena M t0 t1 seed depth th2 s).1.numPlayerSpawns) ∧
      ((G_GenerateArena M t0 t1 seed depth th1 s).1.enemySpawns =
          (G_GenerateArena M t0 t1 seed depth th2 s).1.enemySpawns ∧
        (G_GenerateArena M t0 t1 seed depth th1 s).1.numEnemySpawns =
          (G_GenerateArena M t0 t1 seed depth th2 s).1.numEnemySpawns) ∧
      ((G_GenerateArena M t0 t1 seed depth th1 s).1.itemSpawns =
          (G_GenerateArena M t0 t1 seed depth th2 s).1.itemSpawns ∧
        (G_GenerateArena M t0 t1 seed depth th1 s).1.numItemSpawns =
          (G_GenerateArena M t0 t1 seed depth th2 s).1.numItemSpawns) ∧
      (G_GenerateArena M t0 t1 seed depth th1 s).1.exitPortal =
        (G_GenerateArena M t0 t1 seed depth th2 s).1.exitPortal) ∧
    ((G_GenerateArena M t0 t1 seed depth th1 s).1.theme = th1 ∧
      (∀ room ∈ (G_GenerateArena M t0 t1 seed depth th1 s).1.rooms, room.theme = th1) ∧
      (∀ c ∈ (G_GenerateArena M t0 t1 seed depth th1 s).1.corridors, c.theme = th1)) ∧
    ((G_GenerateArena M t0 t1 seed depth th2 s).1.theme = th2 ∧
      (∀ room ∈ (G_GenerateArena M t0 t1 seed depth th2 s).1.rooms, room.theme = th2) ∧
      (∀ c ∈ (G_GenerateArena M t0 t1 seed depth th2 s).1.corridors, c.theme = th2)) := by
  obtain ⟨h1, g1⟩ := G_GenerateArena_withoutTheme M t0 t1 seed depth th1 s
  obtain ⟨h2, g2⟩ := G_GenerateArena_withoutTheme M t0 t1 seed depth th2 s
  have h : withoutTheme (G_GenerateArena M t0 t1 seed depth th1 s).1 =
      withoutTheme (G_GenerateArena M t0 t1 seed depth th2 s).1 := by rw [h1, h2]
  exact ⟨h, by rw [g1, g2], withoutTheme_shapes _ _ h,
    G_GenerateArena_tags M t0 t1 seed depth th1 s, G_GenerateArena_tags M t0 t1 seed depth th2 s⟩

/-- Witness of C22 at seed 42, depth 1, themes tech and hell: the arenas agree up to
the tags, and the head of the chain of the second one is tagged hell. -/
theorem theme_is_cosmetic_witness :
    0 < (G_GenerateArena 64 0 0 42 1 THEME_HELL 0).1.rooms.length ∧
    withoutTheme (G_GenerateArena 64 0 0 42 1 THEME_TECH 0).1 =
      withoutTheme (G_GenerateArena 64 0 0 42 1 THEME_HELL 0).1 ∧
    (generatedRoom 42 1 THEME_HELL
      ((G_GenerateArena 64 0 0 42 1 THEME_HELL 0).1.rooms.length - 1 - 0)).theme = THEME_HELL :=
  have hlen : 0 < (G_GenerateArena 64 0 0 42 1 THEME_HELL 0).1.rooms.length := by
    rw [(G_GenerateArena_room_counts 64 0 0 42 1 THEME_HELL 0).2]
    decide
  have h := theme_is_cosmetic 64 0 0 42 1 THEME_TECH THEME_HELL 0
  ⟨hlen, h.1,
    h.2.2.2.2.2.1 _ (List.getElem?_mem (rooms_get 64 0 0 42 1 THEME_HELL 0 0 hlen))⟩

end ArenaGen
